import Mathlib

/-!
# Portenta Machine Control temperature probes: TempProbeClass, MAX31855Class, MAX31865Class

A shallow embedding of `src/TempProbeClass.cpp`, `src/utility/THERMOCOUPLE/MAX31855.cpp`
and `src/utility/RTD/MAX31865.cpp`.

* The C++ object `MachineControl_TempProbe` (a `TempProbeClass`, which inherits from both
  `MAX31855Class` and `MAX31865Class`) together with the hardware it drives is one record,
  `Machine`.  Every member function is a function `Machine → Machine` (or
  `Machine → Machine × result`).
* Hardware collaborators are explicit: pin directions and levels, the MAX31865 register file,
  the bytes the bus delivers to `MAX31855Class::readSensor` (an argument), the value
  `millis()` returns (an argument), and a trace `log` of every hardware access, every
  `delay` and the entry of a few member functions.
* Machine integers are `Nat`/`Int` with explicit reductions (`u8`, `u32`).
-/

namespace PortentaMachineControl

/-! ## Enumerations -/

/-- The enumeration `temperature_probe_t` of `enums_mc.h`. -/
inductive temperature_probe_t where
  | PROBE_NC
  | PROBE_TC_K
  | PROBE_TC_J
  | PROBE_TC_T
  | PROBE_RTD_PT100_2W
  | PROBE_RTD_PT100_3W
  deriving DecidableEq

/-- The enumeration `channel_select_state_t` of `TempProbeClass.h`. -/
inductive channel_select_state_t where
  | SWITCHING
  | SELECTED
  deriving DecidableEq

/-- The enumeration `max31865_conversion_state_t` of `MAX31865.h`. -/
inductive max31865_conversion_state_t where
  | IDLE
  | SETTLING
  | CONVERTING
  deriving DecidableEq

/-- The enumeration `max31865_fault_cycle_t` of `MAX31865.h`; `MAX31865_FAULT_NONE` is 0. -/
inductive max31865_fault_cycle_t where
  | MAX31865_FAULT_NONE
  | MAX31865_FAULT_AUTO
  | MAX31865_FAULT_MANUAL_RUN
  | MAX31865_FAULT_MANUAL_FINISH
  deriving DecidableEq

/-- The six lines the driver touches: `_ch_sel0`, `_ch_sel1`, `_ch_sel2`, `_rtd_th` of
`TempProbeClass`, and the chip selects `_cs` of `MAX31855Class` and of `MAX31865Class`. -/
inductive Pin where
  | ch_sel0
  | ch_sel1
  | ch_sel2
  | rtd_th
  | tc_cs
  | rtd_cs
  deriving DecidableEq

/-- Pin directions used by the driver (`INPUT`, `OUTPUT`). -/
inductive PinMode where
  | INPUT
  | OUTPUT
  deriving DecidableEq

/-- Signal levels: `LOW` is `false`. -/
abbrev LOW : Bool := false

/-- Signal levels: `HIGH` is `true`. -/
abbrev HIGH : Bool := true

open temperature_probe_t channel_select_state_t max31865_conversion_state_t

/-- One entry of the trace: a hardware access, a wait, or the entry of a member function. -/
inductive Event where
  | pinMode (pin : Pin) (mode : PinMode)
  | digitalWrite (pin : Pin) (level : Bool)
  | delay (ms : Nat)
  | delayMicroseconds (us : Nat)
  | spi_begin
  | spi_end
  | tc_read (b0 b1 b2 b3 : Nat)
  | rtd_readByte (addr : Nat)
  | rtd_readWord (addr : Nat)
  | rtd_writeByte (addr : Nat) (data : Nat)
  | call_initDO
  | call_deinitDO
  | call_setTCType (t : temperature_probe_t)
  | call_setRTDType (t : temperature_probe_t)
  | call_MAX31855_begin
  | call_MAX31855_end
  | call_MAX31865_begin
  | call_MAX31865_end
  deriving DecidableEq

/-! ## Machine integers -/

/-- Reduction to `uint8_t`. -/
def u8 (x : Nat) : Nat := x % 256

/-- Reduction to `uint32_t`. -/
def u32 (x : Nat) : Nat := x % 4294967296

/-- The `uint32_t` difference `a - b` of two `uint32_t` values. -/
def sub32 (a b : Nat) : Nat := (u32 a + 4294967296 - u32 b) % 4294967296

/-- The value `~m` restricted to eight bits, for a mask `m` of eight bits. -/
def not8 (m : Nat) : Nat := 255 ^^^ m

/-! ## State -/

/-- The object `MachineControl_TempProbe` and the hardware around it.

Members of `TempProbeClass` keep their names without the leading underscore; members of the
two base classes are prefixed `tc_` (`MAX31855Class`) and `rtd_` (`MAX31865Class`). -/
structure Machine where
  /-- Member `TempProbeClass::_current_channel` (`int16_t`, `-1` when nothing is selected). -/
  current_channel : Int
  /-- Member `TempProbeClass::_switch_delay` (`uint8_t`). -/
  switch_delay : Nat
  /-- Member `TempProbeClass::_current_probe_type[3]`, read and written at indices 0..2 only. -/
  current_probe_type : Nat → temperature_probe_t
  /-- Member `TempProbeClass::_async_timer` (`uint32_t`). -/
  async_timer : Nat
  /-- Member `TempProbeClass::_async_state`. -/
  async_state : channel_select_state_t
  /-- Member `TempProbeClass::_tc_init`. -/
  tc_init : Bool
  /-- Member `TempProbeClass::_rtd_init`. -/
  rtd_init : Bool
  /-- Member `MAX31855Class::_current_probe_type`. -/
  tc_current_probe_type : temperature_probe_t
  /-- Member `MAX31855Class::_fault_mask`. -/
  tc_fault_mask : Nat
  /-- Member `MAX31855Class::_last_fault`. -/
  tc_last_fault : Nat
  /-- Member `MAX31855Class::_cold_offset` (a `float`, held as an exact rational). -/
  tc_cold_offset : ℚ
  /-- Member `MAX31865Class::_current_probe_type`. -/
  rtd_current_probe_type : temperature_probe_t
  /-- Member `MAX31865Class::_begun`. -/
  rtd_begun : Bool
  /-- Member `MAX31865Class::_continuous_mode_enabled`. -/
  rtd_continuous_mode_enabled : Bool
  /-- Member `MAX31865Class::_50hz_filter_enabled`. -/
  rtd_50hz_filter_enabled : Bool
  /-- Member `MAX31865Class::_bias_voltage_enabled`. -/
  rtd_bias_voltage_enabled : Bool
  /-- Member `MAX31865Class::_async_timer`. -/
  rtd_async_timer : Nat
  /-- Member `MAX31865Class::_async_state`. -/
  rtd_async_state : max31865_conversion_state_t
  /-- Direction of every pin. -/
  mode : Pin → PinMode
  /-- Output level last written to every pin. -/
  level : Pin → Bool
  /-- The MAX31865 register file: a register holds the last byte written to it. -/
  reg : Nat → Nat
  /-- Trace of hardware accesses, waits and entries of member functions, oldest first. -/
  log : List Event

/-- The in-class initialisers of `MAX31855Class`, whose header `MAX31855.h` is not among the
sources: the initial probe type, fault mask and last fault are parameters. -/
structure MAX31855Defaults where
  current_probe_type : temperature_probe_t
  fault_mask : Nat
  last_fault : Nat

/-- The object after static initialisation: `MachineControl_TempProbe` is a global, so members
without an initialiser are zero; the others carry their in-class initialisers
(`_current_channel = -1`, `_current_probe_type = {PROBE_NC, PROBE_NC, PROBE_NC}`,
`_async_state = SELECTED`, `_tc_init = _rtd_init = false`; the constructor sets
`_cold_offset` to `2.10`).  All pins are inputs with level
low, the register file is zero and the trace is empty. -/
def Machine.init (d : MAX31855Defaults) : Machine where
  current_channel := -1
  switch_delay := 0
  current_probe_type := fun _ => PROBE_NC
  async_timer := 0
  async_state := SELECTED
  tc_init := false
  rtd_init := false
  tc_current_probe_type := d.current_probe_type
  tc_fault_mask := d.fault_mask
  tc_last_fault := d.last_fault
  tc_cold_offset := 21 / 10
  rtd_current_probe_type := PROBE_NC
  rtd_begun := false
  rtd_continuous_mode_enabled := false
  rtd_50hz_filter_enabled := false
  rtd_bias_voltage_enabled := false
  rtd_async_timer := 0
  rtd_async_state := IDLE
  mode := fun _ => PinMode.INPUT
  level := fun _ => LOW
  reg := fun _ => 0
  log := []

/-! ## Hardware collaborators -/

/-- Append one entry to the trace. -/
def emit (e : Event) (s : Machine) : Machine :=
  { s with log := s.log ++ [e] }

/-- The Arduino call `pinMode(pin, mode)`. -/
def pinMode (pin : Pin) (m : PinMode) (s : Machine) : Machine :=
  emit (Event.pinMode pin m) { s with mode := Function.update s.mode pin m }

/-- The Arduino call `digitalWrite(pin, level)`: it sets the output level of the pin. -/
def digitalWrite (pin : Pin) (v : Bool) (s : Machine) : Machine :=
  emit (Event.digitalWrite pin v) { s with level := Function.update s.level pin v }

/-- The Arduino call `delay(ms)`: a blocking wait of `ms` time-units. -/
def delay (ms : Nat) (s : Machine) : Machine :=
  emit (Event.delay ms) s

/-- The Arduino call `delayMicroseconds(us)`. -/
def delayMicroseconds (us : Nat) (s : Machine) : Machine :=
  emit (Event.delayMicroseconds us) s

/-- The trace entries added between state `s` and a later state `s2`. -/
def emitted (s s2 : Machine) : List Event :=
  s2.log.drop s.log.length

/-- Total blocking wait, in time-units, recorded in a list of trace entries. -/
def waited : List Event → Nat
  | [] => 0
  | Event.delay ms :: es => ms + waited es
  | _ :: es => waited es

/-- The bytes the bus delivers in the four transfers of one `MAX31855Class::readSensor`. -/
structure SpiFrame where
  b0 : Nat
  b1 : Nat
  b2 : Nat
  b3 : Nat

/-! ## Numbers

Values of type `double` are modelled by `Double`: the finite values as exact rationals, the
two infinities and `NAN`.  Their arithmetic is the IEEE 754 binary64 arithmetic of the
target: an operation on finite values rounds its exact result to the nearest representable
value, ties to even, and overflows to an infinity (`Double.round`).  The sign of a zero is
not modelled; no comparison and no sum or product below depends on it.  The two decode
functions are stated over exact rationals (their products with the literals `0.25f` and
`0.0625f` are exact in the machine arithmetic as well: integers below `2^24` scaled by a
power of two); their results enter the `double` arithmetic of `readTCVoltage` through
`Double.round`. -/

/-- Reduction to `uint16_t`. -/
def u16 (x : Nat) : Nat := x % 65536

/-- Conversion of a `uint32_t` value to `int32_t` (two's complement). -/
def toInt32 (x : Nat) : Int :=
  if u32 x < 2147483648 then (u32 x : Int) else (u32 x : Int) - 4294967296

/-- The power of two with the integer exponent `k`. -/
def pow2 (k : Int) : ℚ :=
  if 0 ≤ k then mkRat (2 ^ k.toNat) 1 else mkRat 1 (2 ^ (-k).toNat)

/-- For `fuel ≥ n`, the number of halvings that take `n` below 2: the position of the
leading binary digit of `n ≥ 1`. -/
def log2Fuel : Nat → Nat → Nat
  | 0, _ => 0
  | fuel + 1, n => if n < 2 then 0 else log2Fuel fuel (n / 2) + 1

/-- For `a > 0`, the integer `e` with `2^e ≤ a < 2^(e+1)`.  With `p` and `q` the leading
digit positions of numerator and denominator, `a` lies between `2^(p-q-1)` and `2^(p-q+1)`,
so `e` is `p - q` or `p - q - 1`. -/
def floorLog2 (a : ℚ) : Int :=
  let k : Int := (log2Fuel a.num.natAbs a.num.natAbs : Int) - (log2Fuel a.den a.den : Int)
  if pow2 k ≤ a then k else k - 1

/-- The integer nearest to `x ≥ 0`, the even one of the two when `x` lies half-way. -/
def roundHalfEven (x : ℚ) : Int :=
  let f := Rat.floor x
  let d := x - f
  if d < 1 / 2 then f else if 1 / 2 < d then f + 1 else if f % 2 = 0 then f else f + 1

/-- A value of type `double`: a finite number, plus or minus infinity, or `NAN`. -/
inductive Double where
  | finite (q : ℚ)
  | pinf
  | ninf
  | nan
  deriving DecidableEq

/-- Rounding of the exact number `q` to the binary floating-point format with `prec`
significant bits and exponents from `emin` to `emax`: to the nearest multiple of the unit in
the last place at the magnitude of `q` (that of `2^emin` for subnormal magnitudes), ties to
even; a result of magnitude `2^(emax+1)` or more is an infinity. -/
def roundBinary (prec : Nat) (emin emax : Int) (q : ℚ) : Double :=
  if q = 0 then Double.finite 0
  else
    let a := |q|
    let e := max (floorLog2 a) emin
    let ulp := pow2 (e - ((prec : Int) - 1))
    let r := (roundHalfEven (a / ulp) : ℚ) * ulp
    if pow2 (emax + 1) ≤ r then (if q < 0 then Double.ninf else Double.pinf)
    else Double.finite (if q < 0 then -r else r)

namespace Double

/-- Rounding to `double` (binary64: 53 significant bits, exponents -1022 to 1023). -/
def round (q : ℚ) : Double := roundBinary 53 (-1022) 1023 q

/-- The `double` value of a `float` literal with the decimal value `q` (binary32: 24
significant bits, exponents -126 to 127); the conversion from `float` to `double` is exact. -/
def ofFloatLiteral (q : ℚ) : Double := roundBinary 24 (-126) 127 q

/-- The number `q` is a value of type `double`: rounding leaves it as it is. -/
def representable (q : ℚ) : Prop := round q = finite q

instance (q : ℚ) : Decidable (representable q) :=
  inferInstanceAs (Decidable (round q = finite q))

/-- Negation of a `double`. -/
def neg : Double → Double
  | finite x => finite (-x)
  | pinf => ninf
  | ninf => pinf
  | nan => nan

/-- Addition of `double` values: the rounded sum of finite values; an infinity absorbs a
finite value and itself; `NAN` for infinities of opposite sign and for a `NAN` operand. -/
def add : Double → Double → Double
  | finite x, finite y => round (x + y)
  | finite _, pinf => pinf
  | finite _, ninf => ninf
  | pinf, finite _ => pinf
  | pinf, pinf => pinf
  | ninf, finite _ => ninf
  | ninf, ninf => ninf
  | _, _ => nan

/-- Subtraction of `double` values. -/
def sub (a b : Double) : Double := add a (neg b)

/-- Multiplication of `double` values: the rounded product of finite values; an infinity
times a non-zero value is an infinity with the product of the signs; `NAN` for an infinity
times zero and for a `NAN` operand. -/
def mul : Double → Double → Double
  | finite x, finite y => round (x * y)
  | finite x, pinf => if x = 0 then nan else if 0 < x then pinf else ninf
  | finite x, ninf => if x = 0 then nan else if 0 < x then ninf else pinf
  | pinf, finite y => if y = 0 then nan else if 0 < y then pinf else ninf
  | ninf, finite y => if y = 0 then nan else if 0 < y then ninf else pinf
  | pinf, pinf => pinf
  | ninf, ninf => pinf
  | pinf, ninf => ninf
  | ninf, pinf => ninf
  | _, _ => nan

/-- The comparison `a < b` of `double` values; it is false when an operand is `NAN`. -/
def lt : Double → Double → Bool
  | finite x, finite y => decide (x < y)
  | finite _, pinf => true
  | ninf, finite _ => true
  | ninf, pinf => true
  | _, _ => false

end Double

/-- The record `coefftable`, as `MAX31855Class::polynomial` reads it: the number of
coefficients `size`, the coefficient array `coeffs` (indexed from 0) and the upper bound `max`
of the segment.  The stored `double` values are finite and given by their numbers. -/
structure coefftable where
  size : Nat
  coeffs : Nat → ℚ
  max : ℚ

/-- What `MAX31855.cpp` takes from outside its own text.  The polynomial tables and their
lengths `sizeof(T) / sizeof(coefftable)` are declared in `MAX31855.h`, which is not among the
sources, so they are parameters (a table is the memory the pointer `table` points to, indexed
from 0); `exp` and `pow` are the library functions; the `uninit_` fields are the indeterminate values of
the local variables that are read before anything is assigned to them (`measuredCold` in
`decodeReferenceSensorData`; `table` and `tableEntries` in `tempTomv` and `mvtoTemp` when the
probe type is none of the three thermocouple types). -/
structure MAX31855Env where
  CoeffJ : Nat → coefftable
  sizeCoeffJ : Nat
  CoeffK : Nat → coefftable
  sizeCoeffK : Nat
  CoeffT : Nat → coefftable
  sizeCoeffT : Nat
  InvCoeffJ : Nat → coefftable
  sizeInvCoeffJ : Nat
  InvCoeffK : Nat → coefftable
  sizeInvCoeffK : Nat
  InvCoeffT : Nat → coefftable
  sizeInvCoeffT : Nat
  exp : Double → Double
  pow : Double → Double → Double
  uninit_measuredCold : ℚ
  uninit_table : Nat → coefftable
  uninit_tableEntries : Nat

/-! ## MAX31855Class (thermocouple converter) -/

namespace MAX31855Class

/-- The function `MAX31855Class::end` (`end` is reserved in Lean). -/
def end_ (s : Machine) : Machine :=
  let s := emit Event.call_MAX31855_end s
  let s := pinMode Pin.tc_cs PinMode.INPUT s
  let s := digitalWrite Pin.tc_cs LOW s
  emit Event.spi_end s

/-- The function `MAX31855Class::readSensor`: four transfers, each shifting the `uint32_t`
accumulator left by eight bits and or-ing the received byte in.  `rx` holds the received
bytes. -/
def readSensor (rx : SpiFrame) (s : Machine) : Machine × Nat :=
  let s := digitalWrite Pin.tc_cs LOW s
  let s := delayMicroseconds 1 s
  let s := emit (Event.tc_read rx.b0 rx.b1 rx.b2 rx.b3) s
  let read := [rx.b0, rx.b1, rx.b2, rx.b3].foldl (fun read b => u32 (read <<< 8) ||| u8 b) 0
  let s := digitalWrite Pin.tc_cs HIGH s
  (s, read)

/-- The function `MAX31855Class::begin`. -/
def begin (rx : SpiFrame) (s : Machine) : Machine × Bool :=
  let s := emit Event.call_MAX31855_begin s
  let s := pinMode Pin.tc_cs PinMode.OUTPUT s
  let s := digitalWrite Pin.tc_cs HIGH s
  let s := emit Event.spi_begin s
  let r := readSensor rx s
  if r.2 = 0xFFFFFF then
    (end_ r.1, false)
  else
    (r.1, true)

/-- The function `MAX31855Class::setTCType`. -/
def setTCType (type : temperature_probe_t) (s : Machine) : Machine :=
  { emit (Event.call_setTCType type) s with tc_current_probe_type := type }

/-- The function `MAX31855Class::getTCType`. -/
def getTCType (s : Machine) : temperature_probe_t :=
  s.tc_current_probe_type

/-- The function `MAX31855Class::decodeTemperatureSensorData`. -/
def decodeTemperatureSensorData (rawword : Nat) : ℚ :=
  let measuredTempInt : Int :=
    if rawword &&& 0x80000000 ≠ 0 then
      toInt32 (0xFFFFC000 ||| ((rawword >>> 18) &&& 0x00003FFF))
    else
      toInt32 (rawword >>> 18)
  (measuredTempInt : ℚ) * (1 / 4)

/-- The function `MAX31855Class::decodeReferenceSensorData`.  The local `measuredCold` is
declared without an initialiser and then updated with `+=`, so its indeterminate initial
value `uninit` enters the result. -/
def decodeReferenceSensorData (uninit : ℚ) (rawword : Nat) (s : Machine) : ℚ :=
  let measuredColdInt : Int := toInt32 ((rawword >>> 4) &&& 0xFFF)
  let measuredColdInt : Int :=
    if (rawword >>> 4) &&& 0xFFF &&& 0x800 ≠ 0 then
      toInt32 (((rawword >>> 4) &&& 0xFFF) ||| 0xFFFFF000)
    else
      measuredColdInt
  let measuredCold : ℚ := uninit
  let measuredCold := measuredCold + (measuredColdInt : ℚ)
  let measuredCold := measuredCold * (1 / 16)
  measuredCold - s.tc_cold_offset

/-- The inner loop of `MAX31855Class::polynomial`: the pair `(output, valuePower)` after the
first `j` iterations, starting from `output = 0` and `valuePower = 1`; an iteration is
`output += valuePower * coeffs[j]; valuePower *= value;` in `double` arithmetic, the product
and the sum each rounded. -/
def polynomialTerms (value : Double) (coeffs : Nat → ℚ) : Nat → Double × Double
  | 0 => (Double.finite 0, Double.finite 1)
  | j + 1 =>
    let st := polynomialTerms value coeffs j
    (Double.add st.1 (Double.mul st.2 (Double.finite (coeffs j))), Double.mul st.2 value)

/-- The outer loop of `MAX31855Class::polynomial` from index `i` on, with `n` entries left. -/
def polynomialFrom (value : Double) (table : Nat → coefftable) : Nat → Nat → Double
  | 0, _ => Double.nan
  | n + 1, i =>
    if Double.lt value (Double.finite (table i).max) then
      if (table i).size = 0 then
        Double.nan
      else
        (polynomialTerms value (table i).coeffs (table i).size).1
    else
      polynomialFrom value table n (i + 1)

/-- The function `MAX31855Class::polynomial`. -/
def polynomial (value : Double) (tableEntries : Nat) (table : Nat → coefftable) : Double :=
  polynomialFrom value table tableEntries 0

/-- The function `MAX31855Class::tempTomv`. -/
def tempTomv (env : MAX31855Env) (temp : Double) (s : Machine) : Double :=
  let sel : (Nat → coefftable) × Nat :=
    match s.tc_current_probe_type with
    | PROBE_TC_J => (env.CoeffJ, env.sizeCoeffJ)
    | PROBE_TC_K => (env.CoeffK, env.sizeCoeffK)
    | PROBE_TC_T => (env.CoeffT, env.sizeCoeffT)
    | _ => (env.uninit_table, env.uninit_tableEntries)
  let voltage := polynomial temp sel.2 sel.1
  if s.tc_current_probe_type = PROBE_TC_K ∧ Double.lt (Double.finite 0) temp = true then
    Double.add voltage
      (Double.mul (Double.round (118597600000 / 1000000000000))
        (env.exp
          (Double.mul (Double.neg (Double.round (118343200000 / 1000000000000000)))
            (env.pow (Double.sub temp (Double.round (126968600000 / 1000000000)))
              (Double.finite 2)))))
  else
    voltage

/-- The function `MAX31855Class::mvtoTemp`.  For `PROBE_TC_K` the table is `InvCoeffK` and the
number of entries is that of `InvCoeffJ`, as in the source. -/
def mvtoTemp (env : MAX31855Env) (voltage : Double) (s : Machine) : Double :=
  let sel : (Nat → coefftable) × Nat :=
    match s.tc_current_probe_type with
    | PROBE_TC_J => (env.InvCoeffJ, env.sizeInvCoeffJ)
    | PROBE_TC_K => (env.InvCoeffK, env.sizeInvCoeffJ)
    | PROBE_TC_T => (env.InvCoeffT, env.sizeInvCoeffT)
    | _ => (env.uninit_table, env.uninit_tableEntries)
  polynomial voltage sel.2 sel.1

/-- The function `MAX31855Class::readTCVoltage`.  The member `_last_fault` is a byte, so the
masked word is reduced to eight bits when it is stored.  The results of the two decode
functions and the member `_cold_offset` enter the `double` arithmetic as the nearest
`double` values. -/
def readTCVoltage (env : MAX31855Env) (rx : SpiFrame) (s : Machine) : Machine × Double :=
  let r := readSensor rx s
  let rawword := r.2
  let s := { r.1 with tc_last_fault := u8 (rawword &&& r.1.tc_fault_mask) }
  if s.tc_last_fault ≠ 0 then
    (s, Double.nan)
  else
    let measuredCold := Double.round (decodeReferenceSensorData env.uninit_measuredCold rawword s)
    let measuredVolt :=
      Double.mul
        (Double.sub (Double.round (decodeTemperatureSensorData rawword))
          (Double.add measuredCold (Double.round s.tc_cold_offset)))
        (Double.ofFloatLiteral (41276 / 1000000))
    (s, Double.add measuredVolt (tempTomv env measuredCold s))

/-- The function `MAX31855Class::readTCTemperature`. -/
def readTCTemperature (env : MAX31855Env) (rx : SpiFrame) (s : Machine) :
    Machine × Double :=
  let r := readTCVoltage env rx s
  (r.1, mvtoTemp env r.2 r.1)

/-- The function `MAX31855Class::readTCReferenceTemperature`. -/
def readTCReferenceTemperature (env : MAX31855Env) (rx : SpiFrame) (s : Machine) :
    Machine × ℚ :=
  let r := readSensor rx s
  (r.1, decodeReferenceSensorData env.uninit_measuredCold r.2 r.1)

/-- The function `MAX31855Class::setTCColdOffset`. -/
def setTCColdOffset (offset : ℚ) (s : Machine) : Machine :=
  { s with tc_cold_offset := offset }

/-- The function `MAX31855Class::getTCColdOffset`. -/
def getTCColdOffset (s : Machine) : ℚ :=
  s.tc_cold_offset

/-- The function `MAX31855Class::getTCLastFault`. -/
def getTCLastFault (s : Machine) : Machine × Nat :=
  let tempLastFault := s.tc_last_fault
  ({ s with tc_last_fault := 0 }, tempLastFault)

end MAX31855Class

/-! ## MAX31865Class (RTD converter) -/

namespace MAX31865Class

/-- Register address `MAX31865_CONFIG_REG`. -/
def MAX31865_CONFIG_REG : Nat := 0x00

/-- Config bit `MAX31865_CONFIG_BIAS`. -/
def MAX31865_CONFIG_BIAS : Nat := 0x80

/-- Config bit `MAX31865_CONFIG_CONV_MODE_AUTO`. -/
def MAX31865_CONFIG_CONV_MODE_AUTO : Nat := 0x40

/-- Config bit `MAX31865_CONFIG_3WIRE`. -/
def MAX31865_CONFIG_3WIRE : Nat := 0x10

/-- Config bit `MAX31865_CONFIG_FAULT_STAT`. -/
def MAX31865_CONFIG_FAULT_STAT : Nat := 0x02

/-- Config bit `MAX31865_CONFIG_CONV_MODE_ONE_SHOT`. -/
def MAX31865_CONFIG_CONV_MODE_ONE_SHOT : Nat := 0x20

/-- Config bit `MAX31865_CONFIG_FILTER_50HZ`. -/
def MAX31865_CONFIG_FILTER_50HZ : Nat := 0x01

/-- Register address `MAX31865_RTD_MSB_REG`. -/
def MAX31865_RTD_MSB_REG : Nat := 0x01

/-- Register address `MAX31865_FAULT_STAT_REG`. -/
def MAX31865_FAULT_STAT_REG : Nat := 0x07

/-- Register address `MAX31865_H_FAULT_MSB_REG`. -/
def MAX31865_H_FAULT_MSB_REG : Nat := 0x03

/-- Register address `MAX31865_H_FAULT_LSB_REG`. -/
def MAX31865_H_FAULT_LSB_REG : Nat := 0x04

/-- Register address `MAX31865_L_FAULT_MSB_REG`. -/
def MAX31865_L_FAULT_MSB_REG : Nat := 0x05

/-- Register address `MAX31865_L_FAULT_LSB_REG`. -/
def MAX31865_L_FAULT_LSB_REG : Nat := 0x06

/-- The function `MAX31865Class::readByte`: the address has its top bit cleared; the chip
answers with the byte held in that register. -/
def readByte (addr : Nat) (s : Machine) : Machine × Nat :=
  let addr := addr &&& 0x7F
  let s := digitalWrite Pin.rtd_cs LOW s
  let s := emit (Event.rtd_readByte addr) s
  let s := digitalWrite Pin.rtd_cs HIGH s
  (s, u8 (s.reg addr))

/-- The function `MAX31865Class::writeByte`: the address is sent with its top bit set; the
chip stores the byte in the register named by the low seven address bits.  The trace records
that register index. -/
def writeByte (addr : Nat) (data : Nat) (s : Machine) : Machine :=
  let addr := u8 (addr ||| 0x80)
  let s := digitalWrite Pin.rtd_cs LOW s
  let s := emit (Event.rtd_writeByte (addr &&& 0x7F) (u8 data))
    { s with reg := Function.update s.reg (addr &&& 0x7F) (u8 data) }
  digitalWrite Pin.rtd_cs HIGH s

/-- The function `MAX31865Class::readWord`: the address has its top bit cleared; the chip
answers with the byte of that register and then with the byte of the next one, and the two
are joined most significant byte first. -/
def readWord (addr : Nat) (s : Machine) : Machine × Nat :=
  let addr := addr &&& 0x7F
  let s := digitalWrite Pin.rtd_cs LOW s
  let s := emit (Event.rtd_readWord addr) s
  let buffer0 := u8 (s.reg addr)
  let buffer1 := u8 (s.reg (addr + 1))
  let s := digitalWrite Pin.rtd_cs HIGH s
  let read := buffer0
  let read := u16 (read <<< 8)
  let read := read ||| buffer1
  (s, read)

/-- The function `MAX31865Class::setRTDThresholds`. -/
def setRTDThresholds (lowerThreshold upperThreshold : Nat) (s : Machine) : Machine :=
  let s := writeByte MAX31865_L_FAULT_LSB_REG (lowerThreshold &&& 0xFF) s
  let s := writeByte MAX31865_L_FAULT_MSB_REG (lowerThreshold >>> 8) s
  let s := writeByte MAX31865_H_FAULT_LSB_REG (upperThreshold &&& 0xFF) s
  writeByte MAX31865_H_FAULT_MSB_REG (upperThreshold >>> 8) s

/-- The function `MAX31865Class::getRTDLowerThreshold`. -/
def getRTDLowerThreshold (s : Machine) : Machine × Nat :=
  readWord MAX31865_L_FAULT_MSB_REG s

/-- The function `MAX31865Class::getRTDUpperThreshold`. -/
def getRTDUpperThreshold (s : Machine) : Machine × Nat :=
  readWord MAX31865_H_FAULT_MSB_REG s

/-- The function `MAX31865Class::setRTDType`. -/
def setRTDType (probeType : temperature_probe_t) (s : Machine) : Machine :=
  let s := emit (Event.call_setRTDType probeType) s
  let s :=
    if probeType = PROBE_RTD_PT100_3W then
      let r := readByte MAX31865_CONFIG_REG s
      writeByte MAX31865_CONFIG_REG (r.2 ||| MAX31865_CONFIG_3WIRE) r.1
    else
      let r := readByte MAX31865_CONFIG_REG s
      writeByte MAX31865_CONFIG_REG (r.2 &&& not8 MAX31865_CONFIG_3WIRE) r.1
  { s with rtd_current_probe_type := probeType }

/-- The function `MAX31865Class::getRTDType`. -/
def getRTDType (s : Machine) : temperature_probe_t :=
  s.rtd_current_probe_type

/-- The function `MAX31865Class::setRTDAutoConvert`. -/
def setRTDAutoConvert (enabled : Bool) (s : Machine) : Machine :=
  let r := readByte MAX31865_CONFIG_REG s
  let config :=
    if enabled then r.2 ||| MAX31865_CONFIG_CONV_MODE_AUTO
    else r.2 &&& not8 MAX31865_CONFIG_CONV_MODE_AUTO
  let s := writeByte MAX31865_CONFIG_REG config r.1
  let s :=
    if enabled && !s.rtd_continuous_mode_enabled then
      if s.rtd_50hz_filter_enabled then delay 70 s else delay 60 s
    else s
  { s with rtd_continuous_mode_enabled := enabled }

/-- The function `MAX31865Class::setRTDBias`. -/
def setRTDBias (enabled : Bool) (s : Machine) : Machine :=
  let r := readByte MAX31865_CONFIG_REG s
  let config :=
    if enabled then r.2 ||| MAX31865_CONFIG_BIAS
    else r.2 &&& not8 MAX31865_CONFIG_BIAS
  let s := writeByte MAX31865_CONFIG_REG config r.1
  { s with rtd_bias_voltage_enabled := enabled }

/-- The function `MAX31865Class::clearRTDFault`. -/
def clearRTDFault (s : Machine) : Machine :=
  let r := readByte MAX31865_CONFIG_REG s
  writeByte MAX31865_CONFIG_REG ((r.2 &&& not8 0x2C) ||| MAX31865_CONFIG_FAULT_STAT) r.1

/-- The function `MAX31865Class::setRTD50HzFilter`. -/
def setRTD50HzFilter (enabled : Bool) (s : Machine) : Machine :=
  let r := readByte MAX31865_CONFIG_REG s
  let config :=
    if enabled then r.2 ||| MAX31865_CONFIG_FILTER_50HZ
    else r.2 &&& not8 MAX31865_CONFIG_FILTER_50HZ
  let s := writeByte MAX31865_CONFIG_REG config r.1
  { s with rtd_50hz_filter_enabled := enabled }

/-- The function `MAX31865Class::readRTDFault`. -/
def readRTDFault (faultCycle : max31865_fault_cycle_t) (s : Machine) : Machine × Nat :=
  if faultCycle ≠ max31865_fault_cycle_t.MAX31865_FAULT_NONE then
    let r := readByte MAX31865_CONFIG_REG s
    let cfgRegVal := r.2 &&& 0x11
    match faultCycle with
    | max31865_fault_cycle_t.MAX31865_FAULT_AUTO =>
      let s := writeByte MAX31865_CONFIG_REG (cfgRegVal ||| 0x84) r.1
      let s := delay 1 s
      readByte MAX31865_FAULT_STAT_REG s
    | max31865_fault_cycle_t.MAX31865_FAULT_MANUAL_RUN =>
      (writeByte MAX31865_CONFIG_REG (cfgRegVal ||| 0x88) r.1, 0)
    | max31865_fault_cycle_t.MAX31865_FAULT_MANUAL_FINISH =>
      (writeByte MAX31865_CONFIG_REG (cfgRegVal ||| 0x8C) r.1, 0)
    | max31865_fault_cycle_t.MAX31865_FAULT_NONE =>
      readByte MAX31865_FAULT_STAT_REG r.1
  else
    readByte MAX31865_FAULT_STAT_REG s

/-- The function `MAX31865Class::readRTD`. -/
def readRTD (s : Machine) : Machine × Nat :=
  let s := clearRTDFault s
  let s :=
    if !s.rtd_continuous_mode_enabled then
      let s :=
        if !s.rtd_bias_voltage_enabled then
          let r := readByte MAX31865_CONFIG_REG s
          let s := writeByte MAX31865_CONFIG_REG (r.2 ||| MAX31865_CONFIG_BIAS) r.1
          delay 10 s
        else s
      let r := readByte MAX31865_CONFIG_REG s
      let s := writeByte MAX31865_CONFIG_REG (r.2 ||| MAX31865_CONFIG_CONV_MODE_ONE_SHOT) r.1
      if s.rtd_50hz_filter_enabled then delay 75 s else delay 65 s
    else s
  let w := readWord MAX31865_RTD_MSB_REG s
  let rtdValueRaw := w.2
  let s := w.1
  let s :=
    if !s.rtd_bias_voltage_enabled then
      let r := readByte MAX31865_CONFIG_REG s
      writeByte MAX31865_CONFIG_REG (r.2 &&& not8 MAX31865_CONFIG_BIAS) r.1
    else s
  let rtdValueRaw := rtdValueRaw >>> 1
  (s, rtdValueRaw)

/-- The function `MAX31865Class::readRTDAsync`.  The argument `rtdValueRaw` is the value of the
caller's variable before the call, the third component of the result its value after the
call.  `now` is the value `millis()` returns in the call; in state `SETTLING` the function
calls `millis()` a second time when it stores the timestamp, and `now2` is that value. -/
def readRTDAsync (now now2 : Nat) (rtdValueRaw : Nat) (s : Machine) : Machine × Bool × Nat :=
  match s.rtd_async_state with
  | IDLE =>
    let s := clearRTDFault s
    let s :=
      if !s.rtd_bias_voltage_enabled then
        let r := readByte MAX31865_CONFIG_REG s
        writeByte MAX31865_CONFIG_REG (r.2 ||| MAX31865_CONFIG_BIAS) r.1
      else s
    let s := { s with rtd_async_timer := u32 now }
    let s := { s with rtd_async_state := SETTLING }
    (s, false, rtdValueRaw)
  | SETTLING =>
    if sub32 now s.rtd_async_timer ≥ 10 then
      let r := readByte MAX31865_CONFIG_REG s
      let s := writeByte MAX31865_CONFIG_REG (r.2 ||| MAX31865_CONFIG_CONV_MODE_ONE_SHOT) r.1
      let s := { s with rtd_async_timer := u32 now2 }
      let s := { s with rtd_async_state := CONVERTING }
      (s, false, rtdValueRaw)
    else
      (s, false, rtdValueRaw)
  | CONVERTING =>
    if sub32 now s.rtd_async_timer ≥ (if s.rtd_50hz_filter_enabled then 75 else 65) then
      let w := readWord MAX31865_RTD_MSB_REG s
      let rtdValueRaw := w.2
      let rtdValueRaw := rtdValueRaw >>> 1
      let s := { w.1 with rtd_async_state := IDLE }
      (s, true, rtdValueRaw)
    else
      (s, false, rtdValueRaw)

/-- The function `MAX31865Class::begin`. -/
def begin (s : Machine) : Machine × Bool :=
  if !s.rtd_begun then
    let s := emit Event.call_MAX31865_begin s
    let s := emit Event.spi_begin s
    let s := pinMode Pin.rtd_cs PinMode.OUTPUT s
    let s := digitalWrite Pin.rtd_cs HIGH s
    let s := setRTDBias false s
    let s := setRTDAutoConvert false s
    let s := setRTDThresholds 0 0xFFFF s
    let s := clearRTDFault s
    ({ s with rtd_async_state := IDLE, rtd_begun := true }, true)
  else
    (s, true)

/-- The function `MAX31865Class::end` (`end` is reserved in Lean). -/
def end_ (s : Machine) : Machine :=
  if s.rtd_begun then
    let s := emit Event.call_MAX31865_end s
    let s := pinMode Pin.rtd_cs PinMode.INPUT s
    let s := digitalWrite Pin.rtd_cs LOW s
    let s := emit Event.spi_end s
    { s with rtd_begun := false }
  else
    s

/-! ### Resistance and temperature

The `float` arithmetic of these functions is written over an arbitrary ordered field `K`, with
the library function `sqrt` as an argument: the definitions run over the rationals, and the
statements about exact real arithmetic take `K` to be the reals and `sqrt` the real square
root.  Rounding and the not-a-number result of `sqrt` on a negative argument are outside the
model. -/

/-- The constant `RTD_A`, `3.9083e-3`. -/
def RTD_A (K : Type) [LinearOrderedField K] : K := 39083 / 10000000

/-- The constant `RTD_B`, `-5.775e-7`. -/
def RTD_B (K : Type) [LinearOrderedField K] : K := -(5775 / 10000000000)

/-- The constant `MAX31865Class::Z1`, `-RTD_A`. -/
def Z1 (K : Type) [LinearOrderedField K] : K := -RTD_A K

/-- The constant `MAX31865Class::Z2`, `RTD_A * RTD_A - (4 * RTD_B)`. -/
def Z2 (K : Type) [LinearOrderedField K] : K := RTD_A K * RTD_A K - (4 * RTD_B K)

/-- The constant `MAX31865Class::Z4`, `2 * RTD_B`. -/
def Z4 (K : Type) [LinearOrderedField K] : K := 2 * RTD_B K

/-- The function `MAX31865Class::calculateRTDResistance`. -/
def calculateRTDResistance {K : Type} [LinearOrderedField K] (rtdValueRaw : Nat)
    (refResistanceValue : K) : K :=
  let rtdResistanceValue : K := (rtdValueRaw : K)
  let rtdResistanceValue := rtdResistanceValue / 32768
  let rtdResistanceValue := rtdResistanceValue * refResistanceValue
  rtdResistanceValue

/-- The value of `temp` in `calculateRTDTemperature` after its first two assignments: the root
of the Callendar-Van Dusen quadratic that is tested against zero. -/
def quadraticRoot {K : Type} [LinearOrderedField K] (sqrt : K → K)
    (rtdResistanceValue rtdNominalValue : K) : K :=
  let Z3 : K := (4 * RTD_B K) / rtdNominalValue
  let temp : K := Z2 K + (Z3 * rtdResistanceValue)
  (sqrt temp + Z1 K) / Z4 K

/-- The function `MAX31865Class::calculateRTDTemperature(float rtdResistanceValue,
float rtdNominalValue)`. -/
def calculateRTDTemperature {K : Type} [LinearOrderedField K] (sqrt : K → K)
    (rtdResistanceValue rtdNominalValue : K) : K :=
  let temp : K := quadraticRoot sqrt rtdResistanceValue rtdNominalValue
  if temp ≥ 0 then
    temp
  else
    let rtdResistanceValue := rtdResistanceValue / rtdNominalValue
    let rtdResistanceValue := rtdResistanceValue * 100
    let rpoly := rtdResistanceValue
    let temp : K := -(24202 / 100)
    let temp := temp + (22228 / 10000) * rpoly
    let rpoly := rpoly * rtdResistanceValue
    let temp := temp + (25859 / 10000000) * rpoly
    let rpoly := rpoly * rtdResistanceValue
    let temp := temp - (48260 / 10000000000) * rpoly
    let rpoly := rpoly * rtdResistanceValue
    let temp := temp - (28183 / 1000000000000) * rpoly
    let rpoly := rpoly * rtdResistanceValue
    let temp := temp + (15243 / 100000000000000) * rpoly
    temp

/-- The function `MAX31865Class::calculateRTDTemperature(uint16_t rtdValueRaw,
float rtdNominalValue, float refResistanceValue)`, the overload that starts from the raw
value. -/
def calculateRTDTemperature_raw {K : Type} [LinearOrderedField K] (sqrt : K → K)
    (rtdValueRaw : Nat) (rtdNominalValue refResistanceValue : K) : K :=
  calculateRTDTemperature sqrt (calculateRTDResistance rtdValueRaw refResistanceValue)
    rtdNominalValue

end MAX31865Class

/-! ## TempProbeClass (channel multiplexer and lifecycle) -/

/-- The record `PortentaBoardInfo` as far as `channelReverse` reads it. -/
structure PortentaBoardInfo where
  magic : Nat
  carrier : Nat

/-- The constant `PMC_R2_SKU`, `(24 << 8 | 3)`. -/
def PMC_R2_SKU : Nat := (24 <<< 8) ||| 3

/-- The reversal flag: `TRY_REV2_RECOGNITION` is defined (board information is available,
`some info`) and `info->magic == 0xB5 && info->carrier == PMC_R2_SKU`. -/
def reversalFlag (board : Option PortentaBoardInfo) : Bool :=
  match board with
  | none => false
  | some info => info.magic == 0xB5 && info.carrier == PMC_R2_SKU

namespace TempProbeClass

/-- The function `TempProbeClass::initDO`. -/
def initDO (s : Machine) : Machine :=
  let s := emit Event.call_initDO s
  let s := pinMode Pin.ch_sel0 PinMode.OUTPUT s
  let s := pinMode Pin.ch_sel1 PinMode.OUTPUT s
  let s := pinMode Pin.ch_sel2 PinMode.OUTPUT s
  let s := pinMode Pin.rtd_th PinMode.OUTPUT s
  let s := digitalWrite Pin.ch_sel0 LOW s
  let s := digitalWrite Pin.ch_sel1 LOW s
  let s := digitalWrite Pin.ch_sel2 LOW s
  digitalWrite Pin.rtd_th LOW s

/-- The function `TempProbeClass::deinitDO`. -/
def deinitDO (s : Machine) : Machine :=
  let s := emit Event.call_deinitDO s
  let s := pinMode Pin.ch_sel0 PinMode.INPUT s
  let s := pinMode Pin.ch_sel1 PinMode.INPUT s
  let s := pinMode Pin.ch_sel2 PinMode.INPUT s
  let s := pinMode Pin.rtd_th PinMode.INPUT s
  let s := digitalWrite Pin.ch_sel0 LOW s
  let s := digitalWrite Pin.ch_sel1 LOW s
  let s := digitalWrite Pin.ch_sel2 LOW s
  digitalWrite Pin.rtd_th LOW s

/-- The function `TempProbeClass::channelReverse`.  Without board information
(`TRY_REV2_RECOGNITION` undefined) the body is the plain `return channel`. -/
def channelReverse (board : Option PortentaBoardInfo) (channel : Nat) : Nat :=
  match board with
  | none => channel
  | some info =>
    if info.magic = 0xB5 ∧ info.carrier = PMC_R2_SKU then
      match channel with
      | 0 => 2
      | 2 => 0
      | _ => channel
    else
      channel

/-- The function `TempProbeClass::switchChannel`. -/
def switchChannel (channel : Nat) (s : Machine) : Machine × Bool :=
  if s.current_channel ≠ (channel : Int) then
    let s :=
      match channel with
      | 0 =>
        let s := digitalWrite Pin.ch_sel0 HIGH s
        let s := digitalWrite Pin.ch_sel1 LOW s
        digitalWrite Pin.ch_sel2 LOW s
      | 1 =>
        let s := digitalWrite Pin.ch_sel0 LOW s
        let s := digitalWrite Pin.ch_sel1 HIGH s
        digitalWrite Pin.ch_sel2 LOW s
      | 2 =>
        let s := digitalWrite Pin.ch_sel0 LOW s
        let s := digitalWrite Pin.ch_sel1 LOW s
        digitalWrite Pin.ch_sel2 HIGH s
      | _ =>
        let s := digitalWrite Pin.ch_sel0 LOW s
        let s := digitalWrite Pin.ch_sel1 LOW s
        digitalWrite Pin.ch_sel2 LOW s
    ({ s with current_channel := (channel : Int) }, true)
  else
    (s, false)

/-- The function `TempProbeClass::switchProbe`. -/
def switchProbe (channel : Nat) (probeType : temperature_probe_t) (s : Machine) : Machine :=
  let s :=
    match probeType with
    | PROBE_TC_K | PROBE_TC_J | PROBE_TC_T =>
      let s := digitalWrite Pin.rtd_th LOW s
      if s.current_channel ≠ (channel : Int) ∨ s.current_probe_type channel ≠ probeType then
        MAX31855Class.setTCType probeType s
      else
        s
    | PROBE_RTD_PT100_2W | PROBE_RTD_PT100_3W =>
      let s := digitalWrite Pin.rtd_th HIGH s
      if s.current_channel ≠ (channel : Int) ∨ s.current_probe_type channel ≠ probeType then
        MAX31865Class.setRTDType probeType s
      else
        s
    | PROBE_NC => s
  { s with current_probe_type := Function.update s.current_probe_type channel probeType }

/-- The function `TempProbeClass::setupSwitchDelay`. -/
def setupSwitchDelay (probeType : temperature_probe_t) (s : Machine) : Machine :=
  match probeType with
  | PROBE_TC_K | PROBE_TC_J | PROBE_TC_T => { s with switch_delay := 150 }
  | PROBE_RTD_PT100_2W | PROBE_RTD_PT100_3W => { s with switch_delay := 75 }
  | PROBE_NC => { s with switch_delay := 150 }

/-- The function `TempProbeClass::selectChannel`.  The parameter `channel` is a `uint8_t`, so
`channel >= 0` always holds and the guard is `channel <= 2`. -/
def selectChannel (board : Option PortentaBoardInfo) (channel : Nat)
    (probeType : temperature_probe_t) (s : Machine) : Machine :=
  if channel ≤ 2 then
    let channel := channelReverse board channel
    let s := switchProbe channel probeType s
    let r := switchChannel channel s
    if r.2 then
      let s := setupSwitchDelay probeType r.1
      delay s.switch_delay s
    else
      r.1
  else
    s

/-- The function `TempProbeClass::selectChannelAsync`; `now` is the value `millis()` returns
during the call. -/
def selectChannelAsync (board : Option PortentaBoardInfo) (now : Nat) (channel : Nat)
    (probeType : temperature_probe_t) (s : Machine) : Machine × Bool :=
  let s :=
    if channel ≤ 2 then
      let channel := channelReverse board channel
      let s := switchProbe channel probeType s
      let r := switchChannel channel s
      if r.2 then
        let s := { r.1 with async_timer := u32 now }
        let s := { s with async_state := SWITCHING }
        setupSwitchDelay probeType s
      else
        match r.1.async_state with
        | SWITCHING =>
          if sub32 now r.1.async_timer ≥ r.1.switch_delay then
            { r.1 with async_state := SELECTED }
          else
            r.1
        | SELECTED => r.1
    else
      s
  (s, if s.async_state = SELECTED then true else false)

/-- The function `TempProbeClass::beginTC`; `rx` holds the bytes the bus delivers if the chip
is probed. -/
def beginTC (rx : SpiFrame) (s : Machine) : Machine × Bool :=
  if !s.tc_init then
    let s := if !s.rtd_init then initDO s else s
    let r := MAX31855Class.begin rx s
    ({ r.1 with tc_init := true }, r.2)
  else
    (s, true)

/-- The function `TempProbeClass::beginRTD`. -/
def beginRTD (s : Machine) : Machine × Bool :=
  if !s.rtd_init then
    let s := if !s.tc_init then initDO s else s
    let r := MAX31865Class.begin s
    ({ r.1 with rtd_init := true }, r.2)
  else
    (s, true)

/-- The function `TempProbeClass::begin`. -/
def begin (rx : SpiFrame) (s : Machine) : Machine × Bool :=
  let r := beginTC rx s
  if r.2 then beginRTD r.1 else r

/-- The function `TempProbeClass::endTC`. -/
def endTC (s : Machine) : Machine :=
  if s.tc_init then
    let s := MAX31855Class.end_ s
    let s := { s with tc_init := false }
    if !s.rtd_init then deinitDO s else s
  else
    s

/-- The function `TempProbeClass::endRTD`. -/
def endRTD (s : Machine) : Machine :=
  if s.rtd_init then
    let s := MAX31865Class.end_ s
    let s := { s with rtd_init := false }
    if !s.tc_init then deinitDO s else s
  else
    s

/-- The function `TempProbeClass::end` (`end` is reserved in Lean). -/
def end_ (s : Machine) : Machine :=
  endRTD (endTC s)

end TempProbeClass

/-! ## Call sequences -/

/-- A call of a public operation of `TempProbeClass`, with the values the environment supplies
during the call. -/
inductive Op where
  | beginTC (rx : SpiFrame)
  | beginRTD
  | begin (rx : SpiFrame)
  | endTC
  | endRTD
  | end_
  | selectChannel (channel : Nat) (probeType : temperature_probe_t)
  | selectChannelAsync (now : Nat) (channel : Nat) (probeType : temperature_probe_t)

/-- The state after one call. -/
def step (board : Option PortentaBoardInfo) (s : Machine) : Op → Machine
  | Op.beginTC rx => (TempProbeClass.beginTC rx s).1
  | Op.beginRTD => (TempProbeClass.beginRTD s).1
  | Op.begin rx => (TempProbeClass.begin rx s).1
  | Op.endTC => TempProbeClass.endTC s
  | Op.endRTD => TempProbeClass.endRTD s
  | Op.end_ => TempProbeClass.end_ s
  | Op.selectChannel channel probeType => TempProbeClass.selectChannel board channel probeType s
  | Op.selectChannelAsync now channel probeType =>
    (TempProbeClass.selectChannelAsync board now channel probeType s).1

/-- The state after a sequence of calls. -/
def run (board : Option PortentaBoardInfo) (s : Machine) (ops : List Op) : Machine :=
  ops.foldl (step board) s

/-- The shared digital outputs are configured: the three select lines and the routing line are
outputs. -/
def outputsConfigured (s : Machine) : Bool :=
  s.mode Pin.ch_sel0 == PinMode.OUTPUT && s.mode Pin.ch_sel1 == PinMode.OUTPUT &&
  s.mode Pin.ch_sel2 == PinMode.OUTPUT && s.mode Pin.rtd_th == PinMode.OUTPUT

/-- The levels of the three select lines, `(_ch_sel0, _ch_sel1, _ch_sel2)`. -/
def selectLines (s : Machine) : Bool × Bool × Bool :=
  (s.level Pin.ch_sel0, s.level Pin.ch_sel1, s.level Pin.ch_sel2)

/-- The one-hot pattern with line `c` high. -/
def oneHot (c : Nat) : Bool × Bool × Bool :=
  (decide (c = 0), decide (c = 1), decide (c = 2))

/-! ## Auxiliary definitions for the statements -/

open TempProbeClass MAX31865Class

/-- Thermocouple probe types. -/
def isTC : temperature_probe_t → Bool
  | PROBE_TC_K | PROBE_TC_J | PROBE_TC_T => true
  | _ => false

/-- RTD probe types. -/
def isRTD : temperature_probe_t → Bool
  | PROBE_RTD_PT100_2W | PROBE_RTD_PT100_3W => true
  | _ => false

/-- Trace entries that are the entry of a probe-type setter of one of the two engines. -/
def isSetterCall : Event → Bool
  | Event.call_setTCType _ => true
  | Event.call_setRTDType _ => true
  | _ => false

/-- Trace entries that are a register write to the MAX31865. -/
def isRegisterWrite : Event → Bool
  | Event.rtd_writeByte _ _ => true
  | _ => false

/-- Trace entries that are a write to one of the three select lines. -/
def isSelectLineWrite : Event → Bool
  | Event.digitalWrite Pin.ch_sel0 _ => true
  | Event.digitalWrite Pin.ch_sel1 _ => true
  | Event.digitalWrite Pin.ch_sel2 _ => true
  | _ => false

/-- The three writes with which `switchChannel` drives the one-hot pattern of channel `c`. -/
def oneHotWrites (c : Nat) : List Event :=
  [Event.digitalWrite Pin.ch_sel0 (decide (c = 0)), Event.digitalWrite Pin.ch_sel1 (decide (c = 1)),
   Event.digitalWrite Pin.ch_sel2 (decide (c = 2))]

/-- The byte `setRTDType` writes to the config register when it reads `old` from it. -/
def wireConfig (t : temperature_probe_t) (old : Nat) : Nat :=
  if t = PROBE_RTD_PT100_3W then u8 (u8 old ||| MAX31865_CONFIG_3WIRE)
  else u8 (u8 old &&& not8 MAX31865_CONFIG_3WIRE)

/-- In-class initialisers of `MAX31855Class` used for concrete runs. -/
def d0 : MAX31855Defaults := ⟨PROBE_NC, 0, 0⟩

/-- A raw word of a connected chip (hot junction 25 degrees, cold junction 25 degrees, no
fault bit), as the four bytes of one `readSensor`. -/
def frame0 : SpiFrame := ⟨0x01, 0x90, 0x19, 0x00⟩

/-- The results of calling `selectChannelAsync(c, t)` once at each of the elapsed times `ds`
after clock value `t0`; the clock reads `(t0 + d) mod 2^32` at elapsed time `d`. -/
def pollSelectChannelAsync (board : Option PortentaBoardInfo) (t0 c : Nat)
    (t : temperature_probe_t) : Machine → List Nat → List Bool
  | _, [] => []
  | s, d :: ds =>
    (selectChannelAsync board (u32 (t0 + d)) c t s).2 ::
      pollSelectChannelAsync board t0 c t (selectChannelAsync board (u32 (t0 + d)) c t s).1 ds

/-- Calls of the six lifecycle operations. -/
def isLifecycle : Op → Bool
  | Op.selectChannel _ _ => false
  | Op.selectChannelAsync _ _ _ => false
  | _ => true

/-- At least one of the two activation flags `_tc_init`, `_rtd_init` is set. -/
def active (s : Machine) : Bool :=
  s.tc_init || s.rtd_init

/-- From `s` to `s2` the activation flags and the configuration of the shared outputs are
unchanged, the trace has only grown, and neither `initDO` nor `deinitDO` was entered. -/
def EngineStep (s s2 : Machine) : Prop :=
  s2.tc_init = s.tc_init ∧ s2.rtd_init = s.rtd_init ∧
  outputsConfigured s2 = outputsConfigured s ∧
  s2.log = s.log ++ emitted s s2 ∧
  (emitted s s2).count Event.call_initDO = 0 ∧
  (emitted s s2).count Event.call_deinitDO = 0

/-- From `s` to `s2` the trace has only grown; if the shared outputs were configured exactly
when a sub-driver was active, they still are; `initDO` was entered once if the step went from
no active sub-driver to an active one and not at all otherwise; `deinitDO` was entered once if
the step went from an active sub-driver to none and not at all otherwise. -/
def LifecycleStep (s s2 : Machine) : Prop :=
  s2.log = s.log ++ emitted s s2 ∧
  (outputsConfigured s = active s → outputsConfigured s2 = active s2) ∧
  (emitted s s2).count Event.call_initDO = (if (!active s && active s2) = true then 1 else 0) ∧
  (emitted s s2).count Event.call_deinitDO = (if (active s && !active s2) = true then 1 else 0)

/-- A table of two segments for concrete runs: an empty segment with bound `-5`, then the
coefficients `1, 2, 3` with bound `100`. -/
def table0 : Nat → coefftable := fun i =>
  if i = 0 then ⟨0, fun _ => 0, -5⟩ else ⟨3, fun j => [1, 2, 3].getD j 0, 100⟩

/-- An environment for concrete runs: every table is `table0` with its two entries, `exp` is
the constant 1, `pow` is the constant 0 and the indeterminate values are zero. -/
def env0 : MAX31855Env where
  CoeffJ := table0
  sizeCoeffJ := 2
  CoeffK := table0
  sizeCoeffK := 2
  CoeffT := table0
  sizeCoeffT := 2
  InvCoeffJ := table0
  sizeInvCoeffJ := 2
  InvCoeffK := table0
  sizeInvCoeffK := 2
  InvCoeffT := table0
  sizeInvCoeffT := 2
  exp := fun _ => Double.finite 1
  pow := fun _ _ => Double.finite 0
  uninit_measuredCold := 0
  uninit_table := table0
  uninit_tableEntries := 2

/-- A raw word with the open-circuit fault bit (bit 0) set, as the four bytes of one
`readSensor`. -/
def faultFrame : SpiFrame := ⟨0x01, 0x91, 0x19, 0x01⟩

/-- Trace entries that are a bus transaction with the MAX31865 or a blocking wait. -/
def isBusOrWait : Event → Bool
  | Event.rtd_readByte _ => true
  | Event.rtd_readWord _ => true
  | Event.rtd_writeByte _ _ => true
  | Event.delay _ => true
  | _ => false

/-- The wire-count bit (mask `0x10`, bit 4) of the config register. -/
def wireBit (s : Machine) : Bool :=
  (s.reg MAX31865_CONFIG_REG).testBit 4

/-- A call of one of the public RTD operations other than `begin`, `end` and `setRTDType`,
with the values the environment supplies during the call. -/
inductive RtdOp where
  | setRTDAutoConvert (enabled : Bool)
  | setRTD50HzFilter (enabled : Bool)
  | setRTDBias (enabled : Bool)
  | clearRTDFault
  | readRTDFault (faultCycle : max31865_fault_cycle_t)
  | readRTD
  | readRTDAsync (now now2 : Nat) (rtdValueRaw : Nat)
  | setRTDThresholds (lowerThreshold upperThreshold : Nat)

/-- The state after one call of an RTD operation. -/
def rtdStep (s : Machine) : RtdOp → Machine
  | RtdOp.setRTDAutoConvert enabled => setRTDAutoConvert enabled s
  | RtdOp.setRTD50HzFilter enabled => setRTD50HzFilter enabled s
  | RtdOp.setRTDBias enabled => setRTDBias enabled s
  | RtdOp.clearRTDFault => clearRTDFault s
  | RtdOp.readRTDFault faultCycle => (readRTDFault faultCycle s).1
  | RtdOp.readRTD => (readRTD s).1
  | RtdOp.readRTDAsync now now2 rtdValueRaw => (readRTDAsync now now2 rtdValueRaw s).1
  | RtdOp.setRTDThresholds lowerThreshold upperThreshold =>
    setRTDThresholds lowerThreshold upperThreshold s

/-- The state after a sequence of calls of RTD operations. -/
def rtdRun (s : Machine) (ops : List RtdOp) : Machine :=
  ops.foldl rtdStep s

/-- From `s` to `s2` the wire-count bit of the config register and the two RTD data registers
are unchanged. -/
def ConfigStep (s s2 : Machine) : Prop :=
  wireBit s2 = wireBit s ∧ s2.reg 1 = s.reg 1 ∧ s2.reg 2 = s.reg 2

/-- A state for concrete RTD runs: the initial state with the RTD data registers holding the
word `0x8003`. -/
def rtdState0 : Machine :=
  { Machine.init d0 with reg := fun a => if a = 1 then 0x80 else if a = 2 then 0x03 else 0 }

/-- One complete asynchronous conversion: `readRTDAsync` is called at clock value `t0` (from
`IDLE`), 10 time-units later (from `SETTLING`) and `wait` time-units after that (from
`CONVERTING`); the caller's variable holds `v` at the start. -/
def asyncCycle (t0 wait v : Nat) (s : Machine) : Machine × Bool × Nat :=
  let r1 := readRTDAsync (u32 t0) (u32 t0) v s
  let r2 := readRTDAsync (u32 (t0 + 10)) (u32 (t0 + 10)) r1.2.2 r1.1
  readRTDAsync (u32 (t0 + 10 + wait)) (u32 (t0 + 10 + wait)) r2.2.2 r2.1

/-- The two reading functions of the thermocouple engine. -/
inductive TcReading where
  | voltage
  | temperature

/-- The state after one reading of the given kind that receives the bytes `rx`. -/
def tcRead (env : MAX31855Env) (s : Machine) (r : TcReading × SpiFrame) : Machine :=
  match r.1 with
  | TcReading.voltage => (MAX31855Class.readTCVoltage env r.2 s).1
  | TcReading.temperature => (MAX31855Class.readTCTemperature env r.2 s).1

/-- The state after a sequence of readings. -/
def tcReadings (env : MAX31855Env) (s : Machine) (rs : List (TcReading × SpiFrame)) : Machine :=
  rs.foldl (tcRead env) s

/-- A state for concrete thermocouple runs: the initial state with probe type K and the fault
mask 7. -/
def tcState0 : Machine :=
  { Machine.init d0 with tc_current_probe_type := PROBE_TC_K, tc_fault_mask := 7 }

/-- Calls of `selectChannel` and `selectChannelAsync`. -/
def isSelect : Op → Bool
  | Op.selectChannel _ _ => true
  | Op.selectChannelAsync _ _ _ => true
  | _ => false

/-- When the cache entry of the current channel is a thermocouple type, it is the probe type
of the thermocouple engine. -/
def TcTypeCached (s : Machine) : Prop :=
  ∀ ch : Nat, s.current_channel = (ch : Int) → isTC (s.current_probe_type ch) = true →
    s.tc_current_probe_type = s.current_probe_type ch

/-! ## Lemmas on the embedded functions -/

theorem config_index : u8 (MAX31865_CONFIG_REG ||| 0x80) &&& 0x7F = 0 := by decide

theorem config_rindex : MAX31865_CONFIG_REG &&& 0x7F = 0 := by decide

theorem readByte_config (s : Machine) :
    readByte MAX31865_CONFIG_REG s =
      ({ s with level := Function.update (Function.update s.level Pin.rtd_cs LOW) Pin.rtd_cs HIGH,
                log := s.log ++ [Event.digitalWrite Pin.rtd_cs LOW, Event.rtd_readByte 0,
                  Event.digitalWrite Pin.rtd_cs HIGH] }, u8 (s.reg 0)) := by
  simp [readByte, config_rindex, digitalWrite, emit]

theorem writeByte_config (data : Nat) (s : Machine) :
    writeByte MAX31865_CONFIG_REG data s =
      { s with level := Function.update (Function.update s.level Pin.rtd_cs LOW) Pin.rtd_cs HIGH,
               reg := Function.update s.reg 0 (u8 data),
               log := s.log ++ [Event.digitalWrite Pin.rtd_cs LOW, Event.rtd_writeByte 0 (u8 data),
                  Event.digitalWrite Pin.rtd_cs HIGH] } := by
  simp [writeByte, config_index, digitalWrite, emit]

theorem setRTDType_eq (t : temperature_probe_t) (s : Machine) :
    setRTDType t s =
      { s with level := Function.update s.level Pin.rtd_cs HIGH,
               reg := Function.update s.reg 0 (wireConfig t (s.reg 0)),
               rtd_current_probe_type := t,
               log := s.log ++ [Event.call_setRTDType t,
                  Event.digitalWrite Pin.rtd_cs LOW, Event.rtd_readByte 0,
                  Event.digitalWrite Pin.rtd_cs HIGH,
                  Event.digitalWrite Pin.rtd_cs LOW, Event.rtd_writeByte 0 (wireConfig t (s.reg 0)),
                  Event.digitalWrite Pin.rtd_cs HIGH] } := by
  unfold setRTDType wireConfig
  by_cases h : t = PROBE_RTD_PT100_3W
  · simp [h, readByte_config, writeByte_config, emit]
  · simp [h, readByte_config, writeByte_config, emit]

theorem channelReverse_le (board : Option PortentaBoardInfo) (c : Nat) (h : c ≤ 2) :
    channelReverse board c ≤ 2 := by
  unfold channelReverse
  rcases board with _ | info
  · simpa using h
  · simp only
    split
    · interval_cases c <;> simp
    · exact h

theorem emitted_append (s s2 : Machine) (l : List Event) (h : s2.log = s.log ++ l) :
    emitted s s2 = l := by
  simp [emitted, h]

theorem switchProbe_tc_miss (ch : Nat) (t : temperature_probe_t) (s : Machine)
    (ht : isTC t = true)
    (hm : s.current_channel ≠ (ch : Int) ∨ s.current_probe_type ch ≠ t) :
    switchProbe ch t s =
      { s with level := Function.update s.level Pin.rtd_th LOW,
               tc_current_probe_type := t,
               current_probe_type := Function.update s.current_probe_type ch t,
               log := s.log ++ [Event.digitalWrite Pin.rtd_th LOW, Event.call_setTCType t] } := by
  cases t <;> simp [isTC] at ht <;>
    simp [switchProbe, digitalWrite, emit, MAX31855Class.setTCType, hm]

theorem switchProbe_tc_hit (ch : Nat) (t : temperature_probe_t) (s : Machine)
    (ht : isTC t = true)
    (hm : ¬ (s.current_channel ≠ (ch : Int) ∨ s.current_probe_type ch ≠ t)) :
    switchProbe ch t s =
      { s with level := Function.update s.level Pin.rtd_th LOW,
               current_probe_type := Function.update s.current_probe_type ch t,
               log := s.log ++ [Event.digitalWrite Pin.rtd_th LOW] } := by
  cases t <;> simp [isTC] at ht <;>
    simp [switchProbe, digitalWrite, emit, MAX31855Class.setTCType, hm]

theorem switchProbe_rtd_miss (ch : Nat) (t : temperature_probe_t) (s : Machine)
    (ht : isRTD t = true)
    (hm : s.current_channel ≠ (ch : Int) ∨ s.current_probe_type ch ≠ t) :
    switchProbe ch t s =
      { s with level := Function.update (Function.update s.level Pin.rtd_th HIGH) Pin.rtd_cs HIGH,
               reg := Function.update s.reg 0 (wireConfig t (s.reg 0)),
               rtd_current_probe_type := t,
               current_probe_type := Function.update s.current_probe_type ch t,
               log := s.log ++ [Event.digitalWrite Pin.rtd_th HIGH, Event.call_setRTDType t,
                  Event.digitalWrite Pin.rtd_cs LOW, Event.rtd_readByte 0,
                  Event.digitalWrite Pin.rtd_cs HIGH,
                  Event.digitalWrite Pin.rtd_cs LOW, Event.rtd_writeByte 0 (wireConfig t (s.reg 0)),
                  Event.digitalWrite Pin.rtd_cs HIGH] } := by
  cases t <;> simp [isRTD] at ht <;>
    simp [switchProbe, digitalWrite, emit, setRTDType_eq, hm]

theorem switchProbe_rtd_hit (ch : Nat) (t : temperature_probe_t) (s : Machine)
    (ht : isRTD t = true)
    (hm : ¬ (s.current_channel ≠ (ch : Int) ∨ s.current_probe_type ch ≠ t)) :
    switchProbe ch t s =
      { s with level := Function.update s.level Pin.rtd_th HIGH,
               current_probe_type := Function.update s.current_probe_type ch t,
               log := s.log ++ [Event.digitalWrite Pin.rtd_th HIGH] } := by
  cases t <;> simp [isRTD] at ht <;>
    simp [switchProbe, digitalWrite, emit, setRTDType_eq, hm]

theorem switchProbe_nc (ch : Nat) (s : Machine) :
    switchProbe ch PROBE_NC s =
      { s with current_probe_type := Function.update s.current_probe_type ch PROBE_NC } := by
  simp [switchProbe]

theorem switchChannel_changed (ch : Nat) (s : Machine) (hc : ch ≤ 2)
    (h : s.current_channel ≠ (ch : Int)) :
    switchChannel ch s =
      ({ s with level := Function.update (Function.update (Function.update s.level
                  Pin.ch_sel0 (decide (ch = 0))) Pin.ch_sel1 (decide (ch = 1)))
                  Pin.ch_sel2 (decide (ch = 2)),
                current_channel := (ch : Int),
                log := s.log ++ oneHotWrites ch }, true) := by
  interval_cases ch <;> simp [switchChannel, digitalWrite, emit, oneHotWrites] at h ⊢ <;> simp [h]

theorem switchChannel_same (ch : Nat) (s : Machine) (h : s.current_channel = (ch : Int)) :
    switchChannel ch s = (s, false) := by
  simp [switchChannel, h]


theorem switchProbe_frame (ch : Nat) (t : temperature_probe_t) (s : Machine) :
    (switchProbe ch t s).current_channel = s.current_channel ∧
    (switchProbe ch t s).async_state = s.async_state ∧
    (switchProbe ch t s).async_timer = s.async_timer ∧
    (switchProbe ch t s).switch_delay = s.switch_delay ∧
    (switchProbe ch t s).current_probe_type = Function.update s.current_probe_type ch t ∧
    (switchProbe ch t s).level Pin.ch_sel0 = s.level Pin.ch_sel0 ∧
    (switchProbe ch t s).level Pin.ch_sel1 = s.level Pin.ch_sel1 ∧
    (switchProbe ch t s).level Pin.ch_sel2 = s.level Pin.ch_sel2 := by
  by_cases hm : s.current_channel ≠ (ch : Int) ∨ s.current_probe_type ch ≠ t
  · cases t
    · simp [switchProbe_nc]
    all_goals first
      | simp [switchProbe_tc_miss _ _ _ (by rfl) hm]
      | simp [switchProbe_rtd_miss _ _ _ (by rfl) hm]
  · cases t
    · simp [switchProbe_nc]
    all_goals first
      | simp [switchProbe_tc_hit _ _ _ (by rfl) hm]
      | simp [switchProbe_rtd_hit _ _ _ (by rfl) hm]

theorem switchProbe_log (ch : Nat) (t : temperature_probe_t) (s : Machine) :
    (switchProbe ch t s).log = s.log ++ emitted s (switchProbe ch t s) := by
  by_cases hm : s.current_channel ≠ (ch : Int) ∨ s.current_probe_type ch ≠ t
  · cases t
    · simp [switchProbe_nc, emitted]
    all_goals first
      | simp [switchProbe_tc_miss _ _ _ (by rfl) hm, emitted]
      | simp [switchProbe_rtd_miss _ _ _ (by rfl) hm, emitted]
  · cases t
    · simp [switchProbe_nc, emitted]
    all_goals first
      | simp [switchProbe_tc_hit _ _ _ (by rfl) hm, emitted]
      | simp [switchProbe_rtd_hit _ _ _ (by rfl) hm, emitted]

theorem switchProbe_setter (ch : Nat) (t : temperature_probe_t) (s : Machine)
    (ht : isTC t = true ∨ isRTD t = true) :
    (emitted s (switchProbe ch t s)).filter isSetterCall =
      if s.current_channel ≠ (ch : Int) ∨ s.current_probe_type ch ≠ t then
        [if isTC t then Event.call_setTCType t else Event.call_setRTDType t]
      else [] := by
  by_cases hm : s.current_channel ≠ (ch : Int) ∨ s.current_probe_type ch ≠ t
  · rw [if_pos hm]
    cases t
    · simp [isTC, isRTD] at ht
    all_goals first
      | simp [switchProbe_tc_miss _ _ _ (by rfl) hm, emitted, isSetterCall, isTC]
      | simp [switchProbe_rtd_miss _ _ _ (by rfl) hm, emitted, isSetterCall, isTC]
  · rw [if_neg hm]
    cases t
    · simp [isTC, isRTD] at ht
    all_goals first
      | simp [switchProbe_tc_hit _ _ _ (by rfl) hm, emitted, isSetterCall]
      | simp [switchProbe_rtd_hit _ _ _ (by rfl) hm, emitted, isSetterCall]

theorem switchProbe_regwrite (ch : Nat) (t : temperature_probe_t) (s : Machine) :
    (emitted s (switchProbe ch t s)).filter isRegisterWrite =
      if isRTD t = true ∧ (s.current_channel ≠ (ch : Int) ∨ s.current_probe_type ch ≠ t) then
        [Event.rtd_writeByte MAX31865_CONFIG_REG (wireConfig t (s.reg MAX31865_CONFIG_REG))]
      else [] := by
  by_cases hm : s.current_channel ≠ (ch : Int) ∨ s.current_probe_type ch ≠ t
  · cases t
    · simp [switchProbe_nc, emitted, isRTD]
    all_goals first
      | simp [switchProbe_tc_miss _ _ _ (by rfl) hm, emitted, isRegisterWrite, isRTD]
      | simp [switchProbe_rtd_miss _ _ _ (by rfl) hm, emitted, isRegisterWrite, isRTD, hm,
          MAX31865_CONFIG_REG]
  · cases t
    · simp [switchProbe_nc, emitted, isRTD]
    all_goals first
      | simp [switchProbe_tc_hit _ _ _ (by rfl) hm, emitted, isRegisterWrite, isRTD]
      | simp [switchProbe_rtd_hit _ _ _ (by rfl) hm, emitted, isRegisterWrite, isRTD, hm]

theorem switchProbe_quiet (ch : Nat) (t : temperature_probe_t) (s : Machine) :
    (emitted s (switchProbe ch t s)).filter isSelectLineWrite = [] ∧
    waited (emitted s (switchProbe ch t s)) = 0 := by
  by_cases hm : s.current_channel ≠ (ch : Int) ∨ s.current_probe_type ch ≠ t
  · cases t
    · simp [switchProbe_nc, emitted, waited]
    all_goals first
      | simp [switchProbe_tc_miss _ _ _ (by rfl) hm, emitted, isSelectLineWrite, waited]
      | simp [switchProbe_rtd_miss _ _ _ (by rfl) hm, emitted, isSelectLineWrite, waited]
  · cases t
    · simp [switchProbe_nc, emitted, waited]
    all_goals first
      | simp [switchProbe_tc_hit _ _ _ (by rfl) hm, emitted, isSelectLineWrite, waited]
      | simp [switchProbe_rtd_hit _ _ _ (by rfl) hm, emitted, isSelectLineWrite, waited]


theorem selectChannel_emitted (board : Option PortentaBoardInfo) (c : Nat)
    (t : temperature_probe_t) (s : Machine) (hc : c ≤ 2) :
    emitted s (selectChannel board c t s) =
      emitted s (switchProbe (channelReverse board c) t s) ++
        (if s.current_channel ≠ (channelReverse board c : Int) then
          oneHotWrites (channelReverse board c) ++ [Event.delay (if isRTD t then 75 else 150)]
        else []) := by
  have hch := channelReverse_le board c hc
  obtain ⟨hcur, -⟩ := switchProbe_frame (channelReverse board c) t s
  have hl := switchProbe_log (channelReverse board c) t s
  apply emitted_append
  by_cases h : s.current_channel ≠ (channelReverse board c : Int)
  · have h2 : (switchProbe (channelReverse board c) t s).current_channel
        ≠ (channelReverse board c : Int) := by rw [hcur]; exact h
    rw [if_pos h]
    simp only [selectChannel, hc, if_true, switchChannel_changed _ _ hch h2]
    cases t <;> simp [setupSwitchDelay, delay, emit, isRTD] <;> rw [hl] <;> simp
  · have h2 : (switchProbe (channelReverse board c) t s).current_channel
        = (channelReverse board c : Int) := by rw [hcur]; exact not_not.mp h
    rw [if_neg h]
    simp only [selectChannel, hc, if_true, switchChannel_same _ _ h2]
    simp
    exact hl

theorem selectChannelAsync_emitted (board : Option PortentaBoardInfo) (now c : Nat)
    (t : temperature_probe_t) (s : Machine) (hc : c ≤ 2) :
    emitted s (selectChannelAsync board now c t s).1 =
      emitted s (switchProbe (channelReverse board c) t s) ++
        (if s.current_channel ≠ (channelReverse board c : Int) then
          oneHotWrites (channelReverse board c)
        else []) := by
  have hch := channelReverse_le board c hc
  obtain ⟨hcur, -⟩ := switchProbe_frame (channelReverse board c) t s
  have hl := switchProbe_log (channelReverse board c) t s
  apply emitted_append
  by_cases h : s.current_channel ≠ (channelReverse board c : Int)
  · have h2 : (switchProbe (channelReverse board c) t s).current_channel
        ≠ (channelReverse board c : Int) := by rw [hcur]; exact h
    rw [if_pos h]
    simp only [selectChannelAsync, hc, if_true, switchChannel_changed _ _ hch h2]
    cases t <;> simp [setupSwitchDelay] <;> rw [hl] <;> simp
  · have h2 : (switchProbe (channelReverse board c) t s).current_channel
        = (channelReverse board c : Int) := by rw [hcur]; exact not_not.mp h
    rw [if_neg h]
    simp only [selectChannelAsync, hc, if_true, switchChannel_same _ _ h2, Bool.false_eq_true,
      if_false, List.append_nil]
    split
    · split
      · exact hl
      · exact hl
    · exact hl


theorem selectChannel_state (board : Option PortentaBoardInfo) (c : Nat)
    (t : temperature_probe_t) (s : Machine) (hc : c ≤ 2) :
    (selectChannel board c t s).current_channel = (channelReverse board c : Int) ∧
    (selectChannel board c t s).current_probe_type =
      Function.update s.current_probe_type (channelReverse board c) t ∧
    selectLines (selectChannel board c t s) =
      if s.current_channel ≠ (channelReverse board c : Int) then oneHot (channelReverse board c)
      else selectLines s := by
  have hch := channelReverse_le board c hc
  obtain ⟨hcur, -, -, -, hcache, h0, h1, h2⟩ := switchProbe_frame (channelReverse board c) t s
  by_cases h : s.current_channel ≠ (channelReverse board c : Int)
  · have hp : (switchProbe (channelReverse board c) t s).current_channel
        ≠ (channelReverse board c : Int) := by rw [hcur]; exact h
    rw [if_pos h]
    simp only [selectChannel, hc, if_true, switchChannel_changed _ _ hch hp]
    cases t <;> simp [setupSwitchDelay, delay, emit, selectLines, oneHot, hcache]
  · have hp : (switchProbe (channelReverse board c) t s).current_channel
        = (channelReverse board c : Int) := by rw [hcur]; exact not_not.mp h
    rw [if_neg h]
    simp only [selectChannel, hc, if_true, switchChannel_same _ _ hp, Bool.false_eq_true,
      if_false]
    exact ⟨hp, hcache, by simp [selectLines, h0, h1, h2]⟩

theorem selectChannelAsync_changed (board : Option PortentaBoardInfo) (now c : Nat)
    (t : temperature_probe_t) (s : Machine) (hc : c ≤ 2)
    (h : s.current_channel ≠ (channelReverse board c : Int)) :
    (selectChannelAsync board now c t s).2 = false ∧
    (selectChannelAsync board now c t s).1.current_channel = (channelReverse board c : Int) ∧
    (selectChannelAsync board now c t s).1.current_probe_type =
      Function.update s.current_probe_type (channelReverse board c) t ∧
    (selectChannelAsync board now c t s).1.async_state = SWITCHING ∧
    (selectChannelAsync board now c t s).1.async_timer = u32 now ∧
    (selectChannelAsync board now c t s).1.switch_delay = (if isRTD t then 75 else 150) ∧
    selectLines (selectChannelAsync board now c t s).1 = oneHot (channelReverse board c) := by
  have hch := channelReverse_le board c hc
  obtain ⟨hcur, -, -, -, hcache, -⟩ := switchProbe_frame (channelReverse board c) t s
  have hp : (switchProbe (channelReverse board c) t s).current_channel
      ≠ (channelReverse board c : Int) := by rw [hcur]; exact h
  simp only [selectChannelAsync, hc, if_true, switchChannel_changed _ _ hch hp]
  cases t <;> simp [setupSwitchDelay, selectLines, oneHot, hcache, isRTD]

theorem selectChannelAsync_same (board : Option PortentaBoardInfo) (now c : Nat)
    (t : temperature_probe_t) (s : Machine) (hc : c ≤ 2)
    (h : s.current_channel = (channelReverse board c : Int)) :
    (selectChannelAsync board now c t s).1.current_channel = (channelReverse board c : Int) ∧
    (selectChannelAsync board now c t s).1.current_probe_type =
      Function.update s.current_probe_type (channelReverse board c) t ∧
    (selectChannelAsync board now c t s).1.async_timer = s.async_timer ∧
    (selectChannelAsync board now c t s).1.switch_delay = s.switch_delay ∧
    (selectChannelAsync board now c t s).1.async_state =
      (if s.async_state = SELECTED ∨ sub32 now s.async_timer ≥ s.switch_delay then SELECTED
       else SWITCHING) ∧
    (selectChannelAsync board now c t s).2 =
      decide (s.async_state = SELECTED ∨ sub32 now s.async_timer ≥ s.switch_delay) ∧
    selectLines (selectChannelAsync board now c t s).1 = selectLines s := by
  obtain ⟨hcur, hst, htm, hsd, hcache, h0, h1, h2⟩ :=
    switchProbe_frame (channelReverse board c) t s
  have hp : (switchProbe (channelReverse board c) t s).current_channel
      = (channelReverse board c : Int) := by rw [hcur]; exact h
  simp only [selectChannelAsync, hc, if_true, switchChannel_same _ _ hp, Bool.false_eq_true,
    if_false, hst, htm, hsd]
  cases hs : s.async_state
  · by_cases hd : sub32 now s.async_timer ≥ s.switch_delay
    · simp [hd, hp, hcache, htm, hsd, selectLines, h0, h1, h2]
    · simp [hd, hp, hcache, htm, hsd, selectLines, h0, h1, h2, hst, hs]
  · simp [hp, hcache, htm, hsd, selectLines, h0, h1, h2, hst, hs]


theorem waited_append (l1 l2 : List Event) : waited (l1 ++ l2) = waited l1 + waited l2 := by
  induction l1 with
  | nil => simp [waited]
  | cons e es ih => cases e <;> simp [waited, ih, Nat.add_assoc]

theorem switch_tail_filters (ch : Nat) (l : List Event) (hl : l = [] ∨ ∃ n, l = [Event.delay n]) :
    (oneHotWrites ch ++ l).filter isSetterCall = [] ∧
    (oneHotWrites ch ++ l).filter isRegisterWrite = [] := by
  rcases hl with rfl | ⟨n, rfl⟩ <;> simp [oneHotWrites, isSetterCall, isRegisterWrite]

/-! ## Claims -/

/-- C1 (code defect): the claim fails after a teardown and a new start.  With the reversal flag
false, the calls `begin(); selectChannel(0, PROBE_TC_K); end(); begin();
selectChannel(0, PROBE_TC_K)` reach a state in which the shared outputs are configured and all
three select lines are low: `deinitDO`/`initDO` drive the lines low but leave
`_current_channel` at 0, so `switchChannel` skips the writes. -/
theorem selectChannel_after_restart_all_lines_low :
    outputsConfigured (run none (Machine.init d0)
      [Op.begin frame0, Op.selectChannel 0 PROBE_TC_K, Op.end_, Op.begin frame0,
       Op.selectChannel 0 PROBE_TC_K]) = true ∧
    reversalFlag none = false ∧
    selectLines (run none (Machine.init d0)
      [Op.begin frame0, Op.selectChannel 0 PROBE_TC_K, Op.end_, Op.begin frame0,
       Op.selectChannel 0 PROBE_TC_K]) = (false, false, false) ∧
    selectLines (run none (Machine.init d0)
      [Op.begin frame0, Op.selectChannel 0 PROBE_TC_K, Op.end_, Op.begin frame0,
       Op.selectChannel 0 PROBE_TC_K]) ≠ oneHot 0 := by
  decide

/-- C2: with the reversal flag true `channelReverse` maps 0 to 2, 2 to 0 and 1 to 1, with the
flag false it is the identity on every channel; and from a state with no channel selected
(`_current_channel = -1`), with the flag true, `selectChannel(0, t)` leaves only select line 2
high, `selectChannel(2, t)` only line 0 and `selectChannel(1, t)` only line 1. -/
theorem channelReverse_swaps_outer_channels (board : Option PortentaBoardInfo)
    (t : temperature_probe_t) (s : Machine)
    (hrev : reversalFlag board = true) (hs : s.current_channel = -1) :
    channelReverse board 0 = 2 ∧ channelReverse board 2 = 0 ∧ channelReverse board 1 = 1 ∧
    (∀ (b : Option PortentaBoardInfo) (c : Nat), reversalFlag b = false → channelReverse b c = c) ∧
    selectLines (selectChannel board 0 t s) = (false, false, true) ∧
    selectLines (selectChannel board 2 t s) = (true, false, false) ∧
    selectLines (selectChannel board 1 t s) = (false, true, false) := by
  have hid : ∀ (b : Option PortentaBoardInfo) (c : Nat),
      reversalFlag b = false → channelReverse b c = c := by
    intro b c hb
    rcases b with _ | info
    · rfl
    · simp only [reversalFlag, Bool.and_eq_false_imp, beq_iff_eq, beq_eq_false_iff_ne] at hb
      simp only [channelReverse]
      split
      · next h => exact absurd h.2 (hb h.1)
      · rfl
  rcases board with _ | info
  · simp [reversalFlag] at hrev
  · simp only [reversalFlag, Bool.and_eq_true, beq_iff_eq] at hrev
    have h0 : channelReverse (some info) 0 = 2 := by simp [channelReverse, hrev]
    have h2 : channelReverse (some info) 2 = 0 := by simp [channelReverse, hrev]
    have h1 : channelReverse (some info) 1 = 1 := by simp [channelReverse, hrev]
    refine ⟨h0, h2, h1, hid, ?_, ?_, ?_⟩
    · rw [(selectChannel_state (some info) 0 t s (by decide)).2.2, h0, hs]; simp [oneHot]
    · rw [(selectChannel_state (some info) 2 t s (by decide)).2.2, h2, hs]; simp [oneHot]
    · rw [(selectChannel_state (some info) 1 t s (by decide)).2.2, h1, hs]; simp [oneHot]

/-- Witness of C2 on the R2 carrier, from the initial state. -/
theorem channelReverse_swaps_outer_channels_witness :
    reversalFlag (some ⟨0xB5, PMC_R2_SKU⟩) = true ∧
    (Machine.init d0).current_channel = -1 ∧
    selectLines (selectChannel (some ⟨0xB5, PMC_R2_SKU⟩) 0 PROBE_TC_K (Machine.init d0))
      = (false, false, true) :=
  ⟨by decide, rfl,
    (channelReverse_swaps_outer_channels (some ⟨0xB5, PMC_R2_SKU⟩) PROBE_TC_K (Machine.init d0)
      (by decide) rfl).2.2.2.2.1⟩


/-- C3: for a valid channel `c` and a TC or RTD probe type `t`, `selectChannel(c, t)` and
`selectChannelAsync(c, t)` enter the probe-type setter of the engine (`setTCType` for a TC
type, `setRTDType` for an RTD type) exactly once if the remapped channel differs from the
current channel or the cached probe type of that channel differs from `t`, and not at all
otherwise; the only register write is the config-register write of `setRTDType`; and a second
consecutive call with the same pair enters no setter and writes no register. -/
theorem selectChannel_setter_iff_cache_miss (board : Option PortentaBoardInfo)
    (now now2 c : Nat) (t : temperature_probe_t) (s : Machine)
    (hc : c ≤ 2) (ht : isTC t = true ∨ isRTD t = true) :
    ((emitted s (selectChannel board c t s)).filter isSetterCall =
      if s.current_channel ≠ (channelReverse board c : Int) ∨
          s.current_probe_type (channelReverse board c) ≠ t then
        [if isTC t then Event.call_setTCType t else Event.call_setRTDType t]
      else []) ∧
    ((emitted s (selectChannelAsync board now c t s).1).filter isSetterCall =
      if s.current_channel ≠ (channelReverse board c : Int) ∨
          s.current_probe_type (channelReverse board c) ≠ t then
        [if isTC t then Event.call_setTCType t else Event.call_setRTDType t]
      else []) ∧
    ((emitted s (selectChannel board c t s)).filter isRegisterWrite =
      if isRTD t = true ∧ (s.current_channel ≠ (channelReverse board c : Int) ∨
          s.current_probe_type (channelReverse board c) ≠ t) then
        [Event.rtd_writeByte MAX31865Class.MAX31865_CONFIG_REG
          (wireConfig t (s.reg MAX31865Class.MAX31865_CONFIG_REG))]
      else []) ∧
    ((emitted s (selectChannelAsync board now c t s).1).filter isRegisterWrite =
      if isRTD t = true ∧ (s.current_channel ≠ (channelReverse board c : Int) ∨
          s.current_probe_type (channelReverse board c) ≠ t) then
        [Event.rtd_writeByte MAX31865Class.MAX31865_CONFIG_REG
          (wireConfig t (s.reg MAX31865Class.MAX31865_CONFIG_REG))]
      else []) ∧
    (emitted (selectChannel board c t s)
      (selectChannel board c t (selectChannel board c t s))).filter isSetterCall = [] ∧
    (emitted (selectChannel board c t s)
      (selectChannel board c t (selectChannel board c t s))).filter isRegisterWrite = [] ∧
    (emitted (selectChannelAsync board now c t s).1
      (selectChannelAsync board now2 c t (selectChannelAsync board now c t s).1).1).filter
        isSetterCall = [] ∧
    (emitted (selectChannelAsync board now c t s).1
      (selectChannelAsync board now2 c t (selectChannelAsync board now c t s).1).1).filter
        isRegisterWrite = [] := by
  have tail1 : ∀ (x : Machine) (n : Nat),
      (if x.current_channel ≠ (channelReverse board c : Int) then
        oneHotWrites (channelReverse board c) ++ [Event.delay n] else []).filter isSetterCall = [] ∧
      (if x.current_channel ≠ (channelReverse board c : Int) then
        oneHotWrites (channelReverse board c) ++ [Event.delay n] else []).filter isRegisterWrite
        = [] := by
    intro x n
    split
    · exact switch_tail_filters _ _ (Or.inr ⟨n, rfl⟩)
    · simp
  have tail2 : ∀ (x : Machine),
      (if x.current_channel ≠ (channelReverse board c : Int) then
        oneHotWrites (channelReverse board c) else []).filter isSetterCall = [] ∧
      (if x.current_channel ≠ (channelReverse board c : Int) then
        oneHotWrites (channelReverse board c) else []).filter isRegisterWrite = [] := by
    intro x
    split
    · simpa using switch_tail_filters (channelReverse board c) [] (Or.inl rfl)
    · simp
  -- the state after the first call holds the pair
  obtain ⟨hcur1, hcache1, -⟩ := selectChannel_state board c t s hc
  have hpair1 : ¬ ((selectChannel board c t s).current_channel ≠ (channelReverse board c : Int) ∨
      (selectChannel board c t s).current_probe_type (channelReverse board c) ≠ t) := by
    simp [hcur1, hcache1]
  have hpair2 : ¬ ((selectChannelAsync board now c t s).1.current_channel
        ≠ (channelReverse board c : Int) ∨
      (selectChannelAsync board now c t s).1.current_probe_type (channelReverse board c) ≠ t) := by
    by_cases h : s.current_channel ≠ (channelReverse board c : Int)
    · obtain ⟨-, h1, h2, -⟩ := selectChannelAsync_changed board now c t s hc h
      simp [h1, h2]
    · obtain ⟨h1, h2, -⟩ := selectChannelAsync_same board now c t s hc (not_not.mp h)
      simp [h1, h2]
  refine ⟨?_, ?_, ?_, ?_, ?_, ?_, ?_, ?_⟩
  · rw [selectChannel_emitted board c t s hc, List.filter_append, (tail1 s _).1,
      List.append_nil, switchProbe_setter _ _ _ ht]
  · rw [selectChannelAsync_emitted board now c t s hc, List.filter_append, (tail2 s).1,
      List.append_nil, switchProbe_setter _ _ _ ht]
  · rw [selectChannel_emitted board c t s hc, List.filter_append, (tail1 s _).2,
      List.append_nil, switchProbe_regwrite]
  · rw [selectChannelAsync_emitted board now c t s hc, List.filter_append, (tail2 s).2,
      List.append_nil, switchProbe_regwrite]
  · rw [selectChannel_emitted board c t _ hc, List.filter_append, (tail1 _ _).1,
      List.append_nil, switchProbe_setter _ _ _ ht, if_neg hpair1]
  · rw [selectChannel_emitted board c t _ hc, List.filter_append, (tail1 _ _).2,
      List.append_nil, switchProbe_regwrite, if_neg (fun h => hpair1 h.2)]
  · rw [selectChannelAsync_emitted board now2 c t _ hc, List.filter_append, (tail2 _).1,
      List.append_nil, switchProbe_setter _ _ _ ht, if_neg hpair2]
  · rw [selectChannelAsync_emitted board now2 c t _ hc, List.filter_append, (tail2 _).2,
      List.append_nil, switchProbe_regwrite, if_neg (fun h => hpair2 h.2)]

/-- Witness of C3: the first `selectChannel(0, PROBE_RTD_PT100_3W)` from the initial state
enters `setRTDType` once. -/
theorem selectChannel_setter_iff_cache_miss_witness :
    (0 : Nat) ≤ 2 ∧ (isTC PROBE_RTD_PT100_3W = true ∨ isRTD PROBE_RTD_PT100_3W = true) ∧
    (emitted (Machine.init d0)
      (selectChannel none 0 PROBE_RTD_PT100_3W (Machine.init d0))).filter isSetterCall =
        [Event.call_setRTDType PROBE_RTD_PT100_3W] := by
  refine ⟨by decide, by decide, ?_⟩
  have h := (selectChannel_setter_iff_cache_miss none 0 0 0 PROBE_RTD_PT100_3W (Machine.init d0)
    (by decide) (by decide)).1
  rw [h]
  decide


/-- C4, counterexample: after `begin(); selectChannel(0, PROBE_TC_K)` the pair
`(0, PROBE_TC_K)` is selected and line 0 is high; a second `selectChannel(0, PROBE_TC_K)`
adds a single entry to the trace, the write to the routing line, and writes none of the three
select lines. -/
theorem reselect_writes_no_select_line :
    (run none (Machine.init d0) [Op.begin frame0, Op.selectChannel 0 PROBE_TC_K]).current_channel
      = 0 ∧
    (run none (Machine.init d0)
      [Op.begin frame0, Op.selectChannel 0 PROBE_TC_K]).current_probe_type 0 = PROBE_TC_K ∧
    emitted (run none (Machine.init d0) [Op.begin frame0, Op.selectChannel 0 PROBE_TC_K])
      (selectChannel none 0 PROBE_TC_K
        (run none (Machine.init d0) [Op.begin frame0, Op.selectChannel 0 PROBE_TC_K]))
      = [Event.digitalWrite Pin.rtd_th LOW] ∧
    (emitted (run none (Machine.init d0) [Op.begin frame0, Op.selectChannel 0 PROBE_TC_K])
      (selectChannel none 0 PROBE_TC_K
        (run none (Machine.init d0) [Op.begin frame0, Op.selectChannel 0 PROBE_TC_K]))).filter
      isSelectLineWrite ≠ oneHotWrites 0 := by
  decide

/-- C4, amended: for a valid channel `c` and any probe type `t`, a `selectChannel(c, t)` call
made when the remapped `c` is already the current channel writes none of the three select
lines, and the lines keep the levels they had. -/
theorem selectChannel_same_channel_keeps_select_lines (board : Option PortentaBoardInfo)
    (c : Nat) (t : temperature_probe_t) (s : Machine) (hc : c ≤ 2)
    (h : s.current_channel = (channelReverse board c : Int)) :
    (emitted s (selectChannel board c t s)).filter isSelectLineWrite = [] ∧
    selectLines (selectChannel board c t s) = selectLines s := by
  constructor
  · rw [selectChannel_emitted board c t s hc, if_neg (not_not.mpr h), List.append_nil]
    exact (switchProbe_quiet _ _ _).1
  · rw [(selectChannel_state board c t s hc).2.2, if_neg (not_not.mpr h)]

/-- Witness of the amended C4, at the state after `begin(); selectChannel(0, PROBE_TC_K)`. -/
theorem selectChannel_same_channel_keeps_select_lines_witness :
    (0 : Nat) ≤ 2 ∧
    (run none (Machine.init d0) [Op.begin frame0, Op.selectChannel 0 PROBE_TC_K]).current_channel
      = (channelReverse none 0 : Int) ∧
    selectLines (selectChannel none 0 PROBE_TC_K
      (run none (Machine.init d0) [Op.begin frame0, Op.selectChannel 0 PROBE_TC_K]))
      = (true, false, false) := by
  refine ⟨by decide, by decide, ?_⟩
  rw [(selectChannel_same_channel_keeps_select_lines none 0 PROBE_TC_K
    (run none (Machine.init d0) [Op.begin frame0, Op.selectChannel 0 PROBE_TC_K])
    (by decide) (by decide)).2]
  decide

/-- C6: for a valid channel `c` and a TC or RTD probe type `t`, the blocking
`selectChannel(c, t)` waits 150 time-units (TC type) or 75 time-units (RTD type) in total when
the remapped channel differs from the current channel, and zero time-units when it does not. -/
theorem selectChannel_wait (board : Option PortentaBoardInfo) (c : Nat)
    (t : temperature_probe_t) (s : Machine) (hc : c ≤ 2)
    (ht : isTC t = true ∨ isRTD t = true) :
    waited (emitted s (selectChannel board c t s)) =
      if s.current_channel ≠ (channelReverse board c : Int) then
        (if isTC t then 150 else 75)
      else 0 := by
  rw [selectChannel_emitted board c t s hc, waited_append, (switchProbe_quiet _ _ _).2]
  split
  · rw [waited_append]
    cases t <;> simp [isTC, isRTD] at ht <;> simp [oneHotWrites, waited, isTC, isRTD]
  · simp [waited]

/-- Witness of C6: the first `selectChannel(1, PROBE_RTD_PT100_2W)` from the initial state
waits 75 time-units. -/
theorem selectChannel_wait_witness :
    (1 : Nat) ≤ 2 ∧ (isTC PROBE_RTD_PT100_2W = true ∨ isRTD PROBE_RTD_PT100_2W = true) ∧
    waited (emitted (Machine.init d0)
      (selectChannel none 1 PROBE_RTD_PT100_2W (Machine.init d0))) = 75 := by
  refine ⟨by decide, by decide, ?_⟩
  rw [selectChannel_wait none 1 PROBE_RTD_PT100_2W (Machine.init d0) (by decide) (by decide)]
  decide

/-- C7: for a channel index greater than 2 and any probe type, `selectChannel` returns the
state unchanged (every member, every line, every register and the trace) and waits zero
time-units; `selectChannelAsync` returns the state unchanged and reports true exactly when the
async state was already `SELECTED`. -/
theorem selectChannel_invalid_channel (board : Option PortentaBoardInfo) (now c : Nat)
    (t : temperature_probe_t) (s : Machine) (hc : 2 < c) :
    selectChannel board c t s = s ∧
    waited (emitted s (selectChannel board c t s)) = 0 ∧
    (selectChannelAsync board now c t s).1 = s ∧
    ((selectChannelAsync board now c t s).2 = true ↔ s.async_state = SELECTED) := by
  have hn : ¬ c ≤ 2 := Nat.not_le.mpr hc
  have h1 : selectChannel board c t s = s := by simp [selectChannel, hn]
  refine ⟨h1, ?_, ?_, ?_⟩
  · rw [h1]; simp [emitted, waited]
  · simp [selectChannelAsync, hn]
  · simp [selectChannelAsync, hn]

/-- Witness of C7: channel 3 on the initial state. -/
theorem selectChannel_invalid_channel_witness :
    (2 : Nat) < 3 ∧ selectChannel none 3 PROBE_TC_K (Machine.init d0) = Machine.init d0 ∧
    (selectChannelAsync none 1000 3 PROBE_TC_K (Machine.init d0)).2 = true :=
  ⟨by decide, (selectChannel_invalid_channel none 1000 3 PROBE_TC_K (Machine.init d0)
      (by decide)).1,
    (selectChannel_invalid_channel none 1000 3 PROBE_TC_K (Machine.init d0)
      (by decide)).2.2.2.mpr rfl⟩


theorem sub32_elapsed (t0 d : Nat) (hd : d < 4294967296) : sub32 (u32 (t0 + d)) (u32 t0) = d := by
  unfold sub32 u32
  omega

theorem pollSelectChannelAsync_inv (board : Option PortentaBoardInfo) (t0 c D : Nat)
    (t : temperature_probe_t) (hc : c ≤ 2) :
    ∀ (ds : List Nat) (s : Machine),
      s.current_channel = (channelReverse board c : Int) →
      s.async_timer = u32 t0 → s.switch_delay = D →
      ds.Pairwise (· ≤ ·) → (∀ d ∈ ds, d < 4294967296) →
      (s.async_state = SELECTED → ∀ d ∈ ds, D ≤ d) →
      pollSelectChannelAsync board t0 c t s ds = ds.map (fun d => decide (D ≤ d)) := by
  intro ds
  induction ds with
  | nil => intro s _ _ _ _ _ _; rfl
  | cons d ds ih =>
    intro s hcur htm hsd hsorted hlt hsel
    obtain ⟨h1, -, h3, h4, h5, h6, -⟩ := selectChannelAsync_same board (u32 (t0 + d)) c t s hc hcur
    have hel : sub32 (u32 (t0 + d)) s.async_timer = d := by
      rw [htm]; exact sub32_elapsed t0 d (hlt d (List.mem_cons_self d ds))
    rw [hel, hsd] at h5 h6
    have hiff : (s.async_state = SELECTED ∨ d ≥ D) ↔ D ≤ d := by
      constructor
      · rintro (h | h)
        · exact hsel h d (List.mem_cons_self d ds)
        · exact h
      · intro h; exact Or.inr h
    simp only [pollSelectChannelAsync, List.map_cons]
    rw [h6, ih _ h1 (h3.trans htm) (h4.trans hsd) (List.Pairwise.of_cons hsorted)
      (fun x hx => hlt x (List.mem_cons_of_mem d hx))]
    · simp only [hiff]
    · intro hnew x hx
      rw [h5] at hnew
      by_cases hD : D ≤ d
      · exact le_trans hD (List.rel_of_pairwise_cons hsorted hx)
      · rw [if_neg (fun h => hD (hiff.mp h))] at hnew
        exact absurd hnew (by decide)

/-- C5: let `selectChannelAsync(c, t)` at clock value `t0` change the select lines (the
remapped channel differs from the current channel), with `t` a TC or RTD type and `D` its
settle delay (150 for TC, 75 for RTD).  The changing call returns false, and in every later
sequence of calls `selectChannelAsync(c, t)` at non-decreasing elapsed times `d < 2^32` (clock
reading `(t0 + d) mod 2^32`), each call returns true exactly when `D ≤ d`. -/
theorem selectChannelAsync_settle (board : Option PortentaBoardInfo) (t0 c : Nat)
    (t : temperature_probe_t) (s : Machine) (ds : List Nat)
    (hc : c ≤ 2) (ht : isTC t = true ∨ isRTD t = true)
    (hchg : s.current_channel ≠ (channelReverse board c : Int))
    (hsorted : ds.Pairwise (· ≤ ·)) (hlt : ∀ d ∈ ds, d < 4294967296) :
    (selectChannelAsync board (u32 t0) c t s).2 = false ∧
    pollSelectChannelAsync board t0 c t (selectChannelAsync board (u32 t0) c t s).1 ds =
      ds.map (fun d => decide ((if isTC t then 150 else 75) ≤ d)) := by
  obtain ⟨hret, hcur, -, hst, htm, hsd, -⟩ := selectChannelAsync_changed board (u32 t0) c t s hc hchg
  refine ⟨hret, ?_⟩
  have hD : (if isRTD t = true then 75 else 150) = (if isTC t = true then 150 else 75) := by
    cases t <;> simp [isTC, isRTD] at ht ⊢
  apply pollSelectChannelAsync_inv board t0 c _ t hc ds _ hcur
  · rw [htm]; simp [u32]
  · rw [hsd, hD]
  · exact hsorted
  · exact hlt
  · intro h; rw [hst] at h; exact absurd h (by decide)

/-- Witness of C5: a TC switch from the initial state at clock value `2^32 - 50`, polled 0,
149, 150 and 1000 time-units later (the clock wraps in between). -/
theorem selectChannelAsync_settle_witness :
    (selectChannelAsync none (u32 4294967246) 0 PROBE_TC_K (Machine.init d0)).2 = false ∧
    pollSelectChannelAsync none 4294967246 0 PROBE_TC_K
      (selectChannelAsync none (u32 4294967246) 0 PROBE_TC_K (Machine.init d0)).1
      [0, 149, 150, 1000] = [false, false, true, true] := by
  have h := selectChannelAsync_settle none 4294967246 0 PROBE_TC_K (Machine.init d0)
    [0, 149, 150, 1000] (by decide) (by decide) (by decide) (by decide) (by decide)
  refine ⟨h.1, ?_⟩
  rw [h.2]
  decide


/-! ### Lifecycle -/

theorem engineStep_refl (s : Machine) : EngineStep s s := by
  simp [EngineStep, emitted]

theorem engineStep_trans {s s2 s3 : Machine} (h1 : EngineStep s s2) (h2 : EngineStep s2 s3) :
    EngineStep s s3 := by
  obtain ⟨a1, a2, a3, a4, a5, a6⟩ := h1
  obtain ⟨b1, b2, b3, b4, b5, b6⟩ := h2
  have hl : s3.log = s.log ++ (emitted s s2 ++ emitted s2 s3) := by
    rw [b4, a4, List.append_assoc]
  have he : emitted s s3 = emitted s s2 ++ emitted s2 s3 := emitted_append _ _ _ hl
  refine ⟨b1.trans a1, b2.trans a2, b3.trans a3, ?_, ?_, ?_⟩
  · rw [he]; exact hl
  · rw [he, List.count_append, a5, b5]
  · rw [he, List.count_append, a6, b6]

theorem engineStep_emit (e : Event) (s : Machine) (h1 : e ≠ Event.call_initDO)
    (h2 : e ≠ Event.call_deinitDO) : EngineStep s (emit e s) := by
  have hl : (emit e s).log = s.log ++ [e] := rfl
  have he : emitted s (emit e s) = [e] := emitted_append _ _ _ hl
  refine ⟨rfl, rfl, rfl, ?_, ?_, ?_⟩
  · rw [he]; exact hl
  · rw [he]; simp [List.count_singleton, h1]
  · rw [he]; simp [List.count_singleton, h2]

theorem engineStep_of_fields {s s2 s3 : Machine} (h : EngineStep s s2)
    (htc : s3.tc_init = s2.tc_init) (hrtd : s3.rtd_init = s2.rtd_init)
    (hmode : outputsConfigured s3 = outputsConfigured s2) (hlog : s3.log = s2.log) :
    EngineStep s s3 := by
  obtain ⟨a1, a2, a3, a4, a5, a6⟩ := h
  have he : emitted s s3 = emitted s s2 := by simp [emitted, hlog]
  exact ⟨htc.trans a1, hrtd.trans a2, hmode.trans a3, by rw [he, hlog]; exact a4,
    by rw [he]; exact a5, by rw [he]; exact a6⟩

theorem engineStep_digitalWrite (pin : Pin) (v : Bool) (s : Machine) :
    EngineStep s (digitalWrite pin v s) := by
  unfold digitalWrite
  exact engineStep_trans (engineStep_of_fields (engineStep_refl s) rfl rfl rfl rfl)
    (engineStep_emit _ _ (by simp) (by simp))

theorem engineStep_delay (ms : Nat) (s : Machine) : EngineStep s (delay ms s) :=
  engineStep_emit _ _ (by simp) (by simp)

theorem engineStep_pinMode_tc_cs (m : PinMode) (s : Machine) :
    EngineStep s (pinMode Pin.tc_cs m s) := by
  unfold pinMode
  exact engineStep_trans (engineStep_of_fields (engineStep_refl s) rfl rfl
    (by simp [outputsConfigured]) rfl) (engineStep_emit _ _ (by simp) (by simp))

theorem engineStep_pinMode_rtd_cs (m : PinMode) (s : Machine) :
    EngineStep s (pinMode Pin.rtd_cs m s) := by
  unfold pinMode
  exact engineStep_trans (engineStep_of_fields (engineStep_refl s) rfl rfl
    (by simp [outputsConfigured]) rfl) (engineStep_emit _ _ (by simp) (by simp))

theorem engineStep_readByte (addr : Nat) (s : Machine) :
    EngineStep s (readByte addr s).1 := by
  unfold readByte
  dsimp only
  generalize addr &&& 0x7F = a
  exact engineStep_trans (engineStep_trans (engineStep_digitalWrite Pin.rtd_cs LOW s)
    (engineStep_emit (Event.rtd_readByte a) _ (by simp) (by simp)))
    (engineStep_digitalWrite Pin.rtd_cs HIGH _)

theorem engineStep_writeByte (addr data : Nat) (s : Machine) :
    EngineStep s (writeByte addr data s) := by
  unfold writeByte
  dsimp only
  generalize u8 (addr ||| 0x80) &&& 0x7F = a
  generalize u8 data = v
  have h1 : EngineStep s (digitalWrite Pin.rtd_cs LOW s) := engineStep_digitalWrite _ _ _
  have h2 : EngineStep (digitalWrite Pin.rtd_cs LOW s)
      { digitalWrite Pin.rtd_cs LOW s with
        reg := Function.update (digitalWrite Pin.rtd_cs LOW s).reg a v } :=
    engineStep_of_fields (engineStep_refl _) rfl rfl rfl rfl
  exact engineStep_trans (engineStep_trans (engineStep_trans h1 h2)
    (engineStep_emit (Event.rtd_writeByte a v) _ (by simp) (by simp)))
    (engineStep_digitalWrite Pin.rtd_cs HIGH _)

theorem engineStep_MAX31855_end (s : Machine) : EngineStep s (MAX31855Class.end_ s) := by
  unfold MAX31855Class.end_
  exact engineStep_trans (engineStep_trans (engineStep_trans
    (engineStep_emit _ _ (by simp) (by simp)) (engineStep_pinMode_tc_cs _ _))
    (engineStep_digitalWrite _ _ _)) (engineStep_emit _ _ (by simp) (by simp))

theorem engineStep_readSensor (rx : SpiFrame) (s : Machine) :
    EngineStep s (MAX31855Class.readSensor rx s).1 := by
  unfold MAX31855Class.readSensor
  exact engineStep_trans (engineStep_trans (engineStep_trans (engineStep_digitalWrite _ _ _)
    (engineStep_emit _ _ (by simp) (by simp))) (engineStep_emit _ _ (by simp) (by simp)))
    (engineStep_digitalWrite _ _ _)

theorem engineStep_MAX31855_begin (rx : SpiFrame) (s : Machine) :
    EngineStep s (MAX31855Class.begin rx s).1 := by
  have h : EngineStep s (MAX31855Class.readSensor rx (emit Event.spi_begin
      (digitalWrite Pin.tc_cs HIGH (pinMode Pin.tc_cs PinMode.OUTPUT
        (emit Event.call_MAX31855_begin s))))).1 :=
    engineStep_trans (engineStep_trans (engineStep_trans (engineStep_trans
      (engineStep_emit _ _ (by simp) (by simp)) (engineStep_pinMode_tc_cs _ _))
      (engineStep_digitalWrite _ _ _)) (engineStep_emit _ _ (by simp) (by simp)))
      (engineStep_readSensor _ _)
  unfold MAX31855Class.begin
  simp only
  split
  · exact engineStep_trans h (engineStep_MAX31855_end _)
  · exact h


theorem engineStep_setRTDBias (enabled : Bool) (s : Machine) :
    EngineStep s (setRTDBias enabled s) := by
  have h : EngineStep s (writeByte MAX31865_CONFIG_REG
      (if enabled = true then (readByte MAX31865_CONFIG_REG s).2 ||| MAX31865_CONFIG_BIAS
       else (readByte MAX31865_CONFIG_REG s).2 &&& not8 MAX31865_CONFIG_BIAS)
      (readByte MAX31865_CONFIG_REG s).1) :=
    engineStep_trans (engineStep_readByte MAX31865_CONFIG_REG s) (engineStep_writeByte _ _ _)
  unfold setRTDBias
  dsimp only
  generalize writeByte MAX31865_CONFIG_REG
      (if enabled = true then (readByte MAX31865_CONFIG_REG s).2 ||| MAX31865_CONFIG_BIAS
       else (readByte MAX31865_CONFIG_REG s).2 &&& not8 MAX31865_CONFIG_BIAS)
      (readByte MAX31865_CONFIG_REG s).1 = s2 at h ⊢
  exact engineStep_of_fields h rfl rfl rfl rfl

theorem engineStep_setRTDAutoConvert (enabled : Bool) (s : Machine) :
    EngineStep s (setRTDAutoConvert enabled s) := by
  have h : EngineStep s (writeByte MAX31865_CONFIG_REG
      (if enabled = true then (readByte MAX31865_CONFIG_REG s).2 ||| MAX31865_CONFIG_CONV_MODE_AUTO
       else (readByte MAX31865_CONFIG_REG s).2 &&& not8 MAX31865_CONFIG_CONV_MODE_AUTO)
      (readByte MAX31865_CONFIG_REG s).1) :=
    engineStep_trans (engineStep_readByte MAX31865_CONFIG_REG s) (engineStep_writeByte _ _ _)
  unfold setRTDAutoConvert
  dsimp only
  generalize writeByte MAX31865_CONFIG_REG
      (if enabled = true then (readByte MAX31865_CONFIG_REG s).2 ||| MAX31865_CONFIG_CONV_MODE_AUTO
       else (readByte MAX31865_CONFIG_REG s).2 &&& not8 MAX31865_CONFIG_CONV_MODE_AUTO)
      (readByte MAX31865_CONFIG_REG s).1 = s2 at h ⊢
  have h3 : EngineStep s (if (enabled && !s2.rtd_continuous_mode_enabled) = true then
      if s2.rtd_50hz_filter_enabled = true then delay 70 s2 else delay 60 s2 else s2) := by
    split
    · split
      · exact engineStep_trans h (engineStep_delay 70 s2)
      · exact engineStep_trans h (engineStep_delay 60 s2)
    · exact h
  generalize (if (enabled && !s2.rtd_continuous_mode_enabled) = true then
      if s2.rtd_50hz_filter_enabled = true then delay 70 s2 else delay 60 s2 else s2) = s3 at h3 ⊢
  exact engineStep_of_fields h3 rfl rfl rfl rfl

theorem engineStep_setRTDThresholds (lo hi : Nat) (s : Machine) :
    EngineStep s (setRTDThresholds lo hi s) := by
  unfold setRTDThresholds
  dsimp only
  exact engineStep_trans (engineStep_trans (engineStep_trans
    (engineStep_writeByte MAX31865_L_FAULT_LSB_REG (lo &&& 0xFF) s)
    (engineStep_writeByte MAX31865_L_FAULT_MSB_REG (lo >>> 8) _))
    (engineStep_writeByte MAX31865_H_FAULT_LSB_REG (hi &&& 0xFF) _))
    (engineStep_writeByte MAX31865_H_FAULT_MSB_REG (hi >>> 8) _)

theorem engineStep_clearRTDFault (s : Machine) : EngineStep s (clearRTDFault s) := by
  unfold clearRTDFault
  dsimp only
  exact engineStep_trans (engineStep_readByte MAX31865_CONFIG_REG s) (engineStep_writeByte _ _ _)

theorem engineStep_MAX31865_begin (s : Machine) : EngineStep s (MAX31865Class.begin s).1 := by
  have h : EngineStep s (clearRTDFault (setRTDThresholds 0 0xFFFF (setRTDAutoConvert false
      (setRTDBias false (digitalWrite Pin.rtd_cs HIGH (pinMode Pin.rtd_cs PinMode.OUTPUT
        (emit Event.spi_begin (emit Event.call_MAX31865_begin s)))))))) :=
    engineStep_trans (engineStep_trans (engineStep_trans (engineStep_trans
      (engineStep_trans (engineStep_trans (engineStep_trans
        (engineStep_emit Event.call_MAX31865_begin s (by simp) (by simp))
        (engineStep_emit Event.spi_begin _ (by simp) (by simp)))
        (engineStep_pinMode_rtd_cs PinMode.OUTPUT _))
        (engineStep_digitalWrite Pin.rtd_cs HIGH _))
        (engineStep_setRTDBias false _))
        (engineStep_setRTDAutoConvert false _))
        (engineStep_setRTDThresholds 0 0xFFFF _))
        (engineStep_clearRTDFault _)
  unfold MAX31865Class.begin
  split
  · dsimp only
    generalize (clearRTDFault (setRTDThresholds 0 0xFFFF (setRTDAutoConvert false
      (setRTDBias false (digitalWrite Pin.rtd_cs HIGH (pinMode Pin.rtd_cs PinMode.OUTPUT
        (emit Event.spi_begin (emit Event.call_MAX31865_begin s)))))))) = s2 at h ⊢
    exact engineStep_of_fields h rfl rfl rfl rfl
  · exact engineStep_refl s

theorem engineStep_MAX31865_end (s : Machine) : EngineStep s (MAX31865Class.end_ s) := by
  have h : EngineStep s (emit Event.spi_end (digitalWrite Pin.rtd_cs LOW
      (pinMode Pin.rtd_cs PinMode.INPUT (emit Event.call_MAX31865_end s)))) :=
    engineStep_trans (engineStep_trans (engineStep_trans
      (engineStep_emit Event.call_MAX31865_end s (by simp) (by simp))
      (engineStep_pinMode_rtd_cs PinMode.INPUT _))
      (engineStep_digitalWrite Pin.rtd_cs LOW _))
      (engineStep_emit Event.spi_end _ (by simp) (by simp))
  unfold MAX31865Class.end_
  split
  · dsimp only
    generalize (emit Event.spi_end (digitalWrite Pin.rtd_cs LOW
      (pinMode Pin.rtd_cs PinMode.INPUT (emit Event.call_MAX31865_end s)))) = s2 at h ⊢
    exact engineStep_of_fields h rfl rfl rfl rfl
  · exact engineStep_refl s

theorem initDO_effect (s : Machine) :
    (initDO s).tc_init = s.tc_init ∧ (initDO s).rtd_init = s.rtd_init ∧
    outputsConfigured (initDO s) = true ∧
    (initDO s).log = s.log ++ emitted s (initDO s) ∧
    (emitted s (initDO s)).count Event.call_initDO = 1 ∧
    (emitted s (initDO s)).count Event.call_deinitDO = 0 := by
  have hl : (initDO s).log = s.log ++
      [Event.call_initDO, Event.pinMode Pin.ch_sel0 PinMode.OUTPUT,
       Event.pinMode Pin.ch_sel1 PinMode.OUTPUT, Event.pinMode Pin.ch_sel2 PinMode.OUTPUT,
       Event.pinMode Pin.rtd_th PinMode.OUTPUT, Event.digitalWrite Pin.ch_sel0 LOW,
       Event.digitalWrite Pin.ch_sel1 LOW, Event.digitalWrite Pin.ch_sel2 LOW,
       Event.digitalWrite Pin.rtd_th LOW] := by
    simp [initDO, pinMode, digitalWrite, emit]
  have he := emitted_append _ _ _ hl
  refine ⟨?_, ?_, ?_, hl.trans (congrArg (fun l => s.log ++ l) he.symm), ?_, ?_⟩
  · simp [initDO, pinMode, digitalWrite, emit]
  · simp [initDO, pinMode, digitalWrite, emit]
  · simp [initDO, pinMode, digitalWrite, emit, outputsConfigured]
  · rw [he]; decide
  · rw [he]; decide

theorem deinitDO_effect (s : Machine) :
    (deinitDO s).tc_init = s.tc_init ∧ (deinitDO s).rtd_init = s.rtd_init ∧
    outputsConfigured (deinitDO s) = false ∧
    (deinitDO s).log = s.log ++ emitted s (deinitDO s) ∧
    (emitted s (deinitDO s)).count Event.call_initDO = 0 ∧
    (emitted s (deinitDO s)).count Event.call_deinitDO = 1 := by
  have hl : (deinitDO s).log = s.log ++
      [Event.call_deinitDO, Event.pinMode Pin.ch_sel0 PinMode.INPUT,
       Event.pinMode Pin.ch_sel1 PinMode.INPUT, Event.pinMode Pin.ch_sel2 PinMode.INPUT,
       Event.pinMode Pin.rtd_th PinMode.INPUT, Event.digitalWrite Pin.ch_sel0 LOW,
       Event.digitalWrite Pin.ch_sel1 LOW, Event.digitalWrite Pin.ch_sel2 LOW,
       Event.digitalWrite Pin.rtd_th LOW] := by
    simp [deinitDO, pinMode, digitalWrite, emit]
  have he := emitted_append _ _ _ hl
  refine ⟨?_, ?_, ?_, hl.trans (congrArg (fun l => s.log ++ l) he.symm), ?_, ?_⟩
  · simp [deinitDO, pinMode, digitalWrite, emit]
  · simp [deinitDO, pinMode, digitalWrite, emit]
  · simp [deinitDO, pinMode, digitalWrite, emit, outputsConfigured]
  · rw [he]; decide
  · rw [he]; decide


theorem lifecycleStep_refl (s : Machine) : LifecycleStep s s := by
  refine ⟨by simp [emitted], fun h => h, ?_, ?_⟩ <;> cases active s <;> simp [emitted]

theorem lifecycleStep_trans {s s2 s3 : Machine} (h1 : LifecycleStep s s2)
    (h2 : LifecycleStep s2 s3) (hmid : active s2 = active s ∨ active s2 = active s3) :
    LifecycleStep s s3 := by
  obtain ⟨a1, a2, a3, a4⟩ := h1
  obtain ⟨b1, b2, b3, b4⟩ := h2
  have hl : s3.log = s.log ++ (emitted s s2 ++ emitted s2 s3) := by
    rw [b1, a1, List.append_assoc]
  have he : emitted s s3 = emitted s s2 ++ emitted s2 s3 := emitted_append _ _ _ hl
  refine ⟨hl.trans (congrArg (fun l => s.log ++ l) he.symm), fun h => b2 (a2 h), ?_, ?_⟩
  · rw [he, List.count_append, a3, b3]
    rcases hmid with h | h <;> rw [h] <;> cases active s <;> cases active s3 <;> simp
  · rw [he, List.count_append, a4, b4]
    rcases hmid with h | h <;> rw [h] <;> cases active s <;> cases active s3 <;> simp

theorem beginTC_lifecycle (rx : SpiFrame) (s : Machine) :
    LifecycleStep s (beginTC rx s).1 ∧ (beginTC rx s).1.tc_init = true ∧
    (beginTC rx s).1.rtd_init = s.rtd_init := by
  unfold beginTC
  cases htc : s.tc_init
  · cases hrtd : s.rtd_init
    · -- first activation: initDO, then the chip
      simp only [Bool.not_false, if_true]
      obtain ⟨i1, i2, i3, i4, i5, i6⟩ := initDO_effect s
      obtain ⟨e1, e2, e3, e4, e5, e6⟩ := engineStep_MAX31855_begin rx (initDO s)
      generalize (MAX31855Class.begin rx (initDO s)).1 = x at e1 e2 e3 e4 e5 e6 ⊢
      generalize initDO s = y at i1 i2 i3 i4 i5 i6 e1 e2 e3 e4 e5 e6
      have hl : x.log = s.log ++ (emitted s y ++ emitted y x) := by
        rw [e4, i4, List.append_assoc]
      have he : emitted s x = emitted s y ++ emitted y x := emitted_append _ _ _ hl
      have he2 : emitted s { x with tc_init := true } = emitted s x := rfl
      refine ⟨⟨?_, ?_, ?_, ?_⟩, trivial, ?_⟩
      · rw [he2]; exact hl.trans (congrArg (fun l => s.log ++ l) he.symm)
      · intro _; simp [active]; exact e3.trans i3
      · rw [he2, he, List.count_append, i5, e5]; simp [active, htc, hrtd]
      · rw [he2, he, List.count_append, i6, e6]; simp [active, htc, hrtd]
      · exact (e2.trans i2).trans hrtd
    · -- the RTD driver is active already: only the chip
      simp only [Bool.not_false, Bool.not_true, if_true, Bool.false_eq_true, if_false]
      obtain ⟨e1, e2, e3, e4, e5, e6⟩ := engineStep_MAX31855_begin rx s
      generalize (MAX31855Class.begin rx s).1 = x at e1 e2 e3 e4 e5 e6 ⊢
      have he2 : emitted s { x with tc_init := true } = emitted s x := rfl
      refine ⟨⟨?_, ?_, ?_, ?_⟩, trivial, ?_⟩
      · rw [he2]; exact e4
      · intro h0; simp [active, htc, hrtd] at h0 ⊢; exact e3.trans h0
      · rw [he2, e5]; simp [active, htc, hrtd]
      · rw [he2, e6]; simp [active, htc, hrtd, e2]
      · exact e2.trans hrtd
  · simp only [Bool.not_true, Bool.false_eq_true, if_false]
    exact ⟨lifecycleStep_refl s, htc, trivial⟩


theorem beginRTD_lifecycle (s : Machine) :
    LifecycleStep s (beginRTD s).1 ∧ (beginRTD s).1.rtd_init = true ∧
    (beginRTD s).1.tc_init = s.tc_init := by
  unfold beginRTD
  cases hrtd : s.rtd_init
  · cases htc : s.tc_init
    · simp only [Bool.not_false, if_true]
      obtain ⟨i1, i2, i3, i4, i5, i6⟩ := initDO_effect s
      obtain ⟨e1, e2, e3, e4, e5, e6⟩ := engineStep_MAX31865_begin (initDO s)
      generalize (MAX31865Class.begin (initDO s)).1 = x at e1 e2 e3 e4 e5 e6 ⊢
      generalize initDO s = y at i1 i2 i3 i4 i5 i6 e1 e2 e3 e4 e5 e6
      have hl : x.log = s.log ++ (emitted s y ++ emitted y x) := by
        rw [e4, i4, List.append_assoc]
      have he : emitted s x = emitted s y ++ emitted y x := emitted_append _ _ _ hl
      have he2 : emitted s { x with rtd_init := true } = emitted s x := rfl
      refine ⟨⟨?_, ?_, ?_, ?_⟩, trivial, ?_⟩
      · rw [he2]; exact hl.trans (congrArg (fun l => s.log ++ l) he.symm)
      · intro _; simp [active]; exact e3.trans i3
      · rw [he2, he, List.count_append, i5, e5]; simp [active, htc, hrtd]
      · rw [he2, he, List.count_append, i6, e6]; simp [active, htc, hrtd]
      · exact (e1.trans i1).trans htc
    · simp only [Bool.not_false, Bool.not_true, if_true, Bool.false_eq_true, if_false]
      obtain ⟨e1, e2, e3, e4, e5, e6⟩ := engineStep_MAX31865_begin s
      generalize (MAX31865Class.begin s).1 = x at e1 e2 e3 e4 e5 e6 ⊢
      have he2 : emitted s { x with rtd_init := true } = emitted s x := rfl
      refine ⟨⟨?_, ?_, ?_, ?_⟩, trivial, ?_⟩
      · rw [he2]; exact e4
      · intro h0; simp [active, htc, hrtd] at h0 ⊢; exact e3.trans h0
      · rw [he2, e5]; simp [active, htc, hrtd]
      · rw [he2, e6]; simp [active, htc, hrtd, e1]
      · exact e1.trans htc
  · simp only [Bool.not_true, Bool.false_eq_true, if_false]
    exact ⟨lifecycleStep_refl s, hrtd, trivial⟩

theorem endTC_lifecycle (s : Machine) :
    LifecycleStep s (endTC s) ∧ (endTC s).tc_init = false ∧
    (endTC s).rtd_init = s.rtd_init := by
  by_cases htc : s.tc_init = true
  swap
  · have hu : endTC s = s := by simp [endTC, htc]
    rw [hu]
    exact ⟨lifecycleStep_refl s, by simpa using htc, rfl⟩
  · have hu : endTC s =
        if (!(MAX31855Class.end_ s).rtd_init) = true then
          deinitDO { MAX31855Class.end_ s with tc_init := false }
        else { MAX31855Class.end_ s with tc_init := false } := by
      simp [endTC, htc]
    rw [hu]
    obtain ⟨-, e2, e3, e4, e5, e6⟩ := engineStep_MAX31855_end s
    generalize MAX31855Class.end_ s = x at e2 e3 e4 e5 e6 ⊢
    have y1 : ({ x with tc_init := false } : Machine).tc_init = false := rfl
    have y2 : ({ x with tc_init := false } : Machine).rtd_init = x.rtd_init := rfl
    have y3 : outputsConfigured ({ x with tc_init := false } : Machine) = outputsConfigured x :=
      rfl
    have y4 : ({ x with tc_init := false } : Machine).log = x.log := rfl
    generalize ({ x with tc_init := false } : Machine) = y at y1 y2 y3 y4 ⊢
    have he2 : emitted s y = emitted s x := by simp [emitted, y4]
    cases hrtd : s.rtd_init
    · have hy : y.rtd_init = false := y2.trans (e2.trans hrtd)
      rw [if_pos (by rw [e2, hrtd]; rfl)]
      obtain ⟨i1, i2, i3, i4, i5, i6⟩ := deinitDO_effect y
      generalize deinitDO y = z at i1 i2 i3 i4 i5 i6 ⊢
      have hl : z.log = s.log ++ (emitted s x ++ emitted y z) := by
        rw [i4, y4, e4, List.append_assoc]
      have he : emitted s z = emitted s x ++ emitted y z := emitted_append _ _ _ hl
      have hz1 : z.tc_init = false := i1.trans y1
      have hz2 : z.rtd_init = false := i2.trans hy
      refine ⟨⟨?_, ?_, ?_, ?_⟩, hz1, hz2⟩
      · exact hl.trans (congrArg (fun l => s.log ++ l) he.symm)
      · intro _; simp [active, hz1, hz2]; exact i3
      · rw [he, List.count_append, e5, i5]; simp [active, htc, hz1, hz2]
      · rw [he, List.count_append, e6, i6]; simp [active, htc, hz1, hz2]
    · have hy : y.rtd_init = true := y2.trans (e2.trans hrtd)
      rw [if_neg (by rw [e2, hrtd]; decide)]
      refine ⟨⟨?_, ?_, ?_, ?_⟩, y1, hy⟩
      · rw [he2, y4]; exact e4
      · intro h0; simp [active, htc, hrtd, hy] at h0 ⊢; exact y3.trans (e3.trans h0)
      · rw [he2, e5]; simp [active, htc, hy]
      · rw [he2, e6]; simp [active, htc, hy]

theorem endRTD_lifecycle (s : Machine) :
    LifecycleStep s (endRTD s) ∧ (endRTD s).rtd_init = false ∧
    (endRTD s).tc_init = s.tc_init := by
  by_cases hrtd : s.rtd_init = true
  swap
  · have hu : endRTD s = s := by simp [endRTD, hrtd]
    rw [hu]
    exact ⟨lifecycleStep_refl s, by simpa using hrtd, rfl⟩
  · have hu : endRTD s =
        if (!(MAX31865Class.end_ s).tc_init) = true then
          deinitDO { MAX31865Class.end_ s with rtd_init := false }
        else { MAX31865Class.end_ s with rtd_init := false } := by
      simp [endRTD, hrtd]
    rw [hu]
    obtain ⟨e1, -, e3, e4, e5, e6⟩ := engineStep_MAX31865_end s
    generalize MAX31865Class.end_ s = x at e1 e3 e4 e5 e6 ⊢
    have y1 : ({ x with rtd_init := false } : Machine).rtd_init = false := rfl
    have y2 : ({ x with rtd_init := false } : Machine).tc_init = x.tc_init := rfl
    have y3 : outputsConfigured ({ x with rtd_init := false } : Machine) = outputsConfigured x :=
      rfl
    have y4 : ({ x with rtd_init := false } : Machine).log = x.log := rfl
    generalize ({ x with rtd_init := false } : Machine) = y at y1 y2 y3 y4 ⊢
    have he2 : emitted s y = emitted s x := by simp [emitted, y4]
    cases htc : s.tc_init
    · have hy : y.tc_init = false := y2.trans (e1.trans htc)
      rw [if_pos (by rw [e1, htc]; rfl)]
      obtain ⟨i1, i2, i3, i4, i5, i6⟩ := deinitDO_effect y
      generalize deinitDO y = z at i1 i2 i3 i4 i5 i6 ⊢
      have hl : z.log = s.log ++ (emitted s x ++ emitted y z) := by
        rw [i4, y4, e4, List.append_assoc]
      have he : emitted s z = emitted s x ++ emitted y z := emitted_append _ _ _ hl
      have hz1 : z.rtd_init = false := i2.trans y1
      have hz2 : z.tc_init = false := i1.trans hy
      refine ⟨⟨?_, ?_, ?_, ?_⟩, hz1, hz2⟩
      · exact hl.trans (congrArg (fun l => s.log ++ l) he.symm)
      · intro _; simp [active, hz1, hz2]; exact i3
      · rw [he, List.count_append, e5, i5]; simp [active, hrtd, hz1, hz2]
      · rw [he, List.count_append, e6, i6]; simp [active, hrtd, hz1, hz2]
    · have hy : y.tc_init = true := y2.trans (e1.trans htc)
      rw [if_neg (by rw [e1, htc]; decide)]
      refine ⟨⟨?_, ?_, ?_, ?_⟩, y1, hy⟩
      · rw [he2, y4]; exact e4
      · intro h0; simp [active, htc, hrtd, hy] at h0 ⊢; exact y3.trans (e3.trans h0)
      · rw [he2, e5]; simp [active, hrtd, hy]
      · rw [he2, e6]; simp [active, hrtd, hy]

theorem begin_lifecycle (rx : SpiFrame) (s : Machine) :
    LifecycleStep s (TempProbeClass.begin rx s).1 := by
  obtain ⟨h1, h2, -⟩ := beginTC_lifecycle rx s
  unfold TempProbeClass.begin
  dsimp only
  split
  · obtain ⟨k1, k2, k3⟩ := beginRTD_lifecycle (beginTC rx s).1
    refine lifecycleStep_trans h1 k1 (Or.inr ?_)
    simp [active, h2, k2]
  · exact h1

theorem end_lifecycle (s : Machine) : LifecycleStep s (TempProbeClass.end_ s) := by
  obtain ⟨h1, h2, h3⟩ := endTC_lifecycle s
  obtain ⟨k1, k2, k3⟩ := endRTD_lifecycle (endTC s)
  unfold TempProbeClass.end_
  refine lifecycleStep_trans h1 k1 ?_
  cases hr : s.rtd_init
  · right; simp [active, h2, h3, hr, k2, k3]
  · left; simp [active, h2, h3, hr]

theorem step_lifecycle (board : Option PortentaBoardInfo) (s : Machine) (op : Op)
    (hop : isLifecycle op = true) : LifecycleStep s (step board s op) := by
  cases op with
  | beginTC rx => exact (beginTC_lifecycle rx s).1
  | beginRTD => exact (beginRTD_lifecycle s).1
  | begin rx => exact begin_lifecycle rx s
  | endTC => exact (endTC_lifecycle s).1
  | endRTD => exact (endRTD_lifecycle s).1
  | end_ => exact end_lifecycle s
  | selectChannel c t => simp [isLifecycle] at hop
  | selectChannelAsync now c t => simp [isLifecycle] at hop

theorem run_lifecycle_invariant (board : Option PortentaBoardInfo) (ops : List Op) :
    ∀ (s : Machine), (∀ o ∈ ops, isLifecycle o = true) →
      outputsConfigured s = active s →
      outputsConfigured (run board s ops) = active (run board s ops) := by
  induction ops with
  | nil => intro s _ h; exact h
  | cons o os ih =>
    intro s hops h
    have h1 := (step_lifecycle board s o (hops o (List.mem_cons_self o os))).2.1 h
    exact ih (step board s o) (fun x hx => hops x (List.mem_cons_of_mem o hx)) h1


/-- C8: start from a state with both sub-drivers inactive and the shared outputs unconfigured,
and run any finite sequence `ops` of `beginTC`, `beginRTD`, `begin`, `endTC`, `endRTD` and
`end` calls.  Afterwards (so after each call of any such sequence) the shared outputs are
configured exactly when an activation flag is set; a further lifecycle call `op` enters
`initDO` once if it goes from no active sub-driver to an active one and never otherwise, and
enters `deinitDO` once if it goes from an active sub-driver to none and never otherwise.  After
`beginTC(); beginRTD(); endTC()` the outputs are still configured, and a following `endRTD()`
releases them. -/
theorem lifecycle_shared_outputs (board : Option PortentaBoardInfo) (s0 : Machine)
    (ops : List Op) (op : Op) (rx : SpiFrame)
    (htc : s0.tc_init = false) (hrtd : s0.rtd_init = false)
    (hcfg : outputsConfigured s0 = false)
    (hops : ∀ o ∈ ops, isLifecycle o = true) (hop : isLifecycle op = true) :
    outputsConfigured (run board s0 ops) = active (run board s0 ops) ∧
    (emitted (run board s0 ops) (step board (run board s0 ops) op)).count Event.call_initDO =
      (if (!active (run board s0 ops) && active (step board (run board s0 ops) op)) = true
        then 1 else 0) ∧
    (emitted (run board s0 ops) (step board (run board s0 ops) op)).count Event.call_deinitDO =
      (if (active (run board s0 ops) && !active (step board (run board s0 ops) op)) = true
        then 1 else 0) ∧
    outputsConfigured (run board s0 [Op.beginTC rx, Op.beginRTD, Op.endTC]) = true ∧
    outputsConfigured (run board s0 [Op.beginTC rx, Op.beginRTD, Op.endTC, Op.endRTD]) = false := by
  have h0 : outputsConfigured s0 = active s0 := by simp [active, htc, hrtd, hcfg]
  have hstep := step_lifecycle board (run board s0 ops) op hop
  refine ⟨run_lifecycle_invariant board ops s0 hops h0, hstep.2.2.1, hstep.2.2.2, ?_, ?_⟩
  · have hinv := run_lifecycle_invariant board [Op.beginTC rx, Op.beginRTD, Op.endTC] s0
      (by intro o ho; simp at ho; rcases ho with rfl | rfl | rfl <;> rfl) h0
    rw [hinv]
    have h3 := (endTC_lifecycle (beginRTD (beginTC rx s0).1).1).2.2
    have h2 := (beginRTD_lifecycle (beginTC rx s0).1).2.1
    show active (endTC (beginRTD (beginTC rx s0).1).1) = true
    simp [active, h3, h2]
  · have hinv := run_lifecycle_invariant board [Op.beginTC rx, Op.beginRTD, Op.endTC, Op.endRTD]
      s0 (by intro o ho; simp at ho; rcases ho with rfl | rfl | rfl | rfl <;> rfl) h0
    rw [hinv]
    have h4 := endRTD_lifecycle (endTC (beginRTD (beginTC rx s0).1).1)
    have h3 := (endTC_lifecycle (beginRTD (beginTC rx s0).1).1).2.1
    show active (endRTD (endTC (beginRTD (beginTC rx s0).1).1)) = false
    simp [active, h4.2.1, h4.2.2, h3]

/-- Witness of C8 from the initial state: after `begin(); endTC()` the outputs are still
configured, and the following `endRTD()` enters `deinitDO` once. -/
theorem lifecycle_shared_outputs_witness :
    outputsConfigured (run none (Machine.init d0) [Op.begin frame0, Op.endTC]) = true ∧
    (emitted (run none (Machine.init d0) [Op.begin frame0, Op.endTC])
      (step none (run none (Machine.init d0) [Op.begin frame0, Op.endTC]) Op.endRTD)).count
        Event.call_deinitDO = 1 := by
  have h := lifecycle_shared_outputs none (Machine.init d0) [Op.begin frame0, Op.endTC]
    Op.endRTD frame0 rfl rfl (by decide) (by decide) (by decide)
  refine ⟨?_, ?_⟩
  · rw [h.1]; decide
  · rw [h.2.2.1]; decide

/-- C9 (code defect): the bus delivers the word `0x00FFFFFF`, so `MAX31855Class::begin` fails
and the first `beginTC` returns false; yet `_tc_init` is set, and a second `beginTC` returns
true without any bus access (it adds nothing to the trace). -/
theorem beginTC_failure_sets_flag :
    (MAX31855Class.begin ⟨0x00, 0xFF, 0xFF, 0xFF⟩ (initDO (Machine.init d0))).2 = false ∧
    (beginTC ⟨0x00, 0xFF, 0xFF, 0xFF⟩ (Machine.init d0)).2 = false ∧
    (beginTC ⟨0x00, 0xFF, 0xFF, 0xFF⟩ (Machine.init d0)).1.tc_init = true ∧
    (beginTC frame0 (beginTC ⟨0x00, 0xFF, 0xFF, 0xFF⟩ (Machine.init d0)).1).2 = true ∧
    emitted (beginTC ⟨0x00, 0xFF, 0xFF, 0xFF⟩ (Machine.init d0)).1
      (beginTC frame0 (beginTC ⟨0x00, 0xFF, 0xFF, 0xFF⟩ (Machine.init d0)).1).1 = [] := by
  decide

/-- C10 (code defect): when each of the four received bytes is `0xFF` the raw word is
`0xFFFFFFFF`, which differs from the constant `0xFFFFFF` that `begin` compares with; `begin`
returns true and does not enter `end`. -/
theorem MAX31855_begin_all_ones_succeeds (s : Machine) :
    (MAX31855Class.readSensor ⟨0xFF, 0xFF, 0xFF, 0xFF⟩ s).2 = 0xFFFFFFFF ∧
    (MAX31855Class.begin ⟨0xFF, 0xFF, 0xFF, 0xFF⟩ s).2 = true ∧
    Event.call_MAX31855_end ∉ emitted s (MAX31855Class.begin ⟨0xFF, 0xFF, 0xFF, 0xFF⟩ s).1 := by
  have hw : (MAX31855Class.readSensor ⟨0xFF, 0xFF, 0xFF, 0xFF⟩ s).2 = 0xFFFFFFFF := by
    simp [MAX31855Class.readSensor, u32, u8]
  refine ⟨hw, ?_, ?_⟩
  · simp [MAX31855Class.begin, MAX31855Class.readSensor, u32, u8]
  · simp [MAX31855Class.begin, MAX31855Class.readSensor, u32, u8, emitted, digitalWrite,
      pinMode, emit, delayMicroseconds]

theorem and_two_pow_ne_zero_iff (x i : Nat) : x &&& 2 ^ i ≠ 0 ↔ x.testBit i = true := by
  constructor
  · intro h
    by_contra hb
    apply h
    apply Nat.eq_of_testBit_eq
    intro j
    rw [Nat.testBit_and, Nat.testBit_two_pow, Nat.zero_testBit]
    by_cases hj : i = j
    · subst hj; simp [hb]
    · simp [hj]
  · intro hb h
    have := congrArg (fun y => y.testBit i) h
    simp [Nat.testBit_and, Nat.testBit_two_pow, hb] at this

theorem testBit_31_iff (w : Nat) (hw : w < 4294967296) :
    w.testBit 31 = true ↔ 2147483648 ≤ w := by
  constructor
  · intro h
    by_contra hlt
    have : w < 2 ^ 31 := by omega
    rw [Nat.testBit_lt_two_pow this] at h
    exact absurd h (by decide)
  · intro h
    have hw2 : w = 2 ^ 31 + (w - 2 ^ 31) := by omega
    rw [hw2, Nat.testBit_two_pow_add_eq, Nat.testBit_lt_two_pow (by omega)]
    rfl

theorem decodeTemperatureSensorData_eq (w : Nat) (hw : w < 4294967296) :
    MAX31855Class.decodeTemperatureSensorData w = ((toInt32 w / 262144 : Int) : ℚ) / 4 := by
  unfold MAX31855Class.decodeTemperatureSensorData
  have hmask : (0x80000000 : Nat) = 2 ^ 31 := by norm_num
  have h14 : (0x00003FFF : Nat) = 2 ^ 14 - 1 := by norm_num
  have hhi : (0xFFFFC000 : Nat) = 2 ^ 14 * 262143 := by norm_num
  simp only [hmask, and_two_pow_ne_zero_iff, testBit_31_iff w hw, h14,
    Nat.and_pow_two_sub_one_eq_mod, Nat.shiftRight_eq_div_pow]
  by_cases hs : 2147483648 ≤ w
  · have hs2 : 2 ^ 31 ≤ w := by norm_num; exact hs
    have hb : w / 2 ^ 18 % 2 ^ 14 < 2 ^ 14 := Nat.mod_lt _ (by norm_num)
    rw [if_pos hs2, hhi, ← Nat.mul_add_lt_is_or hb 262143]
    have e1 : toInt32 (2 ^ 14 * 262143 + w / 2 ^ 18 % 2 ^ 14) = toInt32 w / 262144 := by
      unfold toInt32 u32
      have : ¬ (w % 4294967296 < 2147483648) := by omega
      rw [if_neg this]
      have h2 : ¬ ((2 ^ 14 * 262143 + w / 2 ^ 18 % 2 ^ 14) % 4294967296 < 2147483648) := by
        omega
      rw [if_neg h2]
      omega
    rw [e1]; ring
  · have hs2 : ¬ 2 ^ 31 ≤ w := by norm_num; omega
    rw [if_neg hs2]
    have e1 : toInt32 (w / 2 ^ 18) = toInt32 w / 262144 := by
      unfold toInt32 u32
      have : w % 4294967296 < 2147483648 := by omega
      rw [if_pos this]
      have h2 : (w / 2 ^ 18) % 4294967296 < 2147483648 := by omega
      rw [if_pos h2]
      omega
    rw [e1]; ring

/-- C11: for every 32-bit raw word `w`, `decodeTemperatureSensorData(w)` is `s / 4`, where
`s` is the floor of `w`, read as a signed 32-bit integer, divided by `2^18`; `s` is the
two's-complement value of the 14-bit field in bits 31..18 and lies in `[-8192, 8191]`.  Every
word `0x7FFFFFxx` decodes to 2047.75, no word decodes to more, and every word with bit 31 set
decodes to a negative value. -/
theorem decodeTemperatureSensorData_spec (w : Nat) (hw : w < 4294967296) :
    MAX31855Class.decodeTemperatureSensorData w = ((toInt32 w / 262144 : Int) : ℚ) / 4 ∧
    (toInt32 w / 262144 =
      if (w >>> 18) &&& 0x3FFF < 8192 then (((w >>> 18) &&& 0x3FFF : Nat) : Int)
      else (((w >>> 18) &&& 0x3FFF : Nat) : Int) - 16384) ∧
    -8192 ≤ toInt32 w / 262144 ∧ toInt32 w / 262144 ≤ 8191 ∧
    (∀ x : Nat, x < 256 →
      MAX31855Class.decodeTemperatureSensorData (0x7FFFFF00 + x) = 8191 / 4) ∧
    MAX31855Class.decodeTemperatureSensorData w ≤ 8191 / 4 ∧
    (w &&& 0x80000000 ≠ 0 → MAX31855Class.decodeTemperatureSensorData w < 0) := by
  have hrange : -8192 ≤ toInt32 w / 262144 ∧ toInt32 w / 262144 ≤ 8191 := by
    unfold toInt32 u32
    split <;> omega
  have hfield : (toInt32 w / 262144 =
      if (w >>> 18) &&& 0x3FFF < 8192 then (((w >>> 18) &&& 0x3FFF : Nat) : Int)
      else (((w >>> 18) &&& 0x3FFF : Nat) : Int) - 16384) := by
    have h14 : (0x3FFF : Nat) = 2 ^ 14 - 1 := by norm_num
    rw [h14, Nat.and_pow_two_sub_one_eq_mod, Nat.shiftRight_eq_div_pow]
    unfold toInt32 u32
    split <;> split <;> omega
  refine ⟨decodeTemperatureSensorData_eq w hw, hfield, hrange.1, hrange.2, ?_, ?_, ?_⟩
  · intro x hx
    rw [decodeTemperatureSensorData_eq _ (by omega)]
    have : toInt32 (0x7FFFFF00 + x) / 262144 = 8191 := by
      unfold toInt32 u32
      split <;> omega
    rw [this]; norm_num
  · rw [decodeTemperatureSensorData_eq w hw]
    have : ((toInt32 w / 262144 : Int) : ℚ) ≤ 8191 := by exact_mod_cast hrange.2
    linarith
  · intro hbit
    have hmask : (0x80000000 : Nat) = 2 ^ 31 := by norm_num
    rw [hmask, and_two_pow_ne_zero_iff, testBit_31_iff w hw] at hbit
    rw [decodeTemperatureSensorData_eq w hw]
    have hneg : toInt32 w / 262144 < 0 := by
      unfold toInt32 u32
      split <;> omega
    have : ((toInt32 w / 262144 : Int) : ℚ) < 0 := by exact_mod_cast hneg
    linarith

/-- Witness of C11: the word `0x7FFFFF00` decodes to 2047.75. -/
theorem decodeTemperatureSensorData_spec_witness :
    (0x7FFFFF00 : Nat) < 4294967296 ∧
    MAX31855Class.decodeTemperatureSensorData 0x7FFFFF00 = 8191 / 4 := by
  refine ⟨by norm_num, ?_⟩
  have h := (decodeTemperatureSensorData_spec 0x7FFFFF00 (by norm_num)).2.2.2.2.1 0 (by norm_num)
  exact h

/-- C12 (code defect): the result of `decodeReferenceSensorData` depends on the indeterminate
initial value `g` of the local `measuredCold`: it exceeds the result for `g = 0` by `g / 16`.
For the raw word 0 and the offset 2.10 of the initial state the value is `-2.1` when `g = 0`
and `-1.1` when `g = 16`. -/
theorem decodeReferenceSensorData_depends_on_uninitialised (g : ℚ) (w : Nat) (s : Machine) :
    MAX31855Class.decodeReferenceSensorData g w s =
      MAX31855Class.decodeReferenceSensorData 0 w s + g / 16 ∧
    MAX31855Class.decodeReferenceSensorData 0 0 (Machine.init d0) = -21 / 10 ∧
    MAX31855Class.decodeReferenceSensorData 16 0 (Machine.init d0) = -11 / 10 := by
  refine ⟨?_, ?_, ?_⟩
  · simp only [MAX31855Class.decodeReferenceSensorData]
    ring
  · norm_num [MAX31855Class.decodeReferenceSensorData, toInt32, u32, Machine.init]
  · norm_num [MAX31855Class.decodeReferenceSensorData, toInt32, u32, Machine.init]

/-- Values of the rounding: the literal `0.1`; a sum below half a unit in the last place of 1;
ties go to the even neighbour; the largest finite value, and overflow from half a unit above
it; the smallest subnormal value, and underflow to zero from half of it; the `float` literal
`0.041276f`. -/
theorem round_values :
    Double.round (1 / 10) = Double.finite (3602879701896397 / 36028797018963968) ∧
    Double.round (1 + pow2 (-60)) = Double.finite 1 ∧
    Double.round (pow2 53 + 1) = Double.finite (pow2 53) ∧
    Double.round (pow2 53 + 3) = Double.finite (pow2 53 + 4) ∧
    Double.round (pow2 1024 - pow2 971) = Double.finite (pow2 1024 - pow2 971) ∧
    Double.round (pow2 1024 - pow2 970) = Double.pinf ∧
    Double.round (-(pow2 1024 - pow2 970)) = Double.ninf ∧
    Double.round (pow2 (-1074)) = Double.finite (pow2 (-1074)) ∧
    Double.round (pow2 (-1075)) = Double.finite 0 ∧
    Double.ofFloatLiteral (41276 / 1000000) = Double.finite (5539971 / 134217728) := by
  decide!

theorem polynomialTerms_exact (v : ℚ) (coeffs : Nat → ℚ) (size : Nat)
    (hrep : ∀ j, j < size → Double.representable (v ^ j) ∧
      Double.representable (v ^ j * coeffs j) ∧
      Double.representable (∑ k in Finset.range (j + 1), coeffs k * v ^ k)) :
    ∀ j, j ≤ size →
      (MAX31855Class.polynomialTerms (Double.finite v) coeffs j).1 =
        Double.finite (∑ k in Finset.range j, coeffs k * v ^ k) ∧
      (j < size →
        (MAX31855Class.polynomialTerms (Double.finite v) coeffs j).2 = Double.finite (v ^ j)) := by
  intro j
  induction j with
  | zero =>
    intro _
    refine ⟨by simp [MAX31855Class.polynomialTerms], fun _ => ?_⟩
    simp [MAX31855Class.polynomialTerms]
  | succ j ih =>
    intro hj
    have hlt : j < size := hj
    obtain ⟨h1, h2⟩ := ih (Nat.le_of_lt hlt)
    have h2 := h2 hlt
    obtain ⟨_, hp, hs⟩ := hrep j hlt
    have hp : Double.round (v ^ j * coeffs j) = Double.finite (v ^ j * coeffs j) := hp
    have hs : Double.round (∑ k in Finset.range (j + 1), coeffs k * v ^ k) =
        Double.finite (∑ k in Finset.range (j + 1), coeffs k * v ^ k) := hs
    have hsum : ∑ k in Finset.range j, coeffs k * v ^ k + v ^ j * coeffs j =
        ∑ k in Finset.range (j + 1), coeffs k * v ^ k := by
      rw [Finset.sum_range_succ, mul_comm (v ^ j) (coeffs j)]
    constructor
    · simp only [MAX31855Class.polynomialTerms, h1, h2, Double.mul, hp, Double.add, hsum, hs]
    · intro hj2
      have hv : Double.round (v ^ (j + 1)) = Double.finite (v ^ (j + 1)) := (hrep (j + 1) hj2).1
      simp only [MAX31855Class.polynomialTerms, h2, Double.mul, ← pow_succ, hv]

theorem polynomialFrom_nan (table : Nat → coefftable) (n i : Nat) :
    MAX31855Class.polynomialFrom Double.nan table n i = Double.nan := by
  induction n generalizing i with
  | zero => rfl
  | succ n ih => simp [MAX31855Class.polynomialFrom, Double.lt, ih]

theorem polynomialFrom_first_match (value : Double) (table : Nat → coefftable) (m n i : Nat)
    (hfirst : ∀ k, k < m → Double.lt value (Double.finite (table (i + k)).max) = false)
    (hlt : Double.lt value (Double.finite (table (i + m)).max) = true) :
    MAX31855Class.polynomialFrom value table (m + n + 1) i =
      if (table (i + m)).size = 0 then Double.nan
      else (MAX31855Class.polynomialTerms value (table (i + m)).coeffs (table (i + m)).size).1 := by
  induction m generalizing i with
  | zero =>
    have hlt0 : Double.lt value (Double.finite (table i).max) = true := by simpa using hlt
    simp [MAX31855Class.polynomialFrom, hlt0]
  | succ m ih =>
    have h0 : Double.lt value (Double.finite (table i).max) = false := by
      simpa using hfirst 0 (Nat.succ_pos m)
    have e : m + 1 + n + 1 = (m + n + 1) + 1 := by omega
    rw [e]
    simp only [MAX31855Class.polynomialFrom, h0, Bool.false_eq_true, if_false]
    have e2 : i + (m + 1) = (i + 1) + m := by omega
    rw [e2] at hlt ⊢
    apply ih
    · intro k hk
      have := hfirst (k + 1) (Nat.succ_lt_succ hk)
      rwa [show i + (k + 1) = i + 1 + k by omega] at this
    · exact hlt

theorem polynomial_at_first_match (value : Double) (n : Nat) (table : Nat → coefftable)
    (i : Nat) (hi : i < n) (hlt : Double.lt value (Double.finite (table i).max) = true)
    (hfirst : ∀ k, k < i → Double.lt value (Double.finite (table k).max) = false) :
    MAX31855Class.polynomial value n table =
      if (table i).size = 0 then Double.nan
      else (MAX31855Class.polynomialTerms value (table i).coeffs (table i).size).1 := by
  unfold MAX31855Class.polynomial
  have e : n = i + (n - i - 1) + 1 := by omega
  rw [e]
  have := polynomialFrom_first_match value table i (n - i - 1) 0
    (by intro k hk; simpa using hfirst k hk) (by simpa using hlt)
  simpa using this

theorem polynomial_exact_at_first_match (v : ℚ) (n : Nat) (table : Nat → coefftable)
    (i : Nat) (hi : i < n) (hlt : Double.lt (Double.finite v) (Double.finite (table i).max) = true)
    (hfirst : ∀ k, k < i → Double.lt (Double.finite v) (Double.finite (table k).max) = false)
    (hne : (table i).size ≠ 0)
    (hrep : ∀ j, j < (table i).size → Double.representable (v ^ j) ∧
      Double.representable (v ^ j * (table i).coeffs j) ∧
      Double.representable (∑ k in Finset.range (j + 1), (table i).coeffs k * v ^ k)) :
    MAX31855Class.polynomial (Double.finite v) n table =
      Double.finite (∑ j in Finset.range (table i).size, (table i).coeffs j * v ^ j) := by
  rw [polynomial_at_first_match (Double.finite v) n table i hi hlt hfirst, if_neg hne]
  exact (polynomialTerms_exact v (table i).coeffs (table i).size hrep _ (Nat.le_refl _)).1

/-- C13, counterexample: for the value `2^-60` the first segment of `table0`
whose bound exceeds it is segment 1, with the coefficients `1, 2, 3`; `polynomial` returns 1
(each sum `1 + 2^-59` and `1 + 3 * 2^-120` rounds to 1 in `double`), which is not the sum
`1 + 2 * 2^-60 + 3 * 2^-120` of the terms `coeffs[j] * v^j`. -/
theorem polynomial_result_is_rounded :
    Double.representable (pow2 (-60)) ∧
    Double.lt (Double.finite (pow2 (-60))) (Double.finite (table0 0).max) = false ∧
    Double.lt (Double.finite (pow2 (-60))) (Double.finite (table0 1).max) = true ∧
    (table0 1).size ≠ 0 ∧
    MAX31855Class.polynomial (Double.finite (pow2 (-60))) 2 table0 = Double.finite 1 ∧
    MAX31855Class.polynomial (Double.finite (pow2 (-60))) 2 table0 ≠
      Double.finite (∑ j in Finset.range (table0 1).size,
        (table0 1).coeffs j * pow2 (-60) ^ j) := by
  decide!

/-- C13, amended: when `i` is the least index with `value < bound_i` and segment `i` has
coefficients, `polynomial(value, table)` is the power series of segment `i` in increasing
powers as the loop evaluates it in `double` arithmetic, every sum and product rounded; for a
number `v` it is the sum of `coeffs_i[j] * v^j` when the powers, products and partial sums are
`double` values, so that no operation rounds; the result is the same for every table that
agrees with this one up to index `i`, whatever follows. -/
theorem polynomial_first_segment (value : Double) (n : Nat) (table : Nat → coefftable)
    (i : Nat) (hi : i < n)
    (hlt : Double.lt value (Double.finite (table i).max) = true)
    (hfirst : ∀ k, k < i → Double.lt value (Double.finite (table k).max) = false)
    (hne : (table i).size ≠ 0) :
    MAX31855Class.polynomial value n table =
      (MAX31855Class.polynomialTerms value (table i).coeffs (table i).size).1 ∧
    (∀ v : ℚ, value = Double.finite v →
      (∀ j, j < (table i).size → Double.representable (v ^ j) ∧
        Double.representable (v ^ j * (table i).coeffs j) ∧
        Double.representable (∑ k in Finset.range (j + 1), (table i).coeffs k * v ^ k)) →
      MAX31855Class.polynomial value n table =
        Double.finite (∑ j in Finset.range (table i).size, (table i).coeffs j * v ^ j)) ∧
    ∀ (table2 : Nat → coefftable) (n2 : Nat), i < n2 → (∀ k, k ≤ i → table2 k = table k) →
      MAX31855Class.polynomial value n2 table2 = MAX31855Class.polynomial value n table := by
  have h1 := polynomial_at_first_match value n table i hi hlt hfirst
  rw [if_neg hne] at h1
  refine ⟨h1, ?_, ?_⟩
  · intro v hv hrep
    subst hv
    exact polynomial_exact_at_first_match v n table i hi hlt hfirst hne hrep
  · intro table2 n2 hi2 hag
    have h2 := polynomial_at_first_match value n2 table2 i hi2
      (by rw [hag i (Nat.le_refl i)]; exact hlt)
      (by intro k hk; rw [hag k (Nat.le_of_lt hk)]; exact hfirst k hk)
    rw [hag i (Nat.le_refl i), if_neg hne] at h2
    rw [h1, h2]

/-- Witness of the amended C13: on `table0` the value 2 skips the first segment and evaluates
`1 + 2 * 2 + 3 * 2^2`; every power, product and partial sum is a small integer. -/
theorem polynomial_first_segment_witness :
    MAX31855Class.polynomial (Double.finite 2) 2 table0 = Double.finite 17 := by
  have h := (polynomial_first_segment (Double.finite 2) 2 table0 1 (by decide) (by decide!)
    (by decide!) (by decide)).2.1 2 rfl (by decide!)
  rw [h]
  decide!

theorem readSensor_fields (rx : SpiFrame) (s : Machine) :
    (MAX31855Class.readSensor rx s).1.tc_fault_mask = s.tc_fault_mask ∧
    (MAX31855Class.readSensor rx s).1.tc_current_probe_type = s.tc_current_probe_type ∧
    (MAX31855Class.readSensor rx s).1.tc_cold_offset = s.tc_cold_offset ∧
    (MAX31855Class.readSensor rx s).1.tc_last_fault = s.tc_last_fault := by
  simp [MAX31855Class.readSensor, digitalWrite, delayMicroseconds, emit]

theorem mvtoTemp_nan (env : MAX31855Env) (s : Machine) :
    MAX31855Class.mvtoTemp env Double.nan s = Double.nan := by
  unfold MAX31855Class.mvtoTemp MAX31855Class.polynomial
  exact polynomialFrom_nan _ _ _

theorem readTCVoltage_faulted (env : MAX31855Env) (rx : SpiFrame) (s : Machine)
    (hm : s.tc_fault_mask < 256)
    (hf : (MAX31855Class.readSensor rx s).2 &&& s.tc_fault_mask ≠ 0) :
    MAX31855Class.readTCVoltage env rx s =
      ({ (MAX31855Class.readSensor rx s).1 with
          tc_last_fault := (MAX31855Class.readSensor rx s).2 &&& s.tc_fault_mask },
        Double.nan) := by
  have hlt : (MAX31855Class.readSensor rx s).2 &&& s.tc_fault_mask < 256 :=
    Nat.lt_of_le_of_lt Nat.and_le_right hm
  have hu : u8 ((MAX31855Class.readSensor rx s).2 &&& s.tc_fault_mask) =
      (MAX31855Class.readSensor rx s).2 &&& s.tc_fault_mask := Nat.mod_eq_of_lt hlt
  unfold MAX31855Class.readTCVoltage
  simp only [(readSensor_fields rx s).1, hu]
  rw [if_pos hf]

/-- C15: when the raw word `w` a reading observes has a bit in common with the fault mask `m`
(a byte), and the probe type is one of the three TC types, `readTCVoltage` and
`readTCTemperature` both return `NAN` and record `w & m` as the last fault.  (The probe type
only selects the table `mvtoTemp` scans; the scan of any table ends in `NAN` for a `NAN`
argument.) -/
theorem faulted_reading_returns_nan (env : MAX31855Env) (rx : SpiFrame) (s : Machine)
    (w m : Nat) (hw : (MAX31855Class.readSensor rx s).2 = w) (hmask : s.tc_fault_mask = m)
    (_ht : isTC s.tc_current_probe_type = true) (hm : m < 256) (hf : w &&& m ≠ 0) :
    (MAX31855Class.readTCVoltage env rx s).2 = Double.nan ∧
    (MAX31855Class.readTCTemperature env rx s).2 = Double.nan ∧
    (MAX31855Class.readTCVoltage env rx s).1.tc_last_fault = w &&& m ∧
    (MAX31855Class.readTCTemperature env rx s).1.tc_last_fault = w &&& m := by
  subst hw hmask
  have hv := readTCVoltage_faulted env rx s hm hf
  have ht2 : MAX31855Class.readTCTemperature env rx s =
      ((MAX31855Class.readTCVoltage env rx s).1,
        MAX31855Class.mvtoTemp env (MAX31855Class.readTCVoltage env rx s).2
          (MAX31855Class.readTCVoltage env rx s).1) := rfl
  refine ⟨?_, ?_, ?_, ?_⟩
  · rw [hv]
  · rw [ht2, hv]; exact mvtoTemp_nan _ _
  · rw [hv]
  · rw [ht2, hv]

/-- Witness of C15: a K-type reading of a word with the open-circuit bit, fault mask 7. -/
theorem faulted_reading_returns_nan_witness :
    (MAX31855Class.readTCTemperature env0 faultFrame
      { Machine.init d0 with tc_current_probe_type := PROBE_TC_K,
                             tc_fault_mask := 7 }).2 = Double.nan ∧
    (MAX31855Class.readTCTemperature env0 faultFrame
      { Machine.init d0 with tc_current_probe_type := PROBE_TC_K,
                             tc_fault_mask := 7 }).1.tc_last_fault = 1 := by
  have h := faulted_reading_returns_nan env0 faultFrame
    { Machine.init d0 with tc_current_probe_type := PROBE_TC_K, tc_fault_mask := 7 }
    0x01911901 7 (by decide) rfl (by decide) (by decide) (by decide)
  exact ⟨h.2.1, h.2.2.2⟩

/-- C16: `getTCLastFault` returns the recorded last-fault byte and clears it; a second call
right after the first returns 0; the state after the call differs from the state before only
in the last-fault byte, so the probe type, the cold-junction offset and the fault mask are
unchanged. -/
theorem getTCLastFault_returns_and_clears (s : Machine) :
    (MAX31855Class.getTCLastFault s).2 = s.tc_last_fault ∧
    (MAX31855Class.getTCLastFault (MAX31855Class.getTCLastFault s).1).2 = 0 ∧
    (MAX31855Class.getTCLastFault s).1 = { s with tc_last_fault := 0 } ∧
    (MAX31855Class.getTCLastFault s).1.tc_current_probe_type = s.tc_current_probe_type ∧
    (MAX31855Class.getTCLastFault s).1.tc_cold_offset = s.tc_cold_offset ∧
    (MAX31855Class.getTCLastFault s).1.tc_fault_mask = s.tc_fault_mask :=
  ⟨rfl, rfl, rfl, rfl, rfl, rfl⟩

/-! ### MAX31865 register accesses -/

theorem readByte_eq (addr : Nat) (s : Machine) :
    readByte addr s =
      ({ s with level := Function.update s.level Pin.rtd_cs HIGH,
                log := s.log ++ [Event.digitalWrite Pin.rtd_cs LOW,
                  Event.rtd_readByte (addr &&& 0x7F), Event.digitalWrite Pin.rtd_cs HIGH] },
        u8 (s.reg (addr &&& 0x7F))) := by
  unfold readByte
  dsimp only
  generalize addr &&& 0x7F = a
  simp [digitalWrite, emit]

theorem readWord_eq (addr : Nat) (s : Machine) :
    readWord addr s =
      ({ s with level := Function.update s.level Pin.rtd_cs HIGH,
                log := s.log ++ [Event.digitalWrite Pin.rtd_cs LOW,
                  Event.rtd_readWord (addr &&& 0x7F), Event.digitalWrite Pin.rtd_cs HIGH] },
        u16 (u8 (s.reg (addr &&& 0x7F)) <<< 8) ||| u8 (s.reg ((addr &&& 0x7F) + 1))) := by
  unfold readWord
  dsimp only
  generalize addr &&& 0x7F = a
  simp [digitalWrite, emit]

theorem writeByte_eq (addr data : Nat) (s : Machine) :
    writeByte addr data s =
      { s with level := Function.update s.level Pin.rtd_cs HIGH,
               reg := Function.update s.reg (u8 (addr ||| 0x80) &&& 0x7F) (u8 data),
               log := s.log ++ [Event.digitalWrite Pin.rtd_cs LOW,
                  Event.rtd_writeByte (u8 (addr ||| 0x80) &&& 0x7F) (u8 data),
                  Event.digitalWrite Pin.rtd_cs HIGH] } := by
  unfold writeByte
  dsimp only
  generalize u8 (addr ||| 0x80) &&& 0x7F = a
  generalize u8 data = d
  simp [digitalWrite, emit]

theorem testBit4_u8 (x : Nat) : (u8 x).testBit 4 = x.testBit 4 := by
  have h : (256 : Nat) = 2 ^ 8 := by norm_num
  unfold u8
  rw [h, Nat.testBit_mod_two_pow]
  simp

theorem fault_stat_rindex : MAX31865_FAULT_STAT_REG &&& 0x7F = 7 := by decide

theorem rtd_msb_rindex : MAX31865_RTD_MSB_REG &&& 0x7F = 1 := by decide

theorem l_lsb_index : u8 (MAX31865_L_FAULT_LSB_REG ||| 0x80) &&& 0x7F = 6 := by decide

theorem l_msb_index : u8 (MAX31865_L_FAULT_MSB_REG ||| 0x80) &&& 0x7F = 5 := by decide

theorem h_lsb_index : u8 (MAX31865_H_FAULT_LSB_REG ||| 0x80) &&& 0x7F = 4 := by decide

theorem h_msb_index : u8 (MAX31865_H_FAULT_MSB_REG ||| 0x80) &&& 0x7F = 3 := by decide

/-- C17: `readRTDFault(None)` leaves every register as it was; its only bus transaction is the
read of the fault-status register, whose byte it returns.  `readRTDFault(Auto)` reads the
config register, writes it once, waits 1 time-unit and then reads the fault-status register,
whose byte it returns; these are its only bus transactions and its only wait. -/
theorem readRTDFault_none_and_auto (s : Machine) :
    (readRTDFault max31865_fault_cycle_t.MAX31865_FAULT_NONE s).1.reg = s.reg ∧
    (emitted s (readRTDFault max31865_fault_cycle_t.MAX31865_FAULT_NONE s).1).filter isBusOrWait =
      [Event.rtd_readByte MAX31865_FAULT_STAT_REG] ∧
    (readRTDFault max31865_fault_cycle_t.MAX31865_FAULT_NONE s).2 =
      u8 (s.reg MAX31865_FAULT_STAT_REG) ∧
    (emitted s (readRTDFault max31865_fault_cycle_t.MAX31865_FAULT_AUTO s).1).filter isBusOrWait =
      [Event.rtd_readByte MAX31865_CONFIG_REG,
       Event.rtd_writeByte MAX31865_CONFIG_REG
         (u8 ((u8 (s.reg MAX31865_CONFIG_REG) &&& 0x11) ||| 0x84)),
       Event.delay 1,
       Event.rtd_readByte MAX31865_FAULT_STAT_REG] ∧
    (readRTDFault max31865_fault_cycle_t.MAX31865_FAULT_AUTO s).2 =
      u8 (s.reg MAX31865_FAULT_STAT_REG) := by
  have hnone : readRTDFault max31865_fault_cycle_t.MAX31865_FAULT_NONE s =
      readByte MAX31865_FAULT_STAT_REG s := by
    simp [readRTDFault]
  have hauto : readRTDFault max31865_fault_cycle_t.MAX31865_FAULT_AUTO s =
      readByte MAX31865_FAULT_STAT_REG (delay 1 (writeByte MAX31865_CONFIG_REG
        (((readByte MAX31865_CONFIG_REG s).2 &&& 0x11) ||| 0x84)
        (readByte MAX31865_CONFIG_REG s).1)) := by
    simp [readRTDFault]
  rw [hnone, hauto]
  simp only [readByte_eq, writeByte_eq, config_index, config_rindex, fault_stat_rindex, delay,
    emit]
  refine ⟨trivial, ?_, ?_, ?_, ?_⟩
  · simp [emitted, isBusOrWait, MAX31865_FAULT_STAT_REG]
  · rfl
  · simp [emitted, isBusOrWait, MAX31865_FAULT_STAT_REG, MAX31865_CONFIG_REG]
  · rfl

/-! ### The wire-count bit -/

theorem wireBit_write_config (data : Nat) (s : Machine) :
    wireBit (writeByte MAX31865_CONFIG_REG data s) = data.testBit 4 := by
  rw [writeByte_eq, config_index]
  simp [wireBit, MAX31865_CONFIG_REG, testBit4_u8]

theorem wireBit_read_config (s : Machine) :
    ((readByte MAX31865_CONFIG_REG s).2).testBit 4 = wireBit s := by
  rw [readByte_eq, config_rindex]
  simp [wireBit, MAX31865_CONFIG_REG, testBit4_u8]

theorem wireBit_readByte (addr : Nat) (s : Machine) :
    wireBit (readByte addr s).1 = wireBit s := by
  rw [readByte_eq]; rfl

theorem wireBit_readWord (addr : Nat) (s : Machine) :
    wireBit (readWord addr s).1 = wireBit s := by
  rw [readWord_eq]; rfl

theorem wireBit_delay (ms : Nat) (s : Machine) : wireBit (delay ms s) = wireBit s := rfl

/-- Reading the config register, changing bits other than bit 4 and writing it back keeps the
wire-count bit. -/
theorem wireBit_rmw (f : Nat → Nat) (hf : ∀ x, (f x).testBit 4 = x.testBit 4) (s : Machine) :
    wireBit (writeByte MAX31865_CONFIG_REG (f (readByte MAX31865_CONFIG_REG s).2)
      (readByte MAX31865_CONFIG_REG s).1) = wireBit s := by
  rw [wireBit_write_config, hf, wireBit_read_config]

theorem wireBit_rmw_or (m : Nat) (hm : m.testBit 4 = false) (s : Machine) :
    wireBit (writeByte MAX31865_CONFIG_REG ((readByte MAX31865_CONFIG_REG s).2 ||| m)
      (readByte MAX31865_CONFIG_REG s).1) = wireBit s :=
  wireBit_rmw (fun x => x ||| m) (by intro x; simp [hm]) s

theorem wireBit_rmw_and (m : Nat) (hm : m.testBit 4 = true) (s : Machine) :
    wireBit (writeByte MAX31865_CONFIG_REG ((readByte MAX31865_CONFIG_REG s).2 &&& m)
      (readByte MAX31865_CONFIG_REG s).1) = wireBit s :=
  wireBit_rmw (fun x => x &&& m) (by intro x; simp [hm]) s

theorem wireBit_setRTDBias (enabled : Bool) (s : Machine) :
    wireBit (setRTDBias enabled s) = wireBit s := by
  cases enabled
  · exact wireBit_rmw_and (not8 MAX31865_CONFIG_BIAS) (by decide) s
  · exact wireBit_rmw_or MAX31865_CONFIG_BIAS (by decide) s

theorem wireBit_setRTD50HzFilter (enabled : Bool) (s : Machine) :
    wireBit (setRTD50HzFilter enabled s) = wireBit s := by
  cases enabled
  · exact wireBit_rmw_and (not8 MAX31865_CONFIG_FILTER_50HZ) (by decide) s
  · exact wireBit_rmw_or MAX31865_CONFIG_FILTER_50HZ (by decide) s

theorem wireBit_clearRTDFault (s : Machine) : wireBit (clearRTDFault s) = wireBit s :=
  wireBit_rmw (fun x => (x &&& not8 0x2C) ||| MAX31865_CONFIG_FAULT_STAT)
    (by
      intro x
      have h1 : (not8 0x2C).testBit 4 = true := by decide
      have h2 : MAX31865_CONFIG_FAULT_STAT.testBit 4 = false := by decide
      simp [h1, h2]) s

theorem wireBit_setRTDAutoConvert (enabled : Bool) (s : Machine) :
    wireBit (setRTDAutoConvert enabled s) = wireBit s := by
  have h : wireBit (writeByte MAX31865_CONFIG_REG
      (if enabled = true then (readByte MAX31865_CONFIG_REG s).2 ||| MAX31865_CONFIG_CONV_MODE_AUTO
       else (readByte MAX31865_CONFIG_REG s).2 &&& not8 MAX31865_CONFIG_CONV_MODE_AUTO)
      (readByte MAX31865_CONFIG_REG s).1) = wireBit s := by
    cases enabled
    · exact wireBit_rmw_and (not8 MAX31865_CONFIG_CONV_MODE_AUTO) (by decide) s
    · exact wireBit_rmw_or MAX31865_CONFIG_CONV_MODE_AUTO (by decide) s
  unfold setRTDAutoConvert
  dsimp only
  generalize writeByte MAX31865_CONFIG_REG
      (if enabled = true then (readByte MAX31865_CONFIG_REG s).2 ||| MAX31865_CONFIG_CONV_MODE_AUTO
       else (readByte MAX31865_CONFIG_REG s).2 &&& not8 MAX31865_CONFIG_CONV_MODE_AUTO)
      (readByte MAX31865_CONFIG_REG s).1 = s2 at h ⊢
  rw [← h]
  split
  · split <;> rfl
  · rfl

theorem wireBit_write_other (addr data : Nat) (s : Machine)
    (h : u8 (addr ||| 0x80) &&& 0x7F ≠ 0) : wireBit (writeByte addr data s) = wireBit s := by
  rw [writeByte_eq]
  simp [wireBit, MAX31865_CONFIG_REG, Function.update_apply, Ne.symm h]

theorem wireBit_setRTDThresholds (lo hi : Nat) (s : Machine) :
    wireBit (setRTDThresholds lo hi s) = wireBit s := by
  unfold setRTDThresholds
  dsimp only
  rw [wireBit_write_other _ _ _ (by decide), wireBit_write_other _ _ _ (by decide),
    wireBit_write_other _ _ _ (by decide), wireBit_write_other _ _ _ (by decide)]

theorem wireBit_readRTDFault (faultCycle : max31865_fault_cycle_t) (s : Machine) :
    wireBit (readRTDFault faultCycle s).1 = wireBit s := by
  have hw : ∀ m : Nat, m.testBit 4 = false →
      wireBit (writeByte MAX31865_CONFIG_REG ((readByte MAX31865_CONFIG_REG s).2 &&& 0x11 ||| m)
        (readByte MAX31865_CONFIG_REG s).1) = wireBit s := by
    intro m hm
    exact wireBit_rmw (fun x => x &&& 0x11 ||| m)
      (by
        intro x
        have h1 : (0x11 : Nat).testBit 4 = true := by decide
        simp [h1, hm]) s
  cases faultCycle
  · simp only [readRTDFault, ne_eq, not_true_eq_false, if_false]
    exact wireBit_readByte _ _
  · simp only [readRTDFault, ne_eq, reduceCtorEq, not_false_eq_true, if_true]
    rw [wireBit_readByte, wireBit_delay]
    exact hw 0x84 (by decide)
  · simp only [readRTDFault, ne_eq, reduceCtorEq, not_false_eq_true, if_true]
    exact hw 0x88 (by decide)
  · simp only [readRTDFault, ne_eq, reduceCtorEq, not_false_eq_true, if_true]
    exact hw 0x8C (by decide)

/-- Setting the bias bit of the config register when the bias flag is clear. -/
theorem wireBit_bias_on (s : Machine) :
    wireBit (if (!s.rtd_bias_voltage_enabled) = true then
        writeByte MAX31865_CONFIG_REG ((readByte MAX31865_CONFIG_REG s).2 ||| MAX31865_CONFIG_BIAS)
          (readByte MAX31865_CONFIG_REG s).1
      else s) = wireBit s := by
  split
  · exact wireBit_rmw_or MAX31865_CONFIG_BIAS (by decide) s
  · rfl

theorem wireBit_readRTDAsync (now now2 v : Nat) (s : Machine) :
    wireBit (readRTDAsync now now2 v s).1 = wireBit s := by
  unfold readRTDAsync
  cases s.rtd_async_state
  · dsimp only
    exact (wireBit_bias_on (clearRTDFault s)).trans (wireBit_clearRTDFault s)
  · dsimp only
    split
    · exact wireBit_rmw_or MAX31865_CONFIG_CONV_MODE_ONE_SHOT (by decide) s
    · rfl
  · dsimp only
    by_cases hc : sub32 now s.rtd_async_timer ≥
        (if s.rtd_50hz_filter_enabled = true then 75 else 65)
    · rw [if_pos hc]
      exact wireBit_readWord MAX31865_RTD_MSB_REG s
    · rw [if_neg hc]

theorem configStep_refl (s : Machine) : ConfigStep s s := ⟨rfl, rfl, rfl⟩

theorem configStep_trans {s s2 s3 : Machine} (h1 : ConfigStep s s2) (h2 : ConfigStep s2 s3) :
    ConfigStep s s3 :=
  ⟨h2.1.trans h1.1, h2.2.1.trans h1.2.1, h2.2.2.trans h1.2.2⟩

theorem configStep_delay (ms : Nat) (s : Machine) : ConfigStep s (delay ms s) := ⟨rfl, rfl, rfl⟩

theorem configStep_rmw (f : Nat → Nat) (hf : ∀ x, (f x).testBit 4 = x.testBit 4) (s : Machine) :
    ConfigStep s (writeByte MAX31865_CONFIG_REG (f (readByte MAX31865_CONFIG_REG s).2)
      (readByte MAX31865_CONFIG_REG s).1) := by
  refine ⟨wireBit_rmw f hf s, ?_, ?_⟩
  · rw [writeByte_eq, config_index, readByte_eq]
    simp [Function.update_apply]
  · rw [writeByte_eq, config_index, readByte_eq]
    simp [Function.update_apply]

theorem configStep_rmw_or (m : Nat) (hm : m.testBit 4 = false) (s : Machine) :
    ConfigStep s (writeByte MAX31865_CONFIG_REG ((readByte MAX31865_CONFIG_REG s).2 ||| m)
      (readByte MAX31865_CONFIG_REG s).1) :=
  configStep_rmw (fun x => x ||| m) (by intro x; simp [hm]) s

theorem configStep_rmw_and (m : Nat) (hm : m.testBit 4 = true) (s : Machine) :
    ConfigStep s (writeByte MAX31865_CONFIG_REG ((readByte MAX31865_CONFIG_REG s).2 &&& m)
      (readByte MAX31865_CONFIG_REG s).1) :=
  configStep_rmw (fun x => x &&& m) (by intro x; simp [hm]) s

theorem configStep_clearRTDFault (s : Machine) : ConfigStep s (clearRTDFault s) :=
  configStep_rmw (fun x => (x &&& not8 0x2C) ||| MAX31865_CONFIG_FAULT_STAT)
    (by
      intro x
      have h1 : (not8 0x2C).testBit 4 = true := by decide
      have h2 : MAX31865_CONFIG_FAULT_STAT.testBit 4 = false := by decide
      simp [h1, h2]) s

theorem configStep_readWord (addr : Nat) (s : Machine) : ConfigStep s (readWord addr s).1 := by
  rw [readWord_eq]; exact ⟨rfl, rfl, rfl⟩

/-- The part of `readRTD` between `clearRTDFault` and the read of the data registers. -/
theorem configStep_readRTD_convert (s : Machine) :
    ConfigStep s
      (if (!s.rtd_continuous_mode_enabled) = true then
        if (writeByte MAX31865_CONFIG_REG
            ((readByte MAX31865_CONFIG_REG
              (if (!s.rtd_bias_voltage_enabled) = true then
                delay 10 (writeByte MAX31865_CONFIG_REG
                  ((readByte MAX31865_CONFIG_REG s).2 ||| MAX31865_CONFIG_BIAS)
                  (readByte MAX31865_CONFIG_REG s).1)
              else s)).2 ||| MAX31865_CONFIG_CONV_MODE_ONE_SHOT)
            (readByte MAX31865_CONFIG_REG
              (if (!s.rtd_bias_voltage_enabled) = true then
                delay 10 (writeByte MAX31865_CONFIG_REG
                  ((readByte MAX31865_CONFIG_REG s).2 ||| MAX31865_CONFIG_BIAS)
                  (readByte MAX31865_CONFIG_REG s).1)
              else s)).1).rtd_50hz_filter_enabled = true then
          delay 75 (writeByte MAX31865_CONFIG_REG
            ((readByte MAX31865_CONFIG_REG
              (if (!s.rtd_bias_voltage_enabled) = true then
                delay 10 (writeByte MAX31865_CONFIG_REG
                  ((readByte MAX31865_CONFIG_REG s).2 ||| MAX31865_CONFIG_BIAS)
                  (readByte MAX31865_CONFIG_REG s).1)
              else s)).2 ||| MAX31865_CONFIG_CONV_MODE_ONE_SHOT)
            (readByte MAX31865_CONFIG_REG
              (if (!s.rtd_bias_voltage_enabled) = true then
                delay 10 (writeByte MAX31865_CONFIG_REG
                  ((readByte MAX31865_CONFIG_REG s).2 ||| MAX31865_CONFIG_BIAS)
                  (readByte MAX31865_CONFIG_REG s).1)
              else s)).1)
        else
          delay 65 (writeByte MAX31865_CONFIG_REG
            ((readByte MAX31865_CONFIG_REG
              (if (!s.rtd_bias_voltage_enabled) = true then
                delay 10 (writeByte MAX31865_CONFIG_REG
                  ((readByte MAX31865_CONFIG_REG s).2 ||| MAX31865_CONFIG_BIAS)
                  (readByte MAX31865_CONFIG_REG s).1)
              else s)).2 ||| MAX31865_CONFIG_CONV_MODE_ONE_SHOT)
            (readByte MAX31865_CONFIG_REG
              (if (!s.rtd_bias_voltage_enabled) = true then
                delay 10 (writeByte MAX31865_CONFIG_REG
                  ((readByte MAX31865_CONFIG_REG s).2 ||| MAX31865_CONFIG_BIAS)
                  (readByte MAX31865_CONFIG_REG s).1)
              else s)).1)
      else s) := by
  have hb : ConfigStep s (if (!s.rtd_bias_voltage_enabled) = true then
      delay 10 (writeByte MAX31865_CONFIG_REG
        ((readByte MAX31865_CONFIG_REG s).2 ||| MAX31865_CONFIG_BIAS)
        (readByte MAX31865_CONFIG_REG s).1)
      else s) := by
    by_cases hc : (!s.rtd_bias_voltage_enabled) = true
    · rw [if_pos hc]
      exact configStep_trans (configStep_rmw_or MAX31865_CONFIG_BIAS (by decide) s)
        (configStep_delay 10 _)
    · rw [if_neg hc]; exact configStep_refl s
  generalize (if (!s.rtd_bias_voltage_enabled) = true then
      delay 10 (writeByte MAX31865_CONFIG_REG
        ((readByte MAX31865_CONFIG_REG s).2 ||| MAX31865_CONFIG_BIAS)
        (readByte MAX31865_CONFIG_REG s).1)
      else s) = s1 at hb ⊢
  have hs := configStep_rmw_or MAX31865_CONFIG_CONV_MODE_ONE_SHOT (by decide) s1
  generalize writeByte MAX31865_CONFIG_REG
      ((readByte MAX31865_CONFIG_REG s1).2 ||| MAX31865_CONFIG_CONV_MODE_ONE_SHOT)
      (readByte MAX31865_CONFIG_REG s1).1 = s2 at hs ⊢
  by_cases hc : (!s.rtd_continuous_mode_enabled) = true
  · rw [if_pos hc]
    by_cases hf : s2.rtd_50hz_filter_enabled = true
    · rw [if_pos hf]
      exact configStep_trans (configStep_trans hb hs) (configStep_delay 75 s2)
    · rw [if_neg hf]
      exact configStep_trans (configStep_trans hb hs) (configStep_delay 65 s2)
  · rw [if_neg hc]; exact configStep_refl s

theorem readRTD_decompose (s : Machine) :
    ∃ pre : Machine, ConfigStep s pre ∧
      (readRTD s).2 = (readWord MAX31865_RTD_MSB_REG pre).2 >>> 1 ∧
      ConfigStep pre (readRTD s).1 := by
  have h0 := configStep_clearRTDFault s
  have h1 := configStep_readRTD_convert (clearRTDFault s)
  unfold readRTD
  dsimp only
  generalize clearRTDFault s = s0 at h0 h1 ⊢
  refine ⟨_, configStep_trans h0 h1, rfl, ?_⟩
  generalize (if (!s0.rtd_continuous_mode_enabled) = true then _ else s0) = pre
  have hw := configStep_readWord MAX31865_RTD_MSB_REG pre
  generalize (readWord MAX31865_RTD_MSB_REG pre).1 = s3 at hw ⊢
  by_cases hc : (!s3.rtd_bias_voltage_enabled) = true
  · rw [if_pos hc]
    exact configStep_trans hw (configStep_rmw_and (not8 MAX31865_CONFIG_BIAS) (by decide) s3)
  · rw [if_neg hc]; exact hw

theorem wireBit_readRTD (s : Machine) : wireBit (readRTD s).1 = wireBit s := by
  obtain ⟨pre, h1, -, h3⟩ := readRTD_decompose s
  exact h3.1.trans h1.1

theorem wireBit_rtdStep (s : Machine) (op : RtdOp) : wireBit (rtdStep s op) = wireBit s := by
  cases op with
  | setRTDAutoConvert enabled => exact wireBit_setRTDAutoConvert enabled s
  | setRTD50HzFilter enabled => exact wireBit_setRTD50HzFilter enabled s
  | setRTDBias enabled => exact wireBit_setRTDBias enabled s
  | clearRTDFault => exact wireBit_clearRTDFault s
  | readRTDFault faultCycle => exact wireBit_readRTDFault faultCycle s
  | readRTD => exact wireBit_readRTD s
  | readRTDAsync now now2 v => exact wireBit_readRTDAsync now now2 v s
  | setRTDThresholds lo hi => exact wireBit_setRTDThresholds lo hi s

theorem wireBit_rtdRun (ops : List RtdOp) : ∀ s : Machine, wireBit (rtdRun s ops) = wireBit s := by
  induction ops with
  | nil => intro s; rfl
  | cons op ops ih =>
    intro s
    show wireBit (rtdRun (rtdStep s op) ops) = wireBit s
    rw [ih, wireBit_rtdStep]

theorem wireBit_setRTDType (p : temperature_probe_t) (s : Machine) :
    wireBit (setRTDType p s) = decide (p = PROBE_RTD_PT100_3W) := by
  rw [setRTDType_eq]
  have h1 : MAX31865_CONFIG_3WIRE.testBit 4 = true := by decide
  have h2 : (not8 MAX31865_CONFIG_3WIRE).testBit 4 = false := by decide
  by_cases hp : p = PROBE_RTD_PT100_3W
  · simp [wireBit, MAX31865_CONFIG_REG, wireConfig, hp, testBit4_u8, h1]
  · simp [wireBit, MAX31865_CONFIG_REG, wireConfig, hp, testBit4_u8, h2]

/-- C18: with the config register holding the last byte written to it, after `setRTDType(p)`
and any further sequence of `setRTDAutoConvert`, `setRTD50HzFilter`, `setRTDBias`,
`clearRTDFault`, `readRTDFault` (any cycle), `readRTD`, `readRTDAsync` and `setRTDThresholds`
calls, the wire-count bit `0x10` of the config register is set exactly when `p` is the 3-wire
probe type. -/
theorem wire_bit_mirrors_setRTDType (p : temperature_probe_t) (s : Machine)
    (ops : List RtdOp) :
    ((rtdRun (setRTDType p s) ops).reg MAX31865_CONFIG_REG &&& MAX31865_CONFIG_3WIRE ≠ 0 ↔
      p = PROBE_RTD_PT100_3W) ∧
    (wireBit (rtdRun (setRTDType p s) ops) = true ↔ p = PROBE_RTD_PT100_3W) := by
  have h : wireBit (rtdRun (setRTDType p s) ops) = decide (p = PROBE_RTD_PT100_3W) := by
    rw [wireBit_rtdRun, wireBit_setRTDType]
  have hmask : MAX31865_CONFIG_3WIRE = 2 ^ 4 := by decide
  constructor
  · rw [hmask, and_two_pow_ne_zero_iff]
    unfold wireBit at h
    rw [h]; simp
  · rw [h]; simp

theorem readRTDAsync_cases (now now2 v : Nat) (s : Machine) :
    ((readRTDAsync now now2 v s).2.1 = true ↔
      s.rtd_async_state = CONVERTING ∧
      sub32 now s.rtd_async_timer ≥ (if s.rtd_50hz_filter_enabled = true then 75 else 65)) ∧
    ((readRTDAsync now now2 v s).2.1 = true →
      (readRTDAsync now now2 v s).2.2 = (readWord MAX31865_RTD_MSB_REG s).2 >>> 1 ∧
      (readRTDAsync now now2 v s).1.rtd_async_state = IDLE) ∧
    ((readRTDAsync now now2 v s).2.1 = false → (readRTDAsync now now2 v s).2.2 = v) ∧
    (s.rtd_async_state = IDLE → (readRTDAsync now now2 v s).1.rtd_async_state = SETTLING) ∧
    (s.rtd_async_state = SETTLING →
      (readRTDAsync now now2 v s).1.rtd_async_state =
        if sub32 now s.rtd_async_timer ≥ 10 then CONVERTING else SETTLING) := by
  unfold readRTDAsync
  cases hst : s.rtd_async_state
  · simp
  · dsimp only
    by_cases hc : sub32 now s.rtd_async_timer ≥ 10
    · simp [hc]
    · simp [hc, hst]
  · dsimp only
    by_cases hc : sub32 now s.rtd_async_timer ≥
        (if s.rtd_50hz_filter_enabled = true then 75 else 65)
    · rw [if_pos hc]
      simp [hc]
    · rw [if_neg hc]
      simp [hc]

/-- C19: `readRTDAsync` reports a value exactly when it is called in state `CONVERTING` with
at least 65 time-units (75 with the 50 Hz filter flag) elapsed since the stored timestamp; the
output is then the raw register word shifted right by one bit and the next state is `IDLE`.
Otherwise it reports false and leaves the output variable as it was.  From `IDLE` the next
state is `SETTLING`; from `SETTLING` the next state is `CONVERTING` when at least 10
time-units have elapsed and `SETTLING` otherwise. -/
theorem readRTDAsync_spec (now now2 v : Nat) (s : Machine) :
    ((readRTDAsync now now2 v s).2.1 = true ↔
      s.rtd_async_state = CONVERTING ∧
      sub32 now s.rtd_async_timer ≥ (if s.rtd_50hz_filter_enabled = true then 75 else 65)) ∧
    ((readRTDAsync now now2 v s).2.1 = true →
      (readRTDAsync now now2 v s).2.2 = (readWord MAX31865_RTD_MSB_REG s).2 >>> 1 ∧
      (readRTDAsync now now2 v s).1.rtd_async_state = IDLE) ∧
    ((readRTDAsync now now2 v s).2.1 = false → (readRTDAsync now now2 v s).2.2 = v) ∧
    (s.rtd_async_state = IDLE → (readRTDAsync now now2 v s).1.rtd_async_state = SETTLING) ∧
    (s.rtd_async_state = SETTLING →
      (readRTDAsync now now2 v s).1.rtd_async_state =
        if sub32 now s.rtd_async_timer ≥ 10 then CONVERTING else SETTLING) :=
  readRTDAsync_cases now now2 v s

theorem readWord_data (s : Machine) (w : Nat) (hw : w < 65536)
    (h1 : s.reg 1 = w / 256) (h2 : s.reg 2 = w % 256) :
    (readWord MAX31865_RTD_MSB_REG s).2 = w := by
  rw [readWord_eq, rtd_msb_rindex]
  simp only [h1, h2, u8, u16]
  have ha : w / 256 % 256 = w / 256 := Nat.mod_eq_of_lt (by omega)
  have hb : w % 256 % 256 = w % 256 := Nat.mod_eq_of_lt (Nat.mod_lt _ (by norm_num))
  rw [ha, hb, Nat.shiftLeft_eq]
  have hc : w / 256 * 2 ^ 8 % 65536 = 2 ^ 8 * (w / 256) := by omega
  rw [hc, ← Nat.mul_add_lt_is_or (by omega) (w / 256)]
  omega

/-- C20: when the RTD data registers hold the 16-bit word `w` (most significant byte in
register 1, least significant byte in register 2), `readRTD` returns `floor(w / 2)`, which is
at most 32767; a value delivered by `readRTDAsync` is `floor(w / 2)` as well. -/
theorem readRTD_discards_fault_bit (s : Machine) (w : Nat) (hw : w < 65536)
    (h1 : s.reg 1 = w / 256) (h2 : s.reg 2 = w % 256) :
    (readRTD s).2 = w / 2 ∧ (readRTD s).2 ≤ 32767 ∧
    (∀ now now2 v : Nat, (readRTDAsync now now2 v s).2.1 = true →
      (readRTDAsync now now2 v s).2.2 = w / 2 ∧ (readRTDAsync now now2 v s).2.2 ≤ 32767) := by
  have hr : (readRTD s).2 = w / 2 := by
    obtain ⟨pre, hp, hv, -⟩ := readRTD_decompose s
    rw [hv, readWord_data pre w hw (hp.2.1.trans h1) (hp.2.2.trans h2), Nat.shiftRight_eq_div_pow]
  refine ⟨hr, by rw [hr]; omega, ?_⟩
  intro now now2 v hv
  have h := ((readRTDAsync_cases now now2 v s).2.1 hv).1
  rw [h, readWord_data s w hw h1 h2, Nat.shiftRight_eq_div_pow]
  constructor
  · norm_num
  · norm_num; omega

/-- Witness of C20: the data registers of the initial state are set to the word `0x8003`;
`readRTD` returns `0x4001`. -/
theorem readRTD_discards_fault_bit_witness :
    (readRTD { Machine.init d0 with reg := fun a => if a = 1 then 0x80 else if a = 2 then 0x03
      else 0 }).2 = 0x4001 := by
  have h := (readRTD_discards_fault_bit
    { Machine.init d0 with reg := fun a => if a = 1 then 0x80 else if a = 2 then 0x03 else 0 }
    0x8003 (by norm_num) (by decide) (by decide)).1
  rw [h]

/-! ### Thresholds -/

theorem l_msb_rindex : MAX31865_L_FAULT_MSB_REG &&& 0x7F = 5 := by decide

theorem h_msb_rindex : MAX31865_H_FAULT_MSB_REG &&& 0x7F = 3 := by decide

theorem setRTDThresholds_reg (lo hi : Nat) (s : Machine) :
    (setRTDThresholds lo hi s).reg 5 = u8 (lo >>> 8) ∧
    (setRTDThresholds lo hi s).reg 6 = u8 (lo &&& 0xFF) ∧
    (setRTDThresholds lo hi s).reg 3 = u8 (hi >>> 8) ∧
    (setRTDThresholds lo hi s).reg 4 = u8 (hi &&& 0xFF) := by
  unfold setRTDThresholds
  simp only [writeByte_eq, l_lsb_index, l_msb_index, h_lsb_index, h_msb_index]
  simp [Function.update_apply]

theorem word_of_bytes (x : Nat) (hx : x < 65536) :
    u16 (u8 (u8 (x >>> 8)) <<< 8) ||| u8 (u8 (x &&& 0xFF)) = x := by
  have hm : (0xFF : Nat) = 2 ^ 8 - 1 := by norm_num
  rw [hm, Nat.and_pow_two_sub_one_eq_mod, Nat.shiftRight_eq_div_pow, Nat.shiftLeft_eq]
  simp only [u8, u16]
  have ha : x / 2 ^ 8 % 256 % 256 = x / 256 := by omega
  have hb : x % 2 ^ 8 % 256 % 256 = x % 256 := by omega
  rw [ha, hb]
  have hc : x / 256 * 2 ^ 8 % 65536 = 2 ^ 8 * (x / 256) := by omega
  rw [hc, ← Nat.mul_add_lt_is_or (by omega) (x / 256)]
  omega

/-- C21: with the chip a register file in which a word read at address `a` is
`reg[a] * 256 + reg[a + 1]`, for all 16-bit `lo` and `hi`, after `setRTDThresholds(lo, hi)`
the call `getRTDLowerThreshold()` returns `lo` and `getRTDUpperThreshold()` returns `hi`,
also when the second getter is called after the first. -/
theorem thresholds_roundtrip (lo hi : Nat) (s : Machine) (hlo : lo < 65536) (hhi : hi < 65536) :
    (getRTDLowerThreshold (setRTDThresholds lo hi s)).2 = lo ∧
    (getRTDUpperThreshold (setRTDThresholds lo hi s)).2 = hi ∧
    (getRTDUpperThreshold (getRTDLowerThreshold (setRTDThresholds lo hi s)).1).2 = hi ∧
    (∀ (a : Nat) (x : Machine), (readWord a x).2 < 65536 →
      (readWord a x).2 = u8 (x.reg (a &&& 0x7F)) * 256 + u8 (x.reg ((a &&& 0x7F) + 1))) := by
  obtain ⟨r5, r6, r3, r4⟩ := setRTDThresholds_reg lo hi s
  refine ⟨?_, ?_, ?_, ?_⟩
  · unfold getRTDLowerThreshold
    rw [readWord_eq, l_msb_rindex]
    simp only [r5, r6]
    exact word_of_bytes lo hlo
  · unfold getRTDUpperThreshold
    rw [readWord_eq, h_msb_rindex]
    simp only [r3, r4]
    exact word_of_bytes hi hhi
  · unfold getRTDUpperThreshold getRTDLowerThreshold
    rw [readWord_eq, h_msb_rindex, readWord_eq]
    simp only [r3, r4]
    exact word_of_bytes hi hhi
  · intro a x _
    rw [readWord_eq]
    simp only [u8, u16, Nat.shiftLeft_eq]
    have h1 : x.reg (a &&& 127) % 256 * 2 ^ 8 % 65536 = 2 ^ 8 * (x.reg (a &&& 127) % 256) := by
      omega
    rw [h1, ← Nat.mul_add_lt_is_or (by omega) (x.reg (a &&& 127) % 256)]
    omega

/-- Witness of C21 on the initial state. -/
theorem thresholds_roundtrip_witness :
    (getRTDLowerThreshold (setRTDThresholds 0x1234 0xABCD (Machine.init d0))).2 = 0x1234 ∧
    (getRTDUpperThreshold (setRTDThresholds 0x1234 0xABCD (Machine.init d0))).2 = 0xABCD := by
  have h := thresholds_roundtrip 0x1234 0xABCD (Machine.init d0) (by norm_num) (by norm_num)
  exact ⟨h.1, h.2.1⟩

/-! ### Callendar-Van Dusen conversion in exact real arithmetic -/

theorem quadraticRoot_zero_neg : quadraticRoot Real.sqrt (0 : ℝ) 100 < 0 := by
  unfold quadraticRoot
  simp only [mul_zero, add_zero]
  have hA : (0 : ℝ) ≤ RTD_A ℝ := by norm_num [RTD_A]
  have hlt : RTD_A ℝ < Real.sqrt (Z2 ℝ) := by
    rw [Real.lt_sqrt hA]
    norm_num [Z2, RTD_A, RTD_B]
  have hnum : 0 < Real.sqrt (Z2 ℝ) + Z1 ℝ := by
    unfold Z1; linarith
  have hden : Z4 ℝ < 0 := by norm_num [Z4, RTD_B]
  exact div_neg_of_pos_of_neg hnum hden

/-- C22: in exact real arithmetic `calculateRTDResistance(0, ref)` is 0 for every reference
resistance; for the raw value 0 and nominal resistance 100 the root of the quadratic is
negative, so `calculateRTDTemperature` takes the polynomial branch and returns the constant
term `-242.02`. -/
theorem calculateRTDTemperature_raw_zero (ref : ℝ) :
    calculateRTDResistance 0 ref = 0 ∧
    quadraticRoot Real.sqrt (calculateRTDResistance 0 ref) 100 < 0 ∧
    calculateRTDTemperature_raw Real.sqrt 0 100 ref = -242.02 := by
  have hR : calculateRTDResistance 0 ref = 0 := by simp [calculateRTDResistance]
  refine ⟨hR, ?_, ?_⟩
  · rw [hR]; exact quadraticRoot_zero_neg
  · unfold calculateRTDTemperature_raw calculateRTDTemperature
    rw [hR]
    simp only [ge_iff_le, not_le.mpr quadraticRoot_zero_neg, if_false]
    norm_num

/-- C23: in exact real arithmetic the raw value 8192 with reference resistance 400 gives the
resistance 100; at nominal resistance 100 the root of the quadratic is 0, which is not
negative, so `calculateRTDTemperature(8192, 100, 400)` returns 0 through the quadratic
branch. -/
theorem calculateRTDTemperature_raw_nominal :
    calculateRTDResistance 8192 (400 : ℝ) = 100 ∧
    quadraticRoot Real.sqrt (calculateRTDResistance 8192 (400 : ℝ)) 100 = 0 ∧
    calculateRTDTemperature_raw Real.sqrt 8192 100 (400 : ℝ) =
      quadraticRoot Real.sqrt (calculateRTDResistance 8192 (400 : ℝ)) 100 ∧
    calculateRTDTemperature_raw Real.sqrt 8192 100 (400 : ℝ) = 0 := by
  have hR : calculateRTDResistance 8192 (400 : ℝ) = 100 := by
    norm_num [calculateRTDResistance]
  have hroot : quadraticRoot Real.sqrt (100 : ℝ) 100 = 0 := by
    unfold quadraticRoot
    have hA : (0 : ℝ) ≤ RTD_A ℝ := by norm_num [RTD_A]
    have harg : Z2 ℝ + 4 * RTD_B ℝ / 100 * 100 = RTD_A ℝ * RTD_A ℝ := by
      unfold Z2; ring
    simp only [harg, Real.sqrt_mul_self hA]
    unfold Z1
    simp
  have hT : calculateRTDTemperature_raw Real.sqrt 8192 100 (400 : ℝ) =
      quadraticRoot Real.sqrt (calculateRTDResistance 8192 (400 : ℝ)) 100 := by
    unfold calculateRTDTemperature_raw calculateRTDTemperature
    rw [hR]
    simp only [ge_iff_le, hroot, le_refl, if_true]
  refine ⟨hR, by rw [hR]; exact hroot, hT, ?_⟩
  rw [hT, hR]; exact hroot

/-- C24: for a 32-bit timestamp `t0` and a true elapsed time `d < 2^32`, with the clock reading
`(t0 + d) mod 2^32`, the elapsed value the two state machines compute is `d`, also when the
clock has wrapped.  So `readRTDAsync` leaves `SETTLING` exactly when `10 ≤ d` and delivers a
value from `CONVERTING` exactly when `65 ≤ d` (`75 ≤ d` with the 50 Hz filter flag), and
`selectChannelAsync` reports `SELECTED` from `SWITCHING` exactly when the settle delay is at
most `d`. -/
theorem elapsed_time_wraparound (t0 d : Nat) (ht0 : t0 < 4294967296) (hd : d < 4294967296) :
    sub32 (u32 (t0 + d)) t0 = d ∧
    (∀ (now2 v : Nat) (s : Machine), s.rtd_async_state = SETTLING → s.rtd_async_timer = t0 →
      ((readRTDAsync (u32 (t0 + d)) now2 v s).1.rtd_async_state = CONVERTING ↔ 10 ≤ d)) ∧
    (∀ (now2 v : Nat) (s : Machine), s.rtd_async_state = CONVERTING → s.rtd_async_timer = t0 →
      ((readRTDAsync (u32 (t0 + d)) now2 v s).2.1 = true ↔
        (if s.rtd_50hz_filter_enabled = true then 75 else 65) ≤ d)) ∧
    (∀ (board : Option PortentaBoardInfo) (c : Nat) (t : temperature_probe_t) (s : Machine),
      c ≤ 2 → s.current_channel = (channelReverse board c : Int) →
      s.async_state = SWITCHING → s.async_timer = t0 →
      ((selectChannelAsync board (u32 (t0 + d)) c t s).2 = true ↔ s.switch_delay ≤ d)) := by
  have hel : sub32 (u32 (t0 + d)) t0 = d := by
    unfold sub32 u32
    omega
  refine ⟨hel, ?_, ?_, ?_⟩
  · intro now2 v s hst htm
    have h := (readRTDAsync_cases (u32 (t0 + d)) now2 v s).2.2.2.2 hst
    rw [h, htm, hel]
    by_cases h10 : 10 ≤ d
    · simp [h10]
    · simp [h10]
  · intro now2 v s hst htm
    have h := (readRTDAsync_cases (u32 (t0 + d)) now2 v s).1
    rw [h, htm, hel]
    simp [hst]
  · intro board c t s hc hcur hst htm
    have h := (selectChannelAsync_same board (u32 (t0 + d)) c t s hc hcur).2.2.2.2.2.1
    rw [h, htm, hel]
    simp [hst]

/-- Witness of C24: the clock wraps between the timestamp `2^32 - 5` and the reading 5, taken
10 time-units later. -/
theorem elapsed_time_wraparound_witness :
    u32 (4294967291 + 10) = 5 ∧ sub32 (u32 (4294967291 + 10)) 4294967291 = 10 :=
  ⟨by decide, (elapsed_time_wraparound 4294967291 10 (by norm_num) (by norm_num)).1⟩

/-- C25 (code defect): from a state with continuous mode off, bias off and the machine in
`IDLE`, one complete asynchronous cycle delivers the same value as `readRTD`, but it leaves
the config register at `0xA2`, with the bias bit `0x80` set, whereas `readRTD` leaves it at
`0x22`, with the bias bit cleared again. -/
theorem readRTDAsync_leaves_bias_on :
    rtdState0.rtd_continuous_mode_enabled = false ∧
    rtdState0.rtd_bias_voltage_enabled = false ∧
    rtdState0.rtd_async_state = IDLE ∧
    (asyncCycle 1000 65 0 rtdState0).2.1 = true ∧
    (asyncCycle 1000 65 0 rtdState0).1.rtd_async_state = IDLE ∧
    (asyncCycle 1000 65 0 rtdState0).2.2 = (readRTD rtdState0).2 ∧
    (asyncCycle 1000 65 0 rtdState0).1.reg MAX31865_CONFIG_REG = 0xA2 ∧
    (readRTD rtdState0).1.reg MAX31865_CONFIG_REG = 0x22 := by
  decide

/-- C26, counterexample: with probe type K and fault mask 7, a reading of a word with the
open-circuit bit records the fault 1; after one further reading of a word without fault bits,
`getTCLastFault` returns 0. -/
theorem last_fault_not_latched :
    (MAX31855Class.readTCVoltage env0 faultFrame tcState0).1.tc_last_fault = 1 ∧
    (MAX31855Class.getTCLastFault
      (tcReadings env0 (MAX31855Class.readTCVoltage env0 faultFrame tcState0).1
        [(TcReading.voltage, frame0)])).2 = 0 := by
  decide

theorem readTCVoltage_state (env : MAX31855Env) (rx : SpiFrame) (s : Machine) :
    (MAX31855Class.readTCVoltage env rx s).1 =
      { (MAX31855Class.readSensor rx s).1 with
          tc_last_fault := u8 ((MAX31855Class.readSensor rx s).2 &&& s.tc_fault_mask) } := by
  unfold MAX31855Class.readTCVoltage
  simp only [(readSensor_fields rx s).1]
  split <;> rfl

theorem readSensor_word (rx : SpiFrame) (s s2 : Machine) :
    (MAX31855Class.readSensor rx s).2 = (MAX31855Class.readSensor rx s2).2 := rfl

theorem tcRead_fields (env : MAX31855Env) (s : Machine) (r : TcReading × SpiFrame) :
    (tcRead env s r).tc_last_fault =
      u8 ((MAX31855Class.readSensor r.2 s).2 &&& s.tc_fault_mask) ∧
    (tcRead env s r).tc_fault_mask = s.tc_fault_mask := by
  have hv := readTCVoltage_state env r.2 s
  have hm := (readSensor_fields r.2 s).1
  obtain ⟨k, rx⟩ := r
  cases k
  · simp only [tcRead]
    rw [hv]
    exact ⟨rfl, hm⟩
  · simp only [tcRead, MAX31855Class.readTCTemperature]
    rw [hv]
    exact ⟨rfl, hm⟩

theorem tcReadings_mask (env : MAX31855Env) (rs : List (TcReading × SpiFrame)) :
    ∀ s : Machine, (tcReadings env s rs).tc_fault_mask = s.tc_fault_mask := by
  induction rs with
  | nil => intro s; rfl
  | cons r rs ih =>
    intro s
    show (tcReadings env (tcRead env s r) rs).tc_fault_mask = s.tc_fault_mask
    rw [ih, (tcRead_fields env s r).2]

/-- C26, amended: the last fault is the masked fault bits of the most recent reading.  After
any sequence of `readTCVoltage`/`readTCTemperature` readings with no `getTCLastFault` in
between, the next `getTCLastFault` returns `w & m` (as a byte) for the raw word `w` of the last
reading and the fault mask `m`, whatever the earlier readings recorded. -/
theorem last_fault_is_of_last_reading (env : MAX31855Env) (s : Machine)
    (rs : List (TcReading × SpiFrame)) (k : TcReading) (rx : SpiFrame) :
    (MAX31855Class.getTCLastFault (tcReadings env s (rs ++ [(k, rx)]))).2 =
      u8 ((MAX31855Class.readSensor rx s).2 &&& s.tc_fault_mask) := by
  have hrun : tcReadings env s (rs ++ [(k, rx)]) = tcRead env (tcReadings env s rs) (k, rx) := by
    simp [tcReadings, List.foldl_append]
  show (tcReadings env s (rs ++ [(k, rx)])).tc_last_fault = _
  rw [hrun, (tcRead_fields env _ (k, rx)).1, tcReadings_mask]
  rfl

theorem switchProbe_tc_type (ch : Nat) (t : temperature_probe_t) (s : Machine) :
    (switchProbe ch t s).tc_current_probe_type =
      if isTC t = true ∧ (s.current_channel ≠ (ch : Int) ∨ s.current_probe_type ch ≠ t) then t
      else s.tc_current_probe_type := by
  by_cases hm : s.current_channel ≠ (ch : Int) ∨ s.current_probe_type ch ≠ t
  · cases t
    · simp [switchProbe_nc, isTC]
    all_goals first
      | simp [switchProbe_tc_miss _ _ _ (by rfl) hm, isTC, hm]
      | simp [switchProbe_rtd_miss _ _ _ (by rfl) hm, isTC]
  · cases t
    · simp [switchProbe_nc, isTC]
    all_goals first
      | simp [switchProbe_tc_hit _ _ _ (by rfl) hm, isTC, hm]
      | simp [switchProbe_rtd_hit _ _ _ (by rfl) hm, isTC]

theorem selectChannel_tc_type (board : Option PortentaBoardInfo) (c : Nat)
    (t : temperature_probe_t) (s : Machine) (hc : c ≤ 2) :
    (selectChannel board c t s).tc_current_probe_type =
      (switchProbe (channelReverse board c) t s).tc_current_probe_type := by
  have hch := channelReverse_le board c hc
  obtain ⟨hcur, -⟩ := switchProbe_frame (channelReverse board c) t s
  by_cases h : s.current_channel ≠ (channelReverse board c : Int)
  · have hp : (switchProbe (channelReverse board c) t s).current_channel
        ≠ (channelReverse board c : Int) := by rw [hcur]; exact h
    simp only [selectChannel, hc, if_true, switchChannel_changed _ _ hch hp]
    cases t <;> simp [setupSwitchDelay, delay, emit]
  · have hp : (switchProbe (channelReverse board c) t s).current_channel
        = (channelReverse board c : Int) := by rw [hcur]; exact not_not.mp h
    simp only [selectChannel, hc, if_true, switchChannel_same _ _ hp, Bool.false_eq_true,
      if_false]

theorem selectChannelAsync_tc_type (board : Option PortentaBoardInfo) (now c : Nat)
    (t : temperature_probe_t) (s : Machine) (hc : c ≤ 2) :
    (selectChannelAsync board now c t s).1.tc_current_probe_type =
      (switchProbe (channelReverse board c) t s).tc_current_probe_type := by
  have hch := channelReverse_le board c hc
  obtain ⟨hcur, -⟩ := switchProbe_frame (channelReverse board c) t s
  by_cases h : s.current_channel ≠ (channelReverse board c : Int)
  · have hp : (switchProbe (channelReverse board c) t s).current_channel
        ≠ (channelReverse board c : Int) := by rw [hcur]; exact h
    simp only [selectChannelAsync, hc, if_true, switchChannel_changed _ _ hch hp]
    cases t <;> simp [setupSwitchDelay]
  · have hp : (switchProbe (channelReverse board c) t s).current_channel
        = (channelReverse board c : Int) := by rw [hcur]; exact not_not.mp h
    simp only [selectChannelAsync, hc, if_true, switchChannel_same _ _ hp, Bool.false_eq_true,
      if_false]
    split
    · split <;> rfl
    · rfl

/-- The engine type after a select call with a thermocouple type, given the cache invariant
before the call. -/
theorem switchProbe_tc_type_eq (ch : Nat) (t : temperature_probe_t) (s : Machine)
    (hinv : TcTypeCached s) (ht : isTC t = true) :
    (switchProbe ch t s).tc_current_probe_type = t := by
  rw [switchProbe_tc_type]
  by_cases hm : s.current_channel ≠ (ch : Int) ∨ s.current_probe_type ch ≠ t
  · rw [if_pos ⟨ht, hm⟩]
  · rw [if_neg (fun h => hm h.2)]
    have hcur : s.current_channel = (ch : Int) := by
      by_contra h; exact hm (Or.inl h)
    have hcache : s.current_probe_type ch = t := by
      by_contra h; exact hm (Or.inr h)
    rw [hinv ch hcur (by rw [hcache]; exact ht), hcache]

theorem tcTypeCached_after (s s2 : Machine) (ch : Nat) (t : temperature_probe_t)
    (hinv : TcTypeCached s)
    (hcur : s2.current_channel = (ch : Int))
    (hcache : s2.current_probe_type = Function.update s.current_probe_type ch t)
    (htc : s2.tc_current_probe_type = (switchProbe ch t s).tc_current_probe_type) :
    TcTypeCached s2 := by
  intro k hk hkt
  have hkch : k = ch := by
    have : (k : Int) = (ch : Int) := hk.symm.trans hcur
    exact_mod_cast this
  subst hkch
  rw [hcache, Function.update_same] at hkt ⊢
  rw [htc, switchProbe_tc_type_eq k t s hinv hkt]

theorem tcTypeCached_step (board : Option PortentaBoardInfo) (s : Machine) (op : Op)
    (hop : isSelect op = true) (hinv : TcTypeCached s) : TcTypeCached (step board s op) := by
  cases op with
  | selectChannel c t =>
    by_cases hc : c ≤ 2
    · obtain ⟨h1, h2, -⟩ := selectChannel_state board c t s hc
      exact tcTypeCached_after s _ _ t hinv h1 h2 (selectChannel_tc_type board c t s hc)
    · have : step board s (Op.selectChannel c t) = s := by simp [step, selectChannel, hc]
      rw [this]; exact hinv
  | selectChannelAsync now c t =>
    by_cases hc : c ≤ 2
    · have htc := selectChannelAsync_tc_type board now c t s hc
      by_cases h : s.current_channel ≠ (channelReverse board c : Int)
      · obtain ⟨-, h1, h2, -⟩ := selectChannelAsync_changed board now c t s hc h
        exact tcTypeCached_after s _ _ t hinv h1 h2 htc
      · obtain ⟨h1, h2, -⟩ := selectChannelAsync_same board now c t s hc (not_not.mp h)
        exact tcTypeCached_after s _ _ t hinv h1 h2 htc
    · have : step board s (Op.selectChannelAsync now c t) = s := by
        simp [step, selectChannelAsync, hc]
      rw [this]; exact hinv
  | beginTC rx => simp [isSelect] at hop
  | beginRTD => simp [isSelect] at hop
  | begin rx => simp [isSelect] at hop
  | endTC => simp [isSelect] at hop
  | endRTD => simp [isSelect] at hop
  | end_ => simp [isSelect] at hop

theorem tcTypeCached_run (board : Option PortentaBoardInfo) (ops : List Op) :
    ∀ s : Machine, (∀ o ∈ ops, isSelect o = true) → TcTypeCached s →
      TcTypeCached (run board s ops) := by
  induction ops with
  | nil => intro s _ h; exact h
  | cons o os ih =>
    intro s hops h
    exact ih (step board s o) (fun x hx => hops x (List.mem_cons_of_mem o hx))
      (tcTypeCached_step board s o (hops o (List.mem_cons_self o os)) h)

theorem tcTypeCached_init (d : MAX31855Defaults) : TcTypeCached (Machine.init d) := by
  intro ch hcur _
  have h : (-1 : Int) = (ch : Int) := hcur
  omega

/-- C27: in every state reached from the initial state by `selectChannel` and
`selectChannelAsync` calls alone, a further call with a valid channel `c` and a thermocouple
type `t` leaves the probe type of the thermocouple engine equal to `t`, on the cache-hit path
as well; and every call with a valid channel sets the cache entry of the remapped channel to
the probe type passed and leaves the other entries as they were. -/
theorem select_keeps_engine_type (board : Option PortentaBoardInfo) (d : MAX31855Defaults)
    (ops : List Op) (now c : Nat) (t : temperature_probe_t)
    (hops : ∀ o ∈ ops, isSelect o = true) (hc : c ≤ 2) :
    (isTC t = true →
      (selectChannel board c t (run board (Machine.init d) ops)).tc_current_probe_type = t ∧
      (selectChannelAsync board now c t
        (run board (Machine.init d) ops)).1.tc_current_probe_type = t) ∧
    (selectChannel board c t (run board (Machine.init d) ops)).current_probe_type
      (channelReverse board c) = t ∧
    (∀ k : Nat, k ≠ channelReverse board c →
      (selectChannel board c t (run board (Machine.init d) ops)).current_probe_type k =
        (run board (Machine.init d) ops).current_probe_type k) ∧
    (selectChannelAsync board now c t (run board (Machine.init d) ops)).1.current_probe_type
      (channelReverse board c) = t ∧
    (∀ k : Nat, k ≠ channelReverse board c →
      (selectChannelAsync board now c t (run board (Machine.init d) ops)).1.current_probe_type k =
        (run board (Machine.init d) ops).current_probe_type k) := by
  have hinv := tcTypeCached_run board ops (Machine.init d) hops (tcTypeCached_init d)
  generalize run board (Machine.init d) ops = s at hinv ⊢
  have hsync := (selectChannel_state board c t s hc).2.1
  have hasync : (selectChannelAsync board now c t s).1.current_probe_type =
      Function.update s.current_probe_type (channelReverse board c) t := by
    by_cases h : s.current_channel ≠ (channelReverse board c : Int)
    · exact (selectChannelAsync_changed board now c t s hc h).2.2.1
    · exact (selectChannelAsync_same board now c t s hc (not_not.mp h)).2.1
  refine ⟨?_, ?_, ?_, ?_, ?_⟩
  · intro ht
    exact ⟨by rw [selectChannel_tc_type board c t s hc]; exact switchProbe_tc_type_eq _ t s hinv ht,
      by rw [selectChannelAsync_tc_type board now c t s hc]
         exact switchProbe_tc_type_eq _ t s hinv ht⟩
  · rw [hsync, Function.update_same]
  · intro k hk; rw [hsync, Function.update_noteq hk]
  · rw [hasync, Function.update_same]
  · intro k hk; rw [hasync, Function.update_noteq hk]

/-- Witness of C27: after `selectChannel(0, K)`, `selectChannel(1, J)`, `selectChannel(0, K)`
the call `selectChannel(0, K)` takes the cache-hit path and the engine type is K. -/
theorem select_keeps_engine_type_witness :
    (selectChannel none 0 PROBE_TC_K (run none (Machine.init d0)
      [Op.selectChannel 0 PROBE_TC_K, Op.selectChannel 1 PROBE_TC_J,
       Op.selectChannel 0 PROBE_TC_K])).tc_current_probe_type = PROBE_TC_K :=
  ((select_keeps_engine_type none d0
    [Op.selectChannel 0 PROBE_TC_K, Op.selectChannel 1 PROBE_TC_J, Op.selectChannel 0 PROBE_TC_K]
    0 0 PROBE_TC_K (by decide) (by decide)).1 (by decide)).1

end PortentaMachineControl
